import Mathlib

/-!
# Glade storefront theme: the cart drawer controller and the page components

A shallow embedding of `src/assets/cart-drawer.js` (class `CartDrawer`) and of the
`cart:updated` listener of `src/assets/header.js`, followed by the parts of
`instagram.js`, `carousel.js`, `product.js`, `footer.js` and `shop.js` that the
statements speak about.

Modelling conventions

* JavaScript values are the type `JsVal`.  Numbers are the integers of the Cart
  Service contract (counts, minor-unit amounts, identifiers) plus `NaN`; strings
  are Lean strings (so `length` and `<` count code points, which agrees with
  JavaScript on the Basic Multilingual Plane).  Objects are the list of their own
  enumerable properties in enumeration order, with distinct keys and with the
  inherited `toString` and `valueOf`.
* What the browser platform computes and this repository does not define is a field
  of `Host`: `Intl.NumberFormat`, `ToNumber` on strings, the text of an
  engine-raised `TypeError`, and whether the global `gtag` exists.
* The page is the record `Dom`; an element the constructor did not find is `none`.
* An `async` method is cut at its `await` points.  Each segment is a function on
  `State`; a suspended call is a `Task`.  `step` interleaves calls and network
  completions; `updateCartDisplay`, `updateQuantity`, `removeItem` and `addItem`
  run one call with the network results it will meet and nothing interleaved.
* A call of the analytics hook `trackAddToCart` is recorded with its argument, and
  a quotient `price / 100` is kept as the division of a number by 100.
* The other components are records of the fields and page elements their methods
  touch, and each method or listener is a function on the record.  Timers are part
  of the record: the identifiers of the interval timers that are active, and a
  count or a flag for the timeouts that are set.
* `parseInt` and `trim` are written out (`jsParseInt`, `jsTrim`); arithmetic on what
  `parseInt` returns is followed within the safe integers, where doubles are exact.  The pattern of
  `isValidEmail` is a `RegularExpression` over the four kinds of character it tells
  apart.  `Array.prototype.sort` is a stable insertion sort (`stableSort`).
-/

namespace Glade

/-! ## JavaScript values -/

/-- A JavaScript value, as far as the cart drawer meets one. -/
inductive JsVal where
  | undefined
  | null
  | bool (b : Bool)
  | num (n : Int)
  | nan
  | str (s : String)
  | arr (xs : List JsVal)
  | obj (props : List (String × JsVal))
  deriving Repr, Inhabited

/-- An `Error` object: only its `message` is ever read. -/
structure JsErr where
  message : String
  deriving Repr, DecidableEq, Inhabited

/-- The platform functions the source calls and does not define. -/
structure Host where
  /-- `new Intl.NumberFormat('en-IN', {style: 'currency', currency: 'INR'}).format(cents / 100)`,
  as a function of `cents`. -/
  intlFormat : JsVal → String
  /-- `ToNumber` on a string; `none` is `NaN`. -/
  stringToNumber : String → Option Int
  /-- The message of a `TypeError` the engine raises (reading a property of `null`
  or `undefined`, calling what is not a function). -/
  typeErrorMessage : String
  /-- Whether `typeof gtag !== 'undefined'`. -/
  gtagDefined : Bool

/-- The engine raises a `TypeError`. -/
def Host.typeError (h : Host) : JsErr := ⟨h.typeErrorMessage⟩

/-- JavaScript truthiness (`ToBoolean`). -/
def JsVal.truthy : JsVal → Bool
  | .undefined => false
  | .null => false
  | .bool b => b
  | .num n => n != 0
  | .nan => false
  | .str s => s != ""
  | .arr _ => true
  | .obj _ => true

mutual
/-- `ToString` (template literals, `new Error(x)`, `FormData.append`). -/
def JsVal.toStr : JsVal → String
  | .undefined => "undefined"
  | .null => "null"
  | .bool true => "true"
  | .bool false => "false"
  | .num n => toString n
  | .nan => "NaN"
  | .str s => s
  | .arr xs => ",".intercalate (JsVal.elemStrs xs)
  | .obj _ => "[object Object]"
/-- The element strings `Array.prototype.join` puts together: `null` and
`undefined` give the empty string. -/
def JsVal.elemStrs : List JsVal → List String
  | [] => []
  | .undefined :: rest => "" :: JsVal.elemStrs rest
  | .null :: rest => "" :: JsVal.elemStrs rest
  | x :: rest => JsVal.toStr x :: JsVal.elemStrs rest
end

/-- The string an assignment to `textContent` stores.  The attribute is a nullable
string, so `null` and `undefined` store the empty string and every other value goes
through `ToString`. -/
def JsVal.toText : JsVal → String
  | .null => ""
  | .undefined => ""
  | v => v.toStr

/-- `ToPrimitive` for values that came out of `JSON.parse`. -/
def JsVal.toPrimitive : JsVal → JsVal
  | .arr xs => .str (JsVal.arr xs).toStr
  | .obj ps => .str (JsVal.obj ps).toStr
  | v => v

/-- `ToNumber`; `none` is `NaN`. -/
def JsVal.toNumber (h : Host) : JsVal → Option Int
  | .undefined => none
  | .null => some 0
  | .bool b => some (if b then 1 else 0)
  | .num n => some n
  | .nan => none
  | .str s => h.stringToNumber s
  | .arr xs => h.stringToNumber (JsVal.arr xs).toStr
  | .obj ps => h.stringToNumber (JsVal.obj ps).toStr

/-- The relational operator `a > b`. -/
def JsVal.gt (h : Host) (a b : JsVal) : Bool :=
  match a.toPrimitive, b.toPrimitive with
  | .str x, .str y => decide (y < x)
  | pa, pb =>
    match pa.toNumber h, pb.toNumber h with
    | some x, some y => decide (y < x)
    | _, _ => false

/-- The comparison `v === 0`. -/
def JsVal.isZero : JsVal → Bool
  | .num n => n == 0
  | _ => false

/-- The comparison `v === s` for a string literal `s`. -/
def JsVal.isStr (s : String) : JsVal → Bool
  | .str t => t == s
  | _ => false

/-- `Math.max(0, q)`. -/
def JsVal.mathMax0 (h : Host) (q : JsVal) : JsVal :=
  match q.toNumber h with
  | some n => .num (max 0 n)
  | none => .nan

/-- The expression `v - 1`. -/
def JsVal.minusOne (h : Host) (v : JsVal) : JsVal :=
  match v.toNumber h with
  | some n => .num (n - 1)
  | none => .nan

/-- The expression `v + 1`: concatenation when `v` is, or converts to, a string. -/
def JsVal.plusOne (h : Host) (v : JsVal) : JsVal :=
  match v.toPrimitive with
  | .str s => .str (s ++ "1")
  | p =>
    match p.toNumber h with
    | some n => .num (n + 1)
    | none => .nan

/-- Property lookup in an own-property list. -/
def JsVal.lookup (key : String) : List (String × JsVal) → JsVal
  | [] => .undefined
  | (k, v) :: rest => if k == key then v else JsVal.lookup key rest

/-- The member expression `v.key` for a named field (`item_count`, `message`, ...):
a `TypeError` on `null` and `undefined`, `undefined` where the property is missing. -/
def JsVal.get (h : Host) (v : JsVal) (key : String) : Except JsErr JsVal :=
  match v with
  | .undefined => .error h.typeError
  | .null => .error h.typeError
  | .obj ps => .ok (JsVal.lookup key ps)
  | .str s => .ok (if key == "length" then .num s.length else .undefined)
  | .arr xs => .ok (if key == "length" then .num xs.length else .undefined)
  | _ => .ok .undefined

/-- Index keys paired with the elements, from index `i` on. -/
def JsVal.indexed : Nat → List JsVal → List (String × JsVal)
  | _, [] => []
  | i, x :: rest => (toString i, x) :: JsVal.indexed (i + 1) rest

/-- The pairs `(key, v[key])` for `key` in `Object.keys(v)`, in that order. -/
def JsVal.entries (h : Host) : JsVal → Except JsErr (List (String × JsVal))
  | .undefined => .error h.typeError
  | .null => .error h.typeError
  | .obj ps => .ok ps
  | .arr xs => .ok (JsVal.indexed 0 xs)
  | .str s => .ok (JsVal.indexed 0 (s.toList.map fun c => .str c.toString))
  | _ => .ok []

/-- The value of a string of decimal digits, read after the digits worth `acc`. -/
def digitsValue : List Char → Nat → Option Nat
  | [], acc => some acc
  | c :: rest, acc => if c.isDigit then digitsValue rest (acc * 10 + (c.toNat - 48)) else none

/-- A stand-in for `ToNumber` on strings that knows the integer literals: the empty
string is 0, an optional minus sign and decimal digits are that integer, anything
else is `NaN`. -/
def integerLiteral (s : String) : Option Int :=
  match s.toList with
  | [] => some 0
  | '-' :: c :: rest => (digitsValue (c :: rest) 0).map fun n => -(n : Int)
  | cs => (digitsValue cs 0).map fun n => (n : Int)

/-- A host for evaluating the model on concrete inputs: an amount prints as the
decimal text of `cents` behind a rupee sign, the numeric strings are the integer
literals, and `gtag` is loaded. -/
def demoHost : Host where
  intlFormat := fun v => "₹" ++ v.toStr
  stringToNumber := integerLiteral
  typeErrorMessage := "Cannot read properties of null"
  gtagDefined := true

/-! ## The page and the controller state -/

/-- The element `#cart-drawer-items`. -/
structure ItemsContainer where
  /-- The markup last assigned to `innerHTML`. -/
  innerHTML : String
  /-- Whether the class list holds `loading`. -/
  loading : Bool
  deriving Repr, DecidableEq, Inhabited

/-- An element matching `.cart-count`. -/
structure Badge where
  textContent : String
  /-- The inline `style.display`. -/
  display : String
  deriving Repr, DecidableEq, Inhabited

/-- The element `#cart-drawer-overlay`. -/
structure Overlay where
  /-- The inline `style.display`. -/
  display : String
  /-- Whether the class list holds `active`. -/
  active : Bool
  deriving Repr, DecidableEq, Inhabited

/-- The element `#cart-count` of the header (`header.js`). -/
structure HeaderCount where
  textContent : String
  /-- The attribute `data-count`. -/
  dataCount : String
  display : String
  deriving Repr, DecidableEq, Inhabited

/-- The part of the document the cart drawer reads and writes.  An element that
`getElementById` did not find is `none` (for `closeBtn`: `false`). -/
structure Dom where
  overlay : Option Overlay
  closeBtn : Bool
  itemsContainer : Option ItemsContainer
  /-- The `textContent` of `#cart-drawer-count`. -/
  countElement : Option String
  /-- The `textContent` of `#cart-subtotal-amount`. -/
  subtotalElement : Option String
  /-- The `disabled` flag of `#cart-checkout-btn`. -/
  checkoutBtn : Option Bool
  /-- The result of `document.querySelectorAll('.cart-count')`. -/
  badges : List Badge
  /-- The inline `document.body.style.overflow`. -/
  bodyOverflow : String
  /-- How many times `document.body.style.overflow` was written. -/
  overflowWrites : Nat
  /-- How many times `closeBtn.focus()` ran. -/
  focusCalls : Nat
  headerCount : Option HeaderCount
  deriving Repr, DecidableEq, Inhabited

/-- A request handed to `fetch`. -/
inductive Request where
  /-- `GET /cart.js`. -/
  | getCart
  /-- `POST /cart/change.js` with body `JSON.stringify(payload)`. -/
  | change (payload : JsVal)
  /-- `POST /cart/add.js` with the `FormData` entries `form`, in order. -/
  | add (form : List (String × String))
  deriving Repr, Inhabited

/-- A call `showFeedback(message, kind)`. -/
structure Notification where
  message : String
  kind : String
  deriving Repr, DecidableEq, Inhabited

/-- The number `cents / 100`, kept as the division that it is: the arithmetic of
doubles is not modelled.  The dividend `cents` is a number, `none` for `NaN`, and
the quotient is `NaN` exactly when the dividend is. -/
structure Hundredths where
  cents : Option Int
  deriving Repr, DecidableEq, Inhabited

/-- A call `gtag('event', 'add_to_cart', ...)`, lines 406-416: the `currency` and the
`value` of the event and the fields of the one entry of `items`. -/
structure GtagCall where
  currency : String
  value : Hundredths
  itemId : JsVal
  itemName : JsVal
  itemVariant : JsVal
  quantity : JsVal
  price : Hundredths
  deriving Repr, Inhabited

/-- A `CustomEvent` dispatched on `document`. -/
structure DomEvent where
  name : String
  detail : JsVal
  deriving Repr, Inhabited

/-- Who awaits a running `updateCartDisplay`. -/
inductive Owner where
  /-- Nobody: the call from `init()` or `open()`, whose promise is dropped. -/
  | detached
  /-- The call of `updateQuantity`, line 115. -/
  | updateQuantity
  /-- The call of `addItem`, line 154, which holds the parsed `item`. -/
  | addItem (item : JsVal)
  deriving Repr, Inhabited

/-- A call suspended at an `await`. -/
inductive Task where
  /-- An `updateQuantity` at `await fetch('/cart/change.js', ...)`, line 103. -/
  | changeFetch
  /-- An `addItem` at `await fetch('/cart/add.js', ...)`, line 147. -/
  | addFetch
  /-- An `addItem` at `await response.json()`, line 153 (`ok`) or 163 (not `ok`). -/
  | addJson (ok : Bool)
  /-- An `updateCartDisplay` at `await fetch('/cart.js')`, line 177. -/
  | cartFetch (k : Owner)
  /-- An `updateCartDisplay` at `await response.json()`, line 178. -/
  | cartJson (k : Owner)
  deriving Repr, Inhabited

/-- The fields of a `CartDrawer`, the page, and what the instance has done so far
(each list oldest first). -/
structure State where
  isOpen : Bool
  isLoading : Bool
  dom : Dom
  /-- Every request handed to `fetch`. -/
  requests : List Request
  /-- Every call of `showFeedback`. -/
  feedback : List Notification
  /-- The label of every call of `console.error`. -/
  console : List String
  /-- Every call of `gtag`. -/
  analytics : List GtagCall
  /-- The argument of every call of `trackAddToCart`. -/
  tracked : List JsVal
  /-- Every event dispatched on `document`. -/
  events : List DomEvent
  /-- The 300 ms timers of `close()` that have not fired yet. -/
  hideTimers : Nat
  /-- The suspended calls. -/
  tasks : List Task
  deriving Repr, Inhabited

/-- How an `async` call settles. -/
inductive Completion where
  | resolved (v : JsVal)
  | rejected (e : JsErr)
  deriving Repr, Inhabited

/-- What a segment of an `async` call ends in. -/
inductive Next where
  /-- The call is suspended at an `await`. -/
  | await (t : Task)
  /-- The outermost call of the chain settles. -/
  | settled (c : Completion)
  deriving Repr, Inhabited

/-- What the network does to one request, seen from `fetch` and `response.json()`. -/
inductive NetResult where
  /-- The promise of `fetch` rejects (network unreachable). -/
  | failed (e : JsErr)
  /-- A response arrives: `ok` is `response.ok` (a 2xx status), `body` is what
  `response.json()` settles with (an error for an unparsable body). -/
  | response (ok : Bool) (body : Except JsErr JsVal)
  deriving Repr, Inhabited

/-- One settlement of a pending promise. -/
inductive NetEvent where
  | fetchRejected (e : JsErr)
  | fetchResponse (ok : Bool)
  | jsonRejected (e : JsErr)
  | jsonValue (v : JsVal)
  deriving Repr, Inhabited

/-! ## Synchronous methods of `CartDrawer` -/

/-- `formatMoney(cents)`, lines 395-401. -/
def formatMoney (h : Host) (cents : JsVal) : String :=
  h.intlFormat cents

/-- `setLoading(loading)`, lines 334-344. -/
def setLoading (loading : Bool) (s : State) : State :=
  { s with
    isLoading := loading
    dom := { s.dom with
      itemsContainer := s.dom.itemsContainer.map fun c => { c with loading := loading }
      checkoutBtn := s.dom.checkoutBtn.map fun _ => loading } }

/-- `showFeedback(message, type)`, lines 346-393: the notification shown.  The
styling of the feedback element and the timers that remove it are left out. -/
def showFeedback (message kind : String) (s : State) : State :=
  { s with feedback := s.feedback ++ [⟨message, kind⟩] }

/-- `console.error(label, error)`. -/
def consoleError (label : String) (s : State) : State :=
  { s with console := s.console ++ [label] }

/-- `updateCartCount(count)`, lines 194-206. -/
def updateCartCount (h : Host) (count : JsVal) (s : State) : State :=
  { s with
    dom := { s.dom with
      countElement := s.dom.countElement.map fun _ => count.toText
      badges := s.dom.badges.map fun _ =>
        { textContent := count.toText
          display := if JsVal.gt h count (.num 0) then "block" else "none" } } }

/-- `updateSubtotal(totalPrice)`, lines 208-212. -/
def updateSubtotal (h : Host) (totalPrice : JsVal) (s : State) : State :=
  { s with
    dom := { s.dom with
      subtotalElement := s.dom.subtotalElement.map fun _ => formatMoney h totalPrice } }

/-- The template literal of `renderEmptyState`, lines 278-291. -/
def emptyStateHTML : String :=
  "\n      <div class=\"cart-empty-state\">\n        <div class=\"cart-empty-icon\">\n          <svg width=\"48\" height=\"48\" viewBox=\"0 0 24 24\" fill=\"none\" stroke=\"currentColor\" stroke-width=\"1\">\n            <path d=\"M6 2L3 6v14a2 2 0 0 0 2 2h14a2 2 0 0 0 2-2V6l-3-4z\"></path>\n            <line x1=\"3\" y1=\"6\" x2=\"21\" y2=\"6\"></line>\n            <path d=\"M16 10a4 4 0 0 1-8 0\"></path>\n          </svg>\n        </div>\n        <h3 class=\"cart-empty-title\">Your bag is empty</h3>\n        <p class=\"cart-empty-text\">Add some products to get started</p>\n        <a href=\"/collections/all\" class=\"cart-empty-button\">SHOP NOW</a>\n      </div>\n    "

/-- The assignment `this.itemsContainer.innerHTML = html`. -/
def setItemsHTML (html : String) (s : State) : State :=
  { s with
    dom := { s.dom with
      itemsContainer := s.dom.itemsContainer.map fun c => { c with innerHTML := html } } }

/-- `renderEmptyState()`, lines 277-294. -/
def renderEmptyState (s : State) : State :=
  setItemsHTML emptyStateHTML s

/-- The member expression `item.key` once `item` is known not to be `null` or
`undefined`. -/
def JsVal.field (h : Host) (item : JsVal) (key : String) : JsVal :=
  match item.get h key with
  | .ok v => v
  | .error _ => .undefined

/-- The image cell of a row, lines 234-237. -/
def imageCell (imageUrl title : JsVal) : String :=
  if imageUrl.truthy then
    "<img src=\"" ++ imageUrl.toStr ++ "\" alt=\"" ++ title.toStr ++ "\" width=\"80\" height=\"100\">"
  else
    "<div class=\"cart-item-placeholder\"><span>No Image</span></div>"

/-- The variant line of a row, line 242. -/
def variantLine (variantTitle : JsVal) : String :=
  if variantTitle.truthy then
    "<p class=\"cart-item-variant\">" ++ variantTitle.toStr ++ "</p>"
  else ""

/-- The struck-through original price of a row, line 246. -/
def originalPriceSpan (h : Host) (hasDiscount : Bool) (originalLinePrice : JsVal) : String :=
  if hasDiscount then
    "<span class=\"cart-item-original-price\">" ++ formatMoney h originalLinePrice ++ "</span>"
  else ""

/-- `renderCartItem(item)`, lines 226-275.  Reading `item.image` raises a `TypeError`
when `item` is `null` or `undefined`. -/
def renderCartItem (h : Host) (item : JsVal) : Except JsErr String :=
  match item.get h "image" with
  | .error e => .error e
  | .ok image =>
    let imageUrl : JsVal := if image.truthy then image else .str ""
    let variantTitle : JsVal :=
      if (item.field h "variant_title").isStr "Default Title" then .str ""
      else item.field h "variant_title"
    let hasDiscount : Bool :=
      JsVal.gt h (item.field h "original_line_price") (item.field h "final_line_price")
    .ok (String.join [
      "\n      <div class=\"cart-drawer-item\" data-item-id=\"",
      (item.field h "id").toStr,
      "\">\n        <div class=\"cart-item-image\">\n          ",
      imageCell imageUrl (item.field h "title"),
      "\n        </div>\n        \n        <div class=\"cart-item-details\">\n          <h4 class=\"cart-item-title\">",
      (item.field h "product_title").toStr,
      "</h4>\n          ",
      variantLine variantTitle,
      "\n          \n          <div class=\"cart-item-price-row\">\n            <span class=\"cart-item-price\">",
      formatMoney h (item.field h "final_line_price"),
      "</span>\n            ",
      originalPriceSpan h hasDiscount (item.field h "original_line_price"),
      "\n          </div>\n          \n          <div class=\"cart-item-quantity\">\n            <button class=\"quantity-btn quantity-decrease\" \n                    data-item-id=\"",
      (item.field h "id").toStr,
      "\"\n                    data-quantity=\"",
      ((item.field h "quantity").minusOne h).toStr,
      "\"\n                    aria-label=\"Decrease quantity\">\n              -\n            </button>\n            <span class=\"quantity-display\">",
      (item.field h "quantity").toStr,
      "</span>\n            <button class=\"quantity-btn quantity-increase\" \n                    data-item-id=\"",
      (item.field h "id").toStr,
      "\"\n                    data-quantity=\"",
      ((item.field h "quantity").plusOne h).toStr,
      "\"\n                    aria-label=\"Increase quantity\">\n              +\n            </button>\n            <button class=\"cart-item-remove\" \n                    data-item-id=\"",
      (item.field h "id").toStr,
      "\"\n                    aria-label=\"Remove item\">\n              <svg width=\"16\" height=\"16\" viewBox=\"0 0 24 24\" fill=\"none\" stroke=\"currentColor\" stroke-width=\"2\">\n                <line x1=\"18\" y1=\"6\" x2=\"6\" y2=\"18\"></line>\n                <line x1=\"6\" y1=\"6\" x2=\"18\" y2=\"18\"></line>\n              </svg>\n            </button>\n          </div>\n        </div>\n      </div>\n    "])

/-- The rows `items.map(item => this.renderCartItem(item))`, left to right; the
first row that raises ends the loop. -/
def renderRows (h : Host) : List JsVal → Except JsErr (List String)
  | [] => .ok []
  | item :: rest =>
    match renderCartItem h item with
    | .error e => .error e
    | .ok row =>
      match renderRows h rest with
      | .error e => .error e
      | .ok rows => .ok (row :: rows)

/-- `renderCartItems(items)`, lines 214-224.  Reading `items.length` raises on `null`
and `undefined`; `items.map` is a function only when `items` is an array. -/
def renderCartItems (h : Host) (items : JsVal) (s : State) : Except JsErr State :=
  match s.dom.itemsContainer with
  | none => .ok s
  | some _ =>
    match items.get h "length" with
    | .error e => .error e
    | .ok len =>
      if len.isZero then .ok (renderEmptyState s)
      else
        match items with
        | .arr xs =>
          match renderRows h xs with
          | .error e => .error e
          | .ok rows => .ok (setItemsHTML (String.join rows) s)
        | _ => .error h.typeError

/-- The synchronous part of `updateCartDisplay()`, lines 175-177: the request is
handed to `fetch` and the call waits for it. -/
def updateCartDisplayBegin (s : State) : State :=
  { s with requests := s.requests ++ [.getCart] }

/-- A call `this.updateCartDisplay()` whose promise nobody awaits (`init`, `open`). -/
def spawnRefresh (s : State) : State :=
  let s1 := updateCartDisplayBegin s
  { s1 with tasks := s1.tasks ++ [.cartFetch .detached] }

/-- `open()`, lines 296-316. -/
def openDrawer (s : State) : State :=
  if s.isOpen then s
  else
    let s1 : State :=
      { s with
        isOpen := true
        dom := { s.dom with
          bodyOverflow := "hidden"
          overflowWrites := s.dom.overflowWrites + 1
          overlay := s.dom.overlay.map fun _ => { display := "flex", active := true } } }
    let s2 := spawnRefresh s1
    if s2.dom.closeBtn then { s2 with dom := { s2.dom with focusCalls := s2.dom.focusCalls + 1 } }
    else s2

/-- `close()`, lines 318-332. -/
def closeDrawer (s : State) : State :=
  if !s.isOpen then s
  else
    let s1 : State :=
      { s with
        isOpen := false
        dom := { s.dom with
          bodyOverflow := ""
          overflowWrites := s.dom.overflowWrites + 1 } }
    match s1.dom.overlay with
    | none => s1
    | some o =>
      { s1 with
        dom := { s1.dom with overlay := some { o with active := false } }
        hideTimers := s1.hideTimers + 1 }

/-- The callback of the timer set by `close()`, lines 328-330. -/
def hideTimerFires (s : State) : State :=
  { s with
    dom := { s.dom with overlay := s.dom.overlay.map fun o => { o with display := "none" } }
    hideTimers := s.hideTimers - 1 }

/-- The expression `price / 100` of lines 408 and 414. -/
def JsVal.overHundred (h : Host) (price : JsVal) : Hundredths :=
  ⟨price.toNumber h⟩

/-- The call `this.trackAddToCart(item)` of line 159 is made: its argument is
recorded. -/
def noteTracked (item : JsVal) (s : State) : State :=
  { s with tracked := s.tracked ++ [item] }

/-- `trackAddToCart(item)`, lines 403-418.  Reading `item.price` raises a `TypeError`
when `item` is `null` or `undefined`. -/
def trackAddToCart (h : Host) (item : JsVal) (s : State) : Except JsErr State :=
  if h.gtagDefined then
    match item.get h "price" with
    | .error e => .error e
    | .ok price =>
      .ok { s with
        analytics := s.analytics ++ [
          { currency := "INR"
            value := price.overHundred h
            itemId := item.field h "product_id"
            itemName := item.field h "product_title"
            itemVariant := item.field h "variant_title"
            quantity := item.field h "quantity"
            price := price.overHundred h }] }
  else .ok s

/-- The `cart:updated` listener of `header.js`, lines 152-164, run on an event with
the given `detail`. -/
def headerOnCartUpdated (h : Host) (detail : JsVal) (d : Dom) : Dom :=
  match d.headerCount with
  | none => d
  | some _ =>
    if detail.truthy then
      match detail.field h "item_count" with
      | .undefined => d
      | count =>
        { d with
          headerCount := some
            { textContent := count.toText
              dataCount := count.toStr
              display := if count.isZero then "none" else "flex" } }
    else d

/-- The constructor, lines 7-20, and `init()`, lines 22-26, on a page `dom`: the
flags are cleared and the first refresh is started. -/
def construct (dom : Dom) : State :=
  spawnRefresh
    { isOpen := false
      isLoading := false
      dom := dom
      requests := []
      feedback := []
      console := []
      analytics := []
      tracked := []
      events := []
      hideTimers := 0
      tasks := [] }

/-! ## The asynchronous methods, segment by segment -/

/-- Lines 180-187 of `updateCartDisplay`, run on the parsed `cart`.  An error comes
with the state reached when it was raised. -/
def applyCart (h : Host) (cart : JsVal) (s : State) : Except (JsErr × State) State :=
  match cart.get h "item_count" with
  | .error e => .error (e, s)
  | .ok count =>
    let s1 := updateCartCount h count s
    let s2 := updateSubtotal h (cart.field h "total_price") s1
    match renderCartItems h (cart.field h "items") s2 with
    | .error e => .error (e, s2)
    | .ok s3 =>
      .ok { s3 with dom := { s3.dom with checkoutBtn := s3.dom.checkoutBtn.map fun _ => count.isZero } }

/-- The `catch` block of `updateCartDisplay`, lines 189-191. -/
def catchDisplay (s : State) : State :=
  consoleError "Failed to update cart display:" s

/-- The rest of `updateCartDisplay` once `response.json()` of line 178 has settled
with `body`. -/
def refreshOnJson (h : Host) (body : Except JsErr JsVal) (s : State) : State :=
  match body with
  | .error _ => catchDisplay s
  | .ok cart =>
    match applyCart h cart s with
    | .ok s1 => s1
    | .error (_, s1) => catchDisplay s1

/-- The rest of `updateCartDisplay` once the request of line 177 has met `r`.  The
flag `response.ok` is not read. -/
def refreshLand (h : Host) (r : NetResult) (s : State) : State :=
  match r with
  | .failed _ => catchDisplay s
  | .response _ body => refreshOnJson h body s

/-- `updateCartDisplay()`, lines 175-192, run to the end on the network result `r`.
The returned promise always resolves, with `undefined`. -/
def updateCartDisplay (h : Host) (s : State) (r : NetResult) : State × Completion :=
  (refreshLand h r (updateCartDisplayBegin s), .resolved .undefined)

/-- Lines 101-112 of `updateQuantity`: the busy flag is set and the change request
is handed to `fetch`. -/
def updateQuantityBegin (h : Host) (itemId quantity : JsVal) (s : State) : State :=
  let s1 := setLoading true s
  { s1 with
    requests := s1.requests ++
      [.change (.obj [("id", itemId), ("quantity", quantity.mathMax0 h)])] }

/-- The `catch` and `finally` blocks of `updateQuantity`, lines 120-125. -/
def updateQuantityCatch (s : State) : State × Completion :=
  (setLoading false
    (showFeedback "Failed to update cart" "error" (consoleError "Cart update error:" s)),
   .resolved .undefined)

/-- Line 116 and the `finally` block of `updateQuantity`, after the refresh. -/
def updateQuantityDone (s : State) : State × Completion :=
  (setLoading false (showFeedback "Cart updated" "success" s), .resolved .undefined)

/-- The `catch` and `finally` blocks of `addItem`, lines 166-172, on the error `e`. -/
def addItemCatch (e : JsErr) (s : State) : State × Completion :=
  (setLoading false
    (showFeedback (if e.message ≠ "" then e.message else "Failed to add to cart") "error"
      (consoleError "Add to cart error:" s)),
   .rejected e)

/-- The `FormData` of `addItem`, lines 138-145, with the default parameters of line
132.  `Object.keys` raises a `TypeError` on `null`. -/
def addForm (h : Host) (variantId quantity properties : JsVal) :
    Except JsErr (List (String × String)) :=
  let quantity : JsVal := match quantity with
    | .undefined => .num 1
    | q => q
  let properties : JsVal := match properties with
    | .undefined => .obj []
    | p => p
  match properties.entries h with
  | .error e => .error e
  | .ok es =>
    .ok ([("id", variantId.toStr), ("quantity", quantity.toStr)] ++
      es.map fun kv => ("properties[" ++ kv.1 ++ "]", kv.2.toStr))

/-- Lines 163-164 of `addItem`: the error thrown for the parsed body `payload` of a
response that is not `ok`. -/
def rejectionOfPayload (h : Host) (payload : JsVal) : JsErr :=
  match payload.get h "message" with
  | .error e => e
  | .ok m => ⟨(if m.truthy then m else JsVal.str "Failed to add to cart").toStr⟩

/-- Lines 155-161 and the `finally` block of `addItem`, after the refresh. -/
def addItemDone (h : Host) (item : JsVal) (s : State) : State × Completion :=
  let s1 := noteTracked item (openDrawer (showFeedback "Added to cart" "success" s))
  match trackAddToCart h item s1 with
  | .error e => addItemCatch e s1
  | .ok s2 => (setLoading false s2, .resolved item)

/-- What runs when an `updateCartDisplay` awaited by `k` has returned. -/
def afterRefresh (h : Host) (k : Owner) (s : State) : State × Completion :=
  match k with
  | .detached => (s, .resolved .undefined)
  | .updateQuantity => updateQuantityDone s
  | .addItem item => addItemDone h item s

/-! ## One call at a time -/

/-- `updateQuantity(itemId, quantity)`, lines 97-126, run to the end: `change` is
what the change request meets and `cart` what the refresh of line 115 meets. -/
def updateQuantity (h : Host) (s : State) (itemId quantity : JsVal)
    (change cart : NetResult) : State × Completion :=
  if s.isLoading then (s, .resolved .undefined)
  else
    let s1 := updateQuantityBegin h itemId quantity s
    match change with
    | .failed _ => updateQuantityCatch s1
    | .response true _ => updateQuantityDone (updateCartDisplay h s1 cart).1
    | .response false _ => updateQuantityCatch s1

/-- `removeItem(itemId)`, lines 128-130. -/
def removeItem (h : Host) (s : State) (itemId : JsVal)
    (change cart : NetResult) : State × Completion :=
  updateQuantity h s itemId (.num 0) change cart

/-- `addItem(variantId, quantity, properties)`, lines 132-173, run to the end: `add`
is what the add request meets and `cart` what the refresh of line 154 meets.  The
refresh started by `open()` in line 156 is left suspended in `tasks`. -/
def addItem (h : Host) (s : State) (variantId quantity properties : JsVal)
    (add cart : NetResult) : State × Completion :=
  if s.isLoading then (s, .resolved .undefined)
  else
    let s1 := setLoading true s
    match addForm h variantId quantity properties with
    | .error e => addItemCatch e s1
    | .ok form =>
      let s2 : State := { s1 with requests := s1.requests ++ [.add form] }
      match add with
      | .failed e => addItemCatch e s2
      | .response _ (.error e) => addItemCatch e s2
      | .response true (.ok item) => addItemDone h item (updateCartDisplay h s2 cart).1
      | .response false (.ok payload) => addItemCatch (rejectionOfPayload h payload) s2

/-! ## Calls and network completions interleaved -/

/-- A segment that settled. -/
def settle (r : State × Completion) : State × Next :=
  (r.1, .settled r.2)

/-- The start of `updateQuantity`, up to the first `await`. -/
def startUpdateQuantity (h : Host) (itemId quantity : JsVal) (s : State) : State × Next :=
  if s.isLoading then (s, .settled (.resolved .undefined))
  else (updateQuantityBegin h itemId quantity s, .await .changeFetch)

/-- The start of `addItem`, up to the first `await`. -/
def startAddItem (h : Host) (variantId quantity properties : JsVal) (s : State) :
    State × Next :=
  if s.isLoading then (s, .settled (.resolved .undefined))
  else
    let s1 := setLoading true s
    match addForm h variantId quantity properties with
    | .error e => settle (addItemCatch e s1)
    | .ok form => ({ s1 with requests := s1.requests ++ [.add form] }, .await .addFetch)

/-- The segment of `addItem` that follows `await response.json()`. -/
def addItemOnJson (h : Host) (ok : Bool) (body : Except JsErr JsVal) (s : State) :
    State × Next :=
  match body with
  | .error e => settle (addItemCatch e s)
  | .ok v =>
    if ok then (updateCartDisplayBegin s, .await (.cartFetch (.addItem v)))
    else settle (addItemCatch (rejectionOfPayload h v) s)

/-- The suspended call `t` runs on from the settlement `ev` of the promise it waits
for, up to its next `await` or its end; `none` when `ev` is not a settlement of that
promise. -/
def resume (h : Host) (t : Task) (ev : NetEvent) (s : State) : Option (State × Next) :=
  match t, ev with
  | .changeFetch, .fetchRejected _ => some (settle (updateQuantityCatch s))
  | .changeFetch, .fetchResponse true =>
    some (updateCartDisplayBegin s, .await (.cartFetch .updateQuantity))
  | .changeFetch, .fetchResponse false => some (settle (updateQuantityCatch s))
  | .addFetch, .fetchRejected e => some (settle (addItemCatch e s))
  | .addFetch, .fetchResponse ok => some (s, .await (.addJson ok))
  | .addJson ok, .jsonRejected e => some (addItemOnJson h ok (.error e) s)
  | .addJson ok, .jsonValue v => some (addItemOnJson h ok (.ok v) s)
  | .cartFetch k, .fetchRejected _ => some (settle (afterRefresh h k (catchDisplay s)))
  | .cartFetch k, .fetchResponse _ => some (s, .await (.cartJson k))
  | .cartJson k, .jsonRejected e =>
    some (settle (afterRefresh h k (refreshOnJson h (.error e) s)))
  | .cartJson k, .jsonValue v =>
    some (settle (afterRefresh h k (refreshOnJson h (.ok v) s)))
  | _, _ => none

/-- What can happen next on the page. -/
inductive Action where
  | updateQuantity (itemId quantity : JsVal)
  | removeItem (itemId : JsVal)
  | addItem (variantId quantity properties : JsVal)
  | openDrawer
  | closeDrawer
  /-- A timer of `close()` fires. -/
  | hideTimer
  /-- The promise that the `i`-th suspended call waits for settles with `ev`. -/
  | deliver (i : Nat) (ev : NetEvent)
  deriving Repr, Inhabited

/-- A call that reached an `await` joins the suspended calls. -/
def park (r : State × Next) : State :=
  match r.2 with
  | .await t => { r.1 with tasks := r.1.tasks ++ [t] }
  | .settled _ => r.1

/-- One step of the page: `none` when the action is not enabled. -/
def step (h : Host) (s : State) : Action → Option State
  | .updateQuantity itemId quantity => some (park (startUpdateQuantity h itemId quantity s))
  | .removeItem itemId => some (park (startUpdateQuantity h itemId (.num 0) s))
  | .addItem variantId quantity properties =>
    some (park (startAddItem h variantId quantity properties s))
  | .openDrawer => some (openDrawer s)
  | .closeDrawer => some (closeDrawer s)
  | .hideTimer => if 0 < s.hideTimers then some (hideTimerFires s) else none
  | .deliver i ev =>
    match s.tasks.get? i with
    | none => none
    | some t => (resume h t ev { s with tasks := s.tasks.eraseIdx i }).map park

/-- The state after the actions `as`, in order; `none` once one is not enabled. -/
def run (h : Host) (s : State) : List Action → Option State
  | [] => some s
  | a :: as =>
    match step h s a with
    | none => none
    | some s1 => run h s1 as

/-- The states of one `CartDrawer` built on the page `dom`. -/
inductive Reachable (h : Host) (dom : Dom) : State → Prop where
  | construct : Reachable h dom (construct dom)
  | step {s s1 : State} (a : Action) : Reachable h dom s → step h s a = some s1 →
      Reachable h dom s1

/-- Whether the suspended call waits for the response to a change or add request. -/
def Task.isMutationRequest : Task → Bool
  | .changeFetch => true
  | .addFetch => true
  | _ => false

/-- Whether the suspended call is an `updateQuantity` or `addItem`, at its own
request or at the refresh it awaits. -/
def Task.isMutation : Task → Bool
  | .changeFetch => true
  | .addFetch => true
  | .addJson _ => true
  | .cartFetch .detached => false
  | .cartFetch _ => true
  | .cartJson .detached => false
  | .cartJson _ => true

/-- The number of change and add requests whose response is outstanding. -/
def outstanding (s : State) : Nat :=
  (s.tasks.filter Task.isMutationRequest).length

/-- The number of `updateQuantity` and `addItem` calls in progress. -/
def inProgress (s : State) : Nat :=
  (s.tasks.filter Task.isMutation).length

/-! ## Predicates used in the statements -/

/-- Everything but the page and the console log is the same in both states. -/
def SameCtl (s1 s : State) : Prop :=
  s1.isLoading = s.isLoading ∧ s1.isOpen = s.isOpen ∧ s1.tasks = s.tasks ∧
  s1.feedback = s.feedback ∧ s1.requests = s.requests ∧ s1.events = s.events ∧
  s1.analytics = s.analytics ∧ s1.hideTimers = s.hideTimers ∧ s1.tracked = s.tracked

/-- The busy flag is set exactly when one `updateQuantity` or `addItem` call is in
progress, and no more than one ever is. -/
def BusyInv (s : State) : Prop :=
  inProgress s = if s.isLoading then 1 else 0

/-! ## Concrete pages and responses -/

/-- A page with every element of the drawer, one badge and the header count, showing
a cart of two units. -/
def demoDom : Dom where
  overlay := some ⟨"none", false⟩
  closeBtn := true
  itemsContainer := some ⟨"<div class=\"cart-drawer-item\" data-item-id=\"line-1\"></div>", false⟩
  countElement := some "2"
  subtotalElement := some "₹2000"
  checkoutBtn := some false
  badges := [⟨"2", "block"⟩]
  bodyOverflow := ""
  overflowWrites := 0
  focusCalls := 0
  headerCount := some ⟨"2", "2", "flex"⟩

/-- An idle controller on `demoDom` whose first refresh has already returned. -/
def demoState : State :=
  { construct demoDom with tasks := [] }

/-- The controller on `demoDom` right after `updateQuantity('line-1', 3)` was called:
the change request is outstanding. -/
def demoBusy : State :=
  park (startUpdateQuantity demoHost (.str "line-1") (.num 3) (construct demoDom))

/-- The state `demoBusy` after the change request returned an `ok` response: the
refresh of line 115 is outstanding. -/
def demoRefreshing : State :=
  park (updateCartDisplayBegin { demoBusy with tasks := demoBusy.tasks.eraseIdx 1 },
    .await (.cartFetch .updateQuantity))

/-- The added line item of the end-to-end scenario of the specification. -/
def demoItem : JsVal :=
  .obj [("id", .str "line-1"), ("quantity", .num 2), ("price", .num 1000),
    ("product_id", .str "42"), ("product_title", .str "Tee")]

/-- A cart of two units with no rows to render. -/
def demoCart : JsVal :=
  .obj [("item_count", .num 2), ("total_price", .num 2000), ("items", .arr [])]

/-- The body of an error response. -/
def demoErrorPayload : JsVal :=
  .obj [("message", .str "Internal Server Error")]

/-- An empty cart. -/
def emptyCart : JsVal :=
  .obj [("item_count", .num 0), ("total_price", .num 0), ("items", .arr [])]

/-- A cart of two units in one row. -/
def demoFullCart : JsVal :=
  .obj [("item_count", .num 2), ("total_price", .num 2000), ("items", .arr [demoItem])]

/-! ## Text of the rendered markup -/

/-- Whether the characters `sub` stand at the start of `text`. -/
def startsWithChars : List Char → List Char → Bool
  | [], _ => true
  | _ :: _, [] => false
  | a :: sub, b :: text => a == b && startsWithChars sub text

/-- Whether the characters `sub` occur in `text`, in one piece. -/
def occursIn (sub : List Char) : List Char → Bool
  | [] => sub.isEmpty
  | c :: text => startsWithChars sub (c :: text) || occursIn sub text

/-- Whether the markup `row` contains the text `sub`. -/
def containsText (row sub : String) : Bool :=
  occursIn sub.data row.data

/-- The markup of a row, or the empty string where `renderCartItem` raises. -/
def rowOf (h : Host) (item : JsVal) : String :=
  match renderCartItem h item with
  | .ok row => row
  | .error _ => ""

/-- The default parameter `quantity = 1` of line 132. -/
def quantityOrDefault : JsVal → JsVal
  | .undefined => .num 1
  | q => q

/-! ## More concrete pages and responses -/

/-- A host on which no analytics script is loaded: `gtag` is not defined. -/
def plainHost : Host :=
  { demoHost with gtagDefined := false }

/-- The controller on `demoDom` after `open()`, `close()` and `open()` again, once the
timer set by `close()` has fired. -/
def demoReopened : State :=
  hideTimerFires (openDrawer (closeDrawer (openDrawer (construct demoDom))))

/-- A line item with a variant and a discount: 2000 before, 1500 now. -/
def demoItem2 : JsVal :=
  .obj [("id", .str "line-2"), ("quantity", .num 1), ("product_title", .str "Cap"),
    ("variant_title", .str "Blue"), ("final_line_price", .num 1500),
    ("original_line_price", .num 2000)]

/-- A line item of a product with one default variant and no discount. -/
def demoItem3 : JsVal :=
  .obj [("id", .str "line-3"), ("quantity", .num 1), ("product_title", .str "Scarf"),
    ("variant_title", .str "Default Title"), ("final_line_price", .num 1500),
    ("original_line_price", .num 1500)]

/-! ## Platform text functions -/

/-- Whether `c` is white space or a line terminator of ECMAScript: the class `\s` of
a regular expression, which is also what `trim` and `parseInt` skip. -/
def isJsWhitespace (c : Char) : Bool :=
  [9, 10, 11, 12, 13, 32, 0xA0, 0x1680, 0x2028, 0x2029, 0x202F, 0x205F, 0x3000, 0xFEFF].contains
    c.toNat ||
  (0x2000 ≤ c.toNat && c.toNat ≤ 0x200A)

/-- `String.prototype.trim`. -/
def jsTrim (s : String) : String :=
  ⟨((s.data.dropWhile isJsWhitespace).reverse.dropWhile isJsWhitespace).reverse⟩

/-- The value of `c` as a digit in base `radix`, if it is one. -/
def digitOf (radix : Nat) (c : Char) : Option Nat :=
  let v : Option Nat :=
    if c.isDigit then some (c.toNat - 48)
    else if c.isLower then some (c.toNat - 87)
    else if c.isUpper then some (c.toNat - 55)
    else none
  v.filter fun d => d < radix

/-- The value of the longest run of digits at the start of the text, read after the
digits worth `acc`; `none` while no digit has been read. -/
def leadingDigits (radix : Nat) : List Char → Option Nat → Option Nat
  | [], acc => acc
  | c :: rest, acc =>
    match digitOf radix c with
    | some d => leadingDigits radix rest (some (acc.getD 0 * radix + d))
    | none => acc

/-- The sign at the start of the text of a number, and the text behind it. -/
def readSign : List Char → Bool × List Char
  | '-' :: rest => (true, rest)
  | '+' :: rest => (false, rest)
  | rest => (false, rest)

/-- The digits at the start of the text of a number: hexadecimal ones behind `0x`,
decimal ones otherwise. -/
def readMagnitude : List Char → Option Nat
  | '0' :: 'x' :: rest => leadingDigits 16 rest none
  | '0' :: 'X' :: rest => leadingDigits 16 rest none
  | rest => leadingDigits 10 rest none

/-- `parseInt(string)` with no radix: leading white space is skipped, a sign is
read, `0x` announces hexadecimal digits, and the longest run of digits counts;
`none` is `NaN`.  The result is the integer that the sign and the digits denote;
`parseInt` returns the double nearest to it, which is that integer while it is a
safe integer, and has its sign in every case. -/
def jsParseInt (s : String) : Option Int :=
  let signed := readSign (s.data.dropWhile isJsWhitespace)
  (readMagnitude signed.2).map fun n => if signed.1 then -(n : Int) else (n : Int)

/-- Whether an integer is a safe integer, at most 2^53 - 1 in size: doubles count
these exactly, one by one, and print them in decimal digits. -/
def isSafeInteger (n : Int) : Bool :=
  decide (n.natAbs < 9007199254740992)

/-- `parseInt` of a `dataset` entry: a missing attribute reads as `undefined`, whose
text holds no digit. -/
def parseIntAttr (attr : Option String) : Option Int :=
  attr.bind jsParseInt

/-- The operator `||` with a number to its right, on the result of `parseInt`:
`NaN` and 0 give the right-hand side. -/
def orElseNumber (parsed : Option Int) (other : Int) : Int :=
  match parsed with
  | some n => if n = 0 then other else n
  | none => other

/-! ## The Instagram marquee (`instagram.js`) -/

/-- The state of an `InstagramMarquee` whose constructor found its track and
images: the two flags and the inline `animation-play-state` of the track, empty
while the style sheet decides.  The custom properties and the width written by
`setupMarquee` are left out. -/
structure InstagramMarquee where
  isAutoplayEnabled : Bool
  isPaused : Bool
  animationPlayState : String
  deriving Repr, DecidableEq

namespace InstagramMarquee

/-- `pauseAnimation()`, lines 63-66. -/
def pauseAnimation (m : InstagramMarquee) : InstagramMarquee :=
  { m with isPaused := true, animationPlayState := "paused" }

/-- `resumeAnimation()`, lines 68-72. -/
def resumeAnimation (m : InstagramMarquee) : InstagramMarquee :=
  if m.isAutoplayEnabled && !m.isPaused then { m with animationPlayState := "running" }
  else m

/-- `setupMarquee()`, lines 30-47. -/
def setupMarquee (m : InstagramMarquee) : InstagramMarquee :=
  if !m.isAutoplayEnabled then pauseAnimation m else m

/-- The constructor, lines 7-28, on a section whose `data-autoplay` attribute is
`autoplay`. -/
def construct (autoplay : Option String) : InstagramMarquee :=
  setupMarquee
    { isAutoplayEnabled := autoplay != some "false", isPaused := false, animationPlayState := "" }

/-- The listener of `visibilitychange`, lines 51-57; `hidden` is `document.hidden`. -/
def visibilityChange (hidden : Bool) (m : InstagramMarquee) : InstagramMarquee :=
  if hidden then pauseAnimation m
  else if m.isAutoplayEnabled then resumeAnimation m
  else m

/-- `toggleAutoplay(enabled)`, lines 87-94. -/
def toggleAutoplay (enabled : Bool) (m : InstagramMarquee) : InstagramMarquee :=
  let m1 := { m with isAutoplayEnabled := enabled }
  if enabled then resumeAnimation m1 else pauseAnimation m1

end InstagramMarquee

/-! ## The product carousel (`carousel.js`) -/

/-- An indicator button: its `data-slide` attribute and whether it carries the class
`active`. -/
structure Indicator where
  dataSlide : Option String
  active : Bool
  deriving Repr, DecidableEq

/-- What the constructor of `ProductCarousel` finds on the page. -/
structure CarouselPage where
  /-- Whether `.carousel-track` exists. -/
  hasTrack : Bool
  /-- The number of `.carousel-slide` elements. -/
  slides : Nat
  hasPrevBtn : Bool
  hasNextBtn : Bool
  indicators : List Indicator
  /-- The attributes `data-autoplay` and `data-autoplay-speed` of the carousel. -/
  autoplay : Option String
  autoplaySpeed : Option String
  /-- The width `window.innerWidth`. -/
  innerWidth : Int
  deriving Repr, DecidableEq

/-- The state of a `ProductCarousel`: its fields, the variables `startX`, `currentX`
and `isDragging` of `setupTouchEvents`, the `disabled` flags of the two buttons
where they exist, and the timers the platform holds for it: the identifiers of the
interval timers that are active, the next identifier `setInterval` hands out, the
number of 600 ms timers of `updateCarousel` that have not fired, and whether the
debounce timer of `handleResize` is set.  The `transform` of the track and the
hover images are left out. -/
structure ProductCarousel where
  currentIndex : Int
  slidesPerView : Int
  totalSlides : Int
  maxIndex : Int
  autoplayEnabled : Bool
  autoplaySpeed : Int
  autoplayTimer : Option Nat
  isTransitioning : Bool
  indicators : List Indicator
  prevDisabled : Option Bool
  nextDisabled : Option Bool
  startX : Int
  currentX : Int
  isDragging : Bool
  intervals : List Nat
  nextTimerId : Nat
  transitionTimers : Nat
  resizeTimer : Bool
  deriving Repr, DecidableEq, Inhabited

namespace ProductCarousel

/-- `getSlidesPerView()`, lines 41-46, at the window width `width`. -/
def getSlidesPerView (width : Int) : Int :=
  if width ≤ 768 then 1
  else if width ≤ 1024 then 2
  else 3

/-- The expression `parseInt(indicator.dataset.slide) || index * this.slidesPerView`
of lines 61 and 202. -/
def slideIndexOf (c : ProductCarousel) (index : Nat) (indicator : Indicator) : Int :=
  orElseNumber (parseIntAttr indicator.dataSlide) (index * c.slidesPerView)

/-- `updateButtonStates()`, lines 190-198. -/
def updateButtonStates (c : ProductCarousel) : ProductCarousel :=
  { c with
    prevDisabled := c.prevDisabled.map fun _ => c.currentIndex == 0
    nextDisabled := c.nextDisabled.map fun _ => decide (c.currentIndex ≥ c.maxIndex) }

/-- The loop of `updateIndicators` over the indicators from position `index` on. -/
def markIndicators (c : ProductCarousel) : Nat → List Indicator → List Indicator
  | _, [] => []
  | index, indicator :: rest =>
    { indicator with active := slideIndexOf c index indicator == c.currentIndex } ::
      markIndicators c (index + 1) rest

/-- `updateIndicators()`, lines 200-206. -/
def updateIndicators (c : ProductCarousel) : ProductCarousel :=
  { c with indicators := markIndicators c 0 c.indicators }

/-- `updateCarousel()`, lines 165-188.  The track exists once the constructor has
returned. -/
def updateCarousel (c : ProductCarousel) : ProductCarousel :=
  if c.totalSlides = 0 then c
  else
    let c1 := updateIndicators (updateButtonStates { c with isTransitioning := true })
    { c1 with transitionTimers := c1.transitionTimers + 1 }

/-- `prevSlide()`, lines 144-149. -/
def prevSlide (c : ProductCarousel) : ProductCarousel :=
  if c.isTransitioning then c
  else updateCarousel { c with currentIndex := max 0 (c.currentIndex - 1) }

/-- `nextSlide()`, lines 151-156. -/
def nextSlide (c : ProductCarousel) : ProductCarousel :=
  if c.isTransitioning then c
  else updateCarousel { c with currentIndex := min c.maxIndex (c.currentIndex + 1) }

/-- `goToSlide(index)`, lines 158-163. -/
def goToSlide (index : Int) (c : ProductCarousel) : ProductCarousel :=
  if c.isTransitioning then c
  else updateCarousel { c with currentIndex := max 0 (min c.maxIndex index) }

/-- The callback of the interval timer, lines 211-218. -/
def autoplayTick (c : ProductCarousel) : ProductCarousel :=
  updateCarousel
    { c with currentIndex := if c.currentIndex ≥ c.maxIndex then 0 else c.currentIndex + 1 }

/-- `startAutoplay()`, lines 208-219: `setInterval` starts a timer under a fresh
identifier, which is stored in `autoplayTimer`. -/
def startAutoplay (c : ProductCarousel) : ProductCarousel :=
  if !c.autoplayEnabled || decide (c.totalSlides ≤ c.slidesPerView) then c
  else
    { c with
      autoplayTimer := some c.nextTimerId
      intervals := c.intervals ++ [c.nextTimerId]
      nextTimerId := c.nextTimerId + 1 }

/-- `pauseAutoplay()`, lines 221-226: `clearInterval` stops the timer whose
identifier is stored. -/
def pauseAutoplay (c : ProductCarousel) : ProductCarousel :=
  match c.autoplayTimer with
  | some id => { c with intervals := c.intervals.erase id, autoplayTimer := none }
  | none => c

/-- `resumeAutoplay()`, lines 228-232. -/
def resumeAutoplay (c : ProductCarousel) : ProductCarousel :=
  if c.autoplayEnabled then startAutoplay c else c

/-- `handleResize()`, lines 234-247: the debounce timer is set anew. -/
def handleResize (c : ProductCarousel) : ProductCarousel :=
  { c with resizeTimer := true }

/-- The callback of the debounce timer, lines 238-245, at the window width `width`. -/
def resizeTimerFires (width : Int) (c : ProductCarousel) : ProductCarousel :=
  let c0 := { c with resizeTimer := false }
  let newSlidesPerView := getSlidesPerView width
  if newSlidesPerView ≠ c0.slidesPerView then
    let maxIndex := max 0 (c0.totalSlides - newSlidesPerView)
    updateCarousel
      { c0 with
        slidesPerView := newSlidesPerView
        maxIndex := maxIndex
        currentIndex := min c0.currentIndex maxIndex }
  else c0

/-- The callback of a 600 ms timer of `updateCarousel`, lines 185-187. -/
def transitionTimerFires (c : ProductCarousel) : ProductCarousel :=
  { c with isTransitioning := false, transitionTimers := c.transitionTimers - 1 }

/-- The click listener of the indicator at position `index`, lines 60-63. -/
def indicatorClick (index : Nat) (c : ProductCarousel) : ProductCarousel :=
  match c.indicators.get? index with
  | some indicator => goToSlide (slideIndexOf c index indicator) c
  | none => c

/-- The listener of `touchstart`, lines 93-97, for a touch at `clientX = x`. -/
def touchstart (x : Int) (c : ProductCarousel) : ProductCarousel :=
  pauseAutoplay { c with startX := x, isDragging := true }

/-- The listener of `touchmove`, lines 99-103. -/
def touchmove (x : Int) (c : ProductCarousel) : ProductCarousel :=
  if !c.isDragging then c else { c with currentX := x }

/-- The listener of `touchend`, lines 105-121. -/
def touchend (c : ProductCarousel) : ProductCarousel :=
  if !c.isDragging then c
  else
    let diff := c.startX - c.currentX
    let c1 :=
      if diff.natAbs > 50 then
        if diff > 0 then nextSlide c else prevSlide c
      else c
    resumeAutoplay { c1 with isDragging := false }

/-- The listener of `keydown`, lines 71-79. -/
def keydown (key : String) (c : ProductCarousel) : ProductCarousel :=
  if key = "ArrowLeft" then prevSlide c
  else if key = "ArrowRight" then nextSlide c
  else c

/-- The constructor with `init()`, lines 7-39.  Without a track line 93 raises a
`TypeError`. -/
def construct (h : Host) (page : CarouselPage) : Except JsErr ProductCarousel :=
  if !page.hasTrack then .error h.typeError
  else
    let slidesPerView := getSlidesPerView page.innerWidth
    let c : ProductCarousel :=
      { currentIndex := 0
        slidesPerView := slidesPerView
        totalSlides := page.slides
        maxIndex := max 0 ((page.slides : Int) - slidesPerView)
        autoplayEnabled := page.autoplay != some "false"
        autoplaySpeed := orElseNumber (parseIntAttr page.autoplaySpeed) 5000
        autoplayTimer := none
        isTransitioning := false
        indicators := page.indicators
        prevDisabled := if page.hasPrevBtn then some false else none
        nextDisabled := if page.hasNextBtn then some false else none
        startX := 0
        currentX := 0
        isDragging := false
        intervals := []
        nextTimerId := 1
        transitionTimers := 0
        resizeTimer := false }
    let c1 := handleResize (updateCarousel c)
    .ok (if c1.autoplayEnabled then startAutoplay c1 else c1)

end ProductCarousel

/-- What can happen to a carousel: the events its listeners wait for and the timers
that fire. -/
inductive CarouselEvent where
  | prevClick
  | nextClick
  | indicatorClick (index : Nat)
  | mouseenter
  | mouseleave
  | keydown (key : String)
  | touchstart (x : Int)
  | touchmove (x : Int)
  | touchend
  | resize
  | resizeTimer (width : Int)
  | transitionTimer
  | autoplayTimer
  deriving Repr, DecidableEq

/-- The carousel after an event.  A disabled button sends no click, and a timer
fires only while it is set. -/
def ProductCarousel.handle (c : ProductCarousel) : CarouselEvent → ProductCarousel
  | .prevClick => if c.prevDisabled = some false then c.prevSlide else c
  | .nextClick => if c.nextDisabled = some false then c.nextSlide else c
  | .indicatorClick index => c.indicatorClick index
  | .mouseenter => c.pauseAutoplay
  | .mouseleave => c.resumeAutoplay
  | .keydown key => c.keydown key
  | .touchstart x => c.touchstart x
  | .touchmove x => c.touchmove x
  | .touchend => c.touchend
  | .resize => c.handleResize
  | .resizeTimer width => if c.resizeTimer then c.resizeTimerFires width else c
  | .transitionTimer => if c.transitionTimers = 0 then c else c.transitionTimerFires
  | .autoplayTimer => if c.intervals.isEmpty then c else c.autoplayTick

/-- The carousel after the events `evs`, the first one first. -/
def ProductCarousel.handleAll (c : ProductCarousel) (evs : List CarouselEvent) :
    ProductCarousel :=
  evs.foldl ProductCarousel.handle c

/-- The index stays within the slides: `0 ≤ currentIndex ≤ maxIndex` with
`maxIndex = max(0, totalSlides - slidesPerView)`. -/
def ProductCarousel.IndexInRange (c : ProductCarousel) : Prop :=
  0 ≤ c.currentIndex ∧ c.currentIndex ≤ c.maxIndex ∧
    c.maxIndex = max 0 (c.totalSlides - c.slidesPerView)

instance (c : ProductCarousel) : Decidable c.IndexInRange := by
  unfold ProductCarousel.IndexInRange
  infer_instance

/-- A carousel of six slides on a wide window with three indicators that carry
`data-slide` 0, 3 and 0. -/
def demoCarouselPage : CarouselPage where
  hasTrack := true
  slides := 6
  hasPrevBtn := true
  hasNextBtn := true
  indicators := [⟨some "0", false⟩, ⟨some "3", false⟩, ⟨some "0", false⟩]
  autoplay := none
  autoplaySpeed := none
  innerWidth := 1280

/-- The carousel built on `demoCarouselPage`. -/
def demoCarousel : ProductCarousel :=
  match ProductCarousel.construct demoHost demoCarouselPage with
  | .ok c => c
  | .error _ => default

/-! ## The product page (`product.js`) -/

/-- The quantity field: its `value` and the number of `change` events dispatched on
it. -/
structure QuantityInput where
  value : String
  changeEvents : Nat
  deriving Repr, DecidableEq

/-- An option of the variant select: its text, its `value`. -/
structure VariantOption where
  textContent : String
  value : String
  deriving Repr, DecidableEq

/-- A radio button of the option values. -/
structure OptionInput where
  checked : Bool
  value : String
  deriving Repr, DecidableEq

/-- The variant select: its options, its `value`, and the option last handed to
`updateProductInfo`, which rewrites the button and the price from it. -/
structure VariantSelect where
  options : List VariantOption
  value : String
  shown : Option VariantOption
  deriving Repr, DecidableEq

namespace ProductPage

/-- The click listener of a quantity button, lines 132-139; `isPlus` is whether the
button carries the class `quantity-plus`.  The numbers of the source are doubles:
they are the integers of the model while the current value is a safe integer, and
for a content whose number is not, the model gives no result. -/
def quantityClick (isPlus : Bool) (q : QuantityInput) : Option QuantityInput :=
  let currentValue := orElseNumber (jsParseInt q.value) 1
  let newValue := if isPlus then currentValue + 1 else max 1 (currentValue - 1)
  if isSafeInteger currentValue then
    some { value := toString newValue, changeEvents := q.changeEvents + 1 }
  else none

/-- The `input` listener of the quantity field, lines 143-148.  Whether the number is
`NaN` and whether it is below 1 are the same for the double and for the integer that
the digits denote. -/
def quantityInputEvent (q : QuantityInput) : QuantityInput :=
  match jsParseInt q.value with
  | none => { q with value := "1" }
  | some value => if value < 1 then { q with value := "1" } else q

/-- The values of the checked inputs, lines 165-172. -/
def selectedOptions (inputs : List OptionInput) : List String :=
  (inputs.filter fun input => input.checked).map fun input => input.value

/-- The callback of `variants.find`, lines 176-181. -/
def variantMatches (selected : List String) (option : VariantOption) : Bool :=
  let variantTitle := jsTrim option.textContent
  selected.all fun selectedOption => containsText variantTitle selectedOption

/-- `updateSelectedVariant()`, lines 164-187. -/
def updateSelectedVariant (inputs : List OptionInput) (select : VariantSelect) :
    VariantSelect :=
  match select.options.find? (variantMatches (selectedOptions inputs)) with
  | some matchingVariant =>
    { select with value := matchingVariant.value, shown := some matchingVariant }
  | none => select

end ProductPage

/-! ## The footer (`footer.js`) -/

/-- The kinds of character the pattern of `isValidEmail` tells apart: the at sign,
the full stop, white space, and every other character. -/
inductive EmailSym where
  | at
  | dot
  | space
  | other
  deriving Repr, DecidableEq

/-- The kind of a character.  The at sign and the full stop are no white space. -/
def classify (c : Char) : EmailSym :=
  if c = '@' then .at
  else if c = '.' then .dot
  else if isJsWhitespace c then .space
  else .other

/-- The class `[^\s@]` over the kinds of character. -/
def nonSpaceAt : RegularExpression EmailSym :=
  .char .dot + .char .other

/-- The pattern `[^\s@]+`. -/
def nonSpaceAtRun : RegularExpression EmailSym :=
  nonSpaceAt * .star nonSpaceAt

/-- The pattern `^[^\s@]+@[^\s@]+\.[^\s@]+$` of line 119. -/
def emailRegex : RegularExpression EmailSym :=
  nonSpaceAtRun * (.char .at * (nonSpaceAtRun * (.char .dot * nonSpaceAtRun)))

/-- The submit button of the subscribe form. -/
structure SubmitButton where
  textContent : String
  disabled : Bool
  deriving Repr, DecidableEq

/-- The state of a `FooterSection` whose subscribe form exists: the value of the
e-mail field and the `checked` flag of the privacy checkbox, where they exist, the
submit button, the messages shown by `showMessage`, the arguments of the calls of
`submitNewsletter`, and the bodies of the requests posted to `/contact`. -/
structure FooterSection where
  newsletterInput : Option String
  privacyCheckbox : Option Bool
  submitButton : Option SubmitButton
  messages : List Notification
  submitted : List String
  requests : List (List (String × String))
  console : List String
  deriving Repr, DecidableEq

namespace FooterSection

/-- `isValidEmail(email)`, lines 118-121: whether the pattern matches all of
`email`. -/
def isValidEmail (email : String) : Bool :=
  emailRegex.rmatch (email.data.map classify)

/-- `showMessage(message, type)`, lines 165-222: the message put next to the form.
Its styling and the timer that removes it are left out. -/
def showMessage (message kind : String) (f : FooterSection) : FooterSection :=
  { f with messages := f.messages ++ [⟨message, kind⟩] }

/-- The body of the request of `submitNewsletter`, lines 138-143. -/
def newsletterBody (email : String) : List (String × String) :=
  [("form_type", "customer"), ("utf8", "âœ“"), ("contact[email]", email),
    ("contact[tags]", "newsletter")]

/-- `submitNewsletter(email)`, lines 123-144, up to the `await`: the call is
recorded, the button shows the loading state and the request is handed to `fetch`.
Without a submit button line 125 raises and the returned promise rejects. -/
def submitNewsletter (email : String) (f : FooterSection) : FooterSection :=
  let f1 := { f with submitted := f.submitted ++ [email] }
  match f1.submitButton with
  | none => f1
  | some _ =>
    { f1 with
      submitButton := some ⟨"SUBSCRIBING...", true⟩
      requests := f1.requests ++ [newsletterBody email] }

/-- The rest of `submitNewsletter`, lines 146-162, once the request has met its
result: `ok` is `response.ok`, `none` a rejected `fetch`; `originalText` is the text
the button had. -/
def submitNewsletterLand (originalText : String) (ok : Option Bool) (f : FooterSection) :
    FooterSection :=
  let f1 :=
    if ok = some true then
      { showMessage "Thank you for subscribing!" "success" f with
        newsletterInput := f.newsletterInput.map fun _ => ""
        privacyCheckbox := f.privacyCheckbox.map fun _ => false }
    else
      showMessage "Something went wrong. Please try again." "error"
        { f with console := f.console ++ ["Newsletter subscription error:"] }
  { f1 with submitButton := f1.submitButton.map fun _ => ⟨originalText, false⟩ }

/-- The `submit` listener of the subscribe form, lines 83-100.  Without an e-mail
field line 87 raises a `TypeError`. -/
def onSubmit (h : Host) (f : FooterSection) : Except JsErr FooterSection :=
  match f.newsletterInput with
  | none => .error h.typeError
  | some value =>
    if value = "" || !isValidEmail value then
      .ok (showMessage "Please enter a valid email address." "error" f)
    else if f.privacyCheckbox = some false then
      .ok (showMessage "Please agree to the privacy policy." "error" f)
    else
      .ok (submitNewsletter value f)

end FooterSection

/-- A footer with the e-mail field holding `email` and the privacy checkbox in the
state `checkbox`, before any submit. -/
def demoFooter (email : String) (checkbox : Option Bool) : FooterSection where
  newsletterInput := some email
  privacyCheckbox := checkbox
  submitButton := some ⟨"SUBSCRIBE", false⟩
  messages := []
  submitted := []
  requests := []
  console := []

/-! ## The shop page (`shop.js`) -/

/-- A product card: the node it is and its `data-product-id` attribute. -/
structure ProductCard where
  node : Nat
  productId : Option String
  deriving Repr, DecidableEq

/-- The state of a `ShopPage`: the children of the products grid in document order,
the cards the constructor collected in line 9, and the array
`productsData.products`. -/
structure ShopPage where
  grid : List Nat
  productCards : List ProductCard
  products : List JsVal

/-- `Array.prototype.sort` with a comparison function, which is stable: an insertion
sort that puts `a` before `b` where the comparison is not positive, `NaN` counting
as 0.  With a comparison function that is a consistent order every stable sort
returns this array; with another one the order is the engine's. -/
def stableSort {α : Type} (compare : α → α → Option Int) (xs : List α) : List α :=
  xs.insertionSort fun a b => (compare a b).all (fun v => decide (v ≤ 0)) = true

namespace ShopPage

/-- The comparison `v == productId` of line 270, where `productId` is the text of a
`dataset` entry or `undefined`. -/
def looseEquals (h : Host) (v : JsVal) : Option String → Bool
  | none =>
    match v with
    | .undefined => true
    | .null => true
    | _ => false
  | some text =>
    match v.toPrimitive with
    | .str s => s == text
    | .num n => h.stringToNumber text == some n
    | .bool b => h.stringToNumber text == some (if b then 1 else 0)
    | _ => false

/-- `products.find(p => p.id == productId)`, line 270. -/
def findProduct (h : Host) (productId : Option String) : List JsVal → Except JsErr JsVal
  | [] => .ok .undefined
  | p :: rest =>
    match p.get h "id" with
    | .error e => .error e
    | .ok id => if looseEquals h id productId then .ok p else findProduct h productId rest

/-- `getProductDataFromCard(card)`, lines 268-271. -/
def getProductDataFromCard (h : Host) (shop : ShopPage) (card : ProductCard) :
    Except JsErr JsVal :=
  match findProduct h card.productId shop.products with
  | .error e => .error e
  | .ok p => .ok (if p.truthy then p else .obj [])

/-- The cards with their product records. -/
def cardData (h : Host) (shop : ShopPage) :
    List ProductCard → Except JsErr (List (ProductCard × JsVal))
  | [] => .ok []
  | card :: rest =>
    match getProductDataFromCard h shop card with
    | .error e => .error e
    | .ok data =>
      match cardData h shop rest with
      | .error e => .error e
      | .ok pairs => .ok ((card, data) :: pairs)

/-- The difference `a - b` of two values; `none` is `NaN`. -/
def minus (h : Host) (a b : JsVal) : Option Int :=
  match a.toNumber h, b.toNumber h with
  | some x, some y => some (x - y)
  | _, _ => none

/-- Whether a value is a string. -/
def isString : JsVal → Bool
  | .str _ => true
  | _ => false

/-- The `switch` of lines 250-259 on the records of two cards; `none` is `NaN`.
`collate a b` is `a.localeCompare(b)`. -/
def compareData (h : Host) (collate : String → String → Int) (sortBy : String)
    (aData bData : JsVal) : Option Int :=
  if sortBy = "price-low" then minus h (aData.field h "price") (bData.field h "price")
  else if sortBy = "price-high" then minus h (bData.field h "price") (aData.field h "price")
  else if sortBy = "name" then
    some (collate (aData.field h "title").toStr (bData.field h "title").toStr)
  else some 0

/-- The array `productsArray` after the sort of lines 244-260.  With fewer than two
cards the comparison function is not called.  Otherwise it is called on every card,
and it raises where the record of a card cannot be looked up.  For the key `name`
the source raises when a record without a string for a title is compared on the
left; which records are compared on the left is the choice of the engine, and the
model takes the outcome in which one of them is: it raises where any record has no
string for a title.  With string titles throughout, and for every other key, the
outcome does not depend on that choice. -/
def sortedCards (h : Host) (collate : String → String → Int) (sortBy : String)
    (shop : ShopPage) : Except JsErr (List ProductCard) :=
  if shop.productCards.length < 2 then .ok shop.productCards
  else
    match cardData h shop shop.productCards with
    | .error e => .error e
    | .ok pairs =>
      if sortBy = "name" && pairs.any (fun q => !isString (q.2.field h "title")) then
        .error h.typeError
      else
        .ok ((stableSort (fun a b => compareData h collate sortBy a.2 b.2) pairs).map
          fun q => q.1)

/-- `productsGrid.appendChild(card)`: the node moves to the end of the grid. -/
def appendChild (grid : List Nat) (card : ProductCard) : List Nat :=
  grid.erase card.node ++ [card.node]

/-- `sortProducts(sortBy)`, lines 243-266. -/
def sortProducts (h : Host) (collate : String → String → Int) (sortBy : String)
    (shop : ShopPage) : Except JsErr ShopPage :=
  match sortedCards h collate sortBy shop with
  | .error e => .error e
  | .ok productsArray => .ok { shop with grid := productsArray.foldl appendChild shop.grid }

end ShopPage

/-- A shop of three cards priced 300, 100 and 300, behind a heading that is also a
child of the grid. -/
def demoShop : ShopPage where
  grid := [10, 1, 2, 3]
  productCards := [⟨1, some "11"⟩, ⟨2, some "12"⟩, ⟨3, some "13"⟩]
  products :=
    [.obj [("id", .num 11), ("price", .num 300), ("title", .str "Coat")],
     .obj [("id", .num 12), ("price", .num 100), ("title", .str "Belt")],
     .obj [("id", .num 13), ("price", .num 300), ("title", .str "Cape")]]

/-- The price of the cards of `demoShop`. -/
def demoPrice (card : ProductCard) : Int :=
  if card.node = 2 then 100 else 300

/-- A stand-in for `localeCompare` that compares the lengths of the texts. -/
def demoCollate (a b : String) : Int :=
  (a.length : Int) - b.length

/-- A cart of five units in one row, as the refresh reads it after an item was
added. -/
def demoGrownCart : JsVal :=
  .obj [("item_count", .num 5), ("total_price", .num 5000), ("items", .arr [demoItem])]

/-- The controller on `demoDom` after a refresh has read the empty cart: the count
reads 0, the empty-state view shows and the checkout button is disabled. -/
def demoEmptied : State :=
  (updateCartDisplay demoHost demoState (.response true (.ok emptyCart))).1

/-! ## Frame lemmas -/

theorem renderCartItems_sameCtl (h : Host) (items : JsVal) (s s1 : State)
    (hr : renderCartItems h items s = .ok s1) : SameCtl s1 s := by
  unfold renderCartItems at hr
  split at hr
  · cases hr; simp [SameCtl]
  · split at hr
    · cases hr
    · split at hr
      · cases hr; simp [SameCtl, renderEmptyState, setItemsHTML]
      · split at hr
        · split at hr
          · cases hr
          · cases hr; simp [SameCtl, setItemsHTML]
        · cases hr

theorem applyCart_sameCtl (h : Host) (cart : JsVal) (s : State) :
    match applyCart h cart s with
    | .ok s1 => SameCtl s1 s
    | .error (_, s1) => SameCtl s1 s := by
  unfold applyCart
  cases hc : cart.get h "item_count" with
  | error e => simp [SameCtl]
  | ok count =>
    simp only []
    cases hr : renderCartItems h (cart.field h "items")
        (updateSubtotal h (cart.field h "total_price") (updateCartCount h count s)) with
    | error e => simp [SameCtl, updateSubtotal, updateCartCount]
    | ok s3 =>
      have := renderCartItems_sameCtl h _ _ _ hr
      simp only [SameCtl, updateSubtotal, updateCartCount] at this
      simp [SameCtl, this]

theorem refreshOnJson_sameCtl (h : Host) (b : Except JsErr JsVal) (s : State) :
    SameCtl (refreshOnJson h b s) s := by
  unfold refreshOnJson
  cases b with
  | error e => simp [SameCtl, catchDisplay, consoleError]
  | ok cart =>
    have := applyCart_sameCtl h cart s
    simp only []
    cases ha : applyCart h cart s with
    | ok s1 => rw [ha] at this; exact this
    | error p =>
      obtain ⟨e, s1⟩ := p
      rw [ha] at this
      simp only [SameCtl] at this
      simp [SameCtl, catchDisplay, consoleError, this]

theorem refreshLand_sameCtl (h : Host) (r : NetResult) (s : State) :
    SameCtl (refreshLand h r s) s := by
  cases r with
  | failed e => simp [refreshLand, SameCtl, catchDisplay, consoleError]
  | response ok body => exact refreshOnJson_sameCtl h body s


theorem filter_length_eraseIdx (p : Task → Bool) :
    ∀ (l : List Task) (i : Nat) (t : Task), l.get? i = some t →
      (l.filter p).length = ((l.eraseIdx i).filter p).length + (if p t then 1 else 0)
  | [], i, t, ht => by simp at ht
  | x :: l, 0, t, ht => by
    simp at ht
    subst ht
    by_cases hx : p x <;> simp [hx]
  | x :: l, i + 1, t, ht => by
    simp at ht
    have ih := filter_length_eraseIdx p l i t (by simpa using ht)
    by_cases hx : p x
    · simp [hx, List.eraseIdx, ih]; omega
    · simp [hx, List.eraseIdx, ih]

theorem isMutation_of_isMutationRequest (t : Task) (ht : t.isMutationRequest = true) :
    t.isMutation = true := by
  cases t <;> simp_all [Task.isMutationRequest, Task.isMutation]

theorem outstanding_le_inProgress (s : State) : outstanding s ≤ inProgress s := by
  unfold outstanding inProgress
  induction s.tasks with
  | nil => simp
  | cons t l ih =>
    by_cases hp : t.isMutationRequest = true
    · have hq := isMutation_of_isMutationRequest t hp
      simp [List.filter, hp, hq, ih]
    · by_cases hq : t.isMutation = true
      · simp [List.filter, hp, hq]; omega
      · simp [List.filter, hp, hq, ih]

@[simp]
theorem setLoading_isLoading (b : Bool) (s : State) : (setLoading b s).isLoading = b := rfl
@[simp]
theorem setLoading_tasks (b : Bool) (s : State) : (setLoading b s).tasks = s.tasks := rfl
@[simp]
theorem showFeedback_isLoading (m k : String) (s : State) :
    (showFeedback m k s).isLoading = s.isLoading := rfl
@[simp]
theorem showFeedback_tasks (m k : String) (s : State) :
    (showFeedback m k s).tasks = s.tasks := rfl
@[simp]
theorem consoleError_isLoading (m : String) (s : State) :
    (consoleError m s).isLoading = s.isLoading := rfl
@[simp]
theorem consoleError_tasks (m : String) (s : State) :
    (consoleError m s).tasks = s.tasks := rfl

theorem inProgress_congr {s1 s : State} (ht : s1.tasks = s.tasks) :
    inProgress s1 = inProgress s := by
  simp [inProgress, ht]

theorem openDrawer_isLoading (s : State) : (openDrawer s).isLoading = s.isLoading := by
  unfold openDrawer spawnRefresh updateCartDisplayBegin
  split
  · rfl
  · simp only []
    split <;> rfl

theorem openDrawer_inProgress (s : State) : inProgress (openDrawer s) = inProgress s := by
  unfold openDrawer spawnRefresh updateCartDisplayBegin
  split
  · rfl
  · simp only []
    split <;> simp [inProgress, Task.isMutation]

theorem trackAddToCart_ctl (h : Host) (item : JsVal) (s s1 : State)
    (ht : trackAddToCart h item s = .ok s1) :
    s1.isLoading = s.isLoading ∧ s1.tasks = s.tasks := by
  unfold trackAddToCart at ht
  split at ht
  · split at ht
    · cases ht
    · cases ht; simp
  · cases ht; simp

theorem addItemCatch_ctl (e : JsErr) (s : State) :
    (addItemCatch e s).1.isLoading = false ∧ (addItemCatch e s).1.tasks = s.tasks := by
  simp [addItemCatch]

theorem updateQuantityCatch_ctl (s : State) :
    (updateQuantityCatch s).1.isLoading = false ∧ (updateQuantityCatch s).1.tasks = s.tasks := by
  simp [updateQuantityCatch]

theorem updateQuantityDone_ctl (s : State) :
    (updateQuantityDone s).1.isLoading = false ∧ (updateQuantityDone s).1.tasks = s.tasks := by
  simp [updateQuantityDone]

theorem addItemDone_ctl (h : Host) (item : JsVal) (s : State) :
    (addItemDone h item s).1.isLoading = false ∧
    inProgress (addItemDone h item s).1 = inProgress s := by
  unfold addItemDone
  simp only []
  have ho := openDrawer_inProgress (showFeedback "Added to cart" "success" s)
  have hs : inProgress (showFeedback "Added to cart" "success" s) = inProgress s :=
    inProgress_congr rfl
  have hn : inProgress (noteTracked item
      (openDrawer (showFeedback "Added to cart" "success" s))) =
      inProgress (openDrawer (showFeedback "Added to cart" "success" s)) :=
    inProgress_congr rfl
  cases ht : trackAddToCart h item
      (noteTracked item (openDrawer (showFeedback "Added to cart" "success" s))) with
  | error e =>
    have := addItemCatch_ctl e
      (noteTracked item (openDrawer (showFeedback "Added to cart" "success" s)))
    exact ⟨this.1, by rw [inProgress_congr this.2, hn, ho, hs]⟩
  | ok s2 =>
    have := trackAddToCart_ctl h item _ _ ht
    exact ⟨rfl, by rw [@inProgress_congr (setLoading false s2) s2 rfl,
      inProgress_congr this.2, hn, ho, hs]⟩

theorem afterRefresh_ctl (h : Host) (k : Owner) (s : State) :
    (Task.isMutation (.cartFetch k) = false → (afterRefresh h k s).1 = s) ∧
    (Task.isMutation (.cartFetch k) = true →
      (afterRefresh h k s).1.isLoading = false ∧
      inProgress (afterRefresh h k s).1 = inProgress s) := by
  cases k with
  | detached => simp [afterRefresh, Task.isMutation]
  | updateQuantity =>
    simp only [afterRefresh, Task.isMutation]
    exact ⟨by simp, fun _ => ⟨(updateQuantityDone_ctl s).1,
      inProgress_congr (updateQuantityDone_ctl s).2⟩⟩
  | addItem item =>
    simp only [afterRefresh, Task.isMutation]
    exact ⟨by simp, fun _ => addItemDone_ctl h item s⟩


theorem construct_busyInv (dom : Dom) : BusyInv (construct dom) := by
  simp [BusyInv, construct, spawnRefresh, updateCartDisplayBegin, inProgress, Task.isMutation]

theorem inProgress_park_await (s : State) (t : Task) :
    inProgress (park (s, .await t)) = inProgress s + (if t.isMutation then 1 else 0) := by
  by_cases ht : t.isMutation = true <;> simp [park, inProgress, List.filter_append, List.filter, ht]

theorem busyInv_park_await_mutation {s1 s0 : State} {t : Task} (hl : s1.isLoading = true)
    (ht : s1.tasks = s0.tasks) (hm : t.isMutation = true) (h0 : inProgress s0 = 0) :
    BusyInv (park (s1, .await t)) := by
  unfold BusyInv
  rw [inProgress_park_await, inProgress_congr ht, h0]
  have : (park (s1, Next.await t)).isLoading = true := by simp [park, hl]
  simp [hm, this]

theorem busyInv_park_await_detached {s1 s0 : State} {t : Task}
    (hl : s1.isLoading = s0.isLoading) (ht : s1.tasks = s0.tasks) (hm : t.isMutation = false)
    (hs : BusyInv s0) : BusyInv (park (s1, .await t)) := by
  unfold BusyInv at hs ⊢
  rw [inProgress_park_await, inProgress_congr ht, hs]
  have : (park (s1, Next.await t)).isLoading = s0.isLoading := by simp [park, hl]
  simp [hm, this]

theorem settle_busyInv_of {s1 s0 : State} {c : Completion}
    (hl : s1.isLoading = false) (hp : inProgress s1 = inProgress s0) (h0 : inProgress s0 = 0) :
    BusyInv (park (settle (s1, c))) := by
  simp [BusyInv, park, settle, hl, hp, h0]

theorem inProgress_eq_zero_of_idle {s : State} (hs : BusyInv s) (hl : s.isLoading = false) :
    inProgress s = 0 := by
  unfold BusyInv at hs
  rw [hs, hl]
  rfl

theorem startUpdateQuantity_busyInv (h : Host) (itemId quantity : JsVal) (s : State)
    (hs : BusyInv s) : BusyInv (park (startUpdateQuantity h itemId quantity s)) := by
  unfold startUpdateQuantity
  cases hl : s.isLoading with
  | true => simpa [park] using hs
  | false =>
    simp only [Bool.false_eq_true, ↓reduceIte]
    exact @busyInv_park_await_mutation _ s _ rfl rfl rfl (inProgress_eq_zero_of_idle hs hl)

theorem startAddItem_busyInv (h : Host) (variantId quantity properties : JsVal) (s : State)
    (hs : BusyInv s) : BusyInv (park (startAddItem h variantId quantity properties s)) := by
  unfold startAddItem
  cases hl : s.isLoading with
  | true => simpa [park] using hs
  | false =>
    simp only [Bool.false_eq_true, ↓reduceIte]
    have h0 := inProgress_eq_zero_of_idle hs hl
    cases hf : addForm h variantId quantity properties with
    | error e =>
      have hc := addItemCatch_ctl e (setLoading true s)
      exact @settle_busyInv_of _ s _ hc.1 (inProgress_congr hc.2) h0
    | ok form =>
      exact @busyInv_park_await_mutation _ s _ rfl rfl rfl h0

theorem closeDrawer_ctl (s : State) :
    (closeDrawer s).isLoading = s.isLoading ∧ (closeDrawer s).tasks = s.tasks := by
  unfold closeDrawer
  split
  · simp
  · simp only []
    split <;> simp

theorem resume_busyInv (h : Host) (t : Task) (ev : NetEvent) (s0 : State) (r : State × Next)
    (hr : resume h t ev s0 = some r) :
    (t.isMutation = true → s0.isLoading = true → inProgress s0 = 0 → BusyInv (park r)) ∧
    (t.isMutation = false → BusyInv s0 → BusyInv (park r)) := by
  cases t with
  | changeFetch =>
    cases ev with
    | fetchRejected e =>
      simp only [resume, Option.some.injEq] at hr
      subst hr
      refine ⟨fun _ _ h0 => ?_, by simp [Task.isMutation]⟩
      exact settle_busyInv_of (updateQuantityCatch_ctl s0).1
        (inProgress_congr (updateQuantityCatch_ctl s0).2) h0
    | fetchResponse ok =>
      cases ok with
      | true =>
        simp only [resume, Option.some.injEq] at hr
        subst hr
        refine ⟨fun _ hl h0 => ?_, by simp [Task.isMutation]⟩
        exact busyInv_park_await_mutation hl rfl rfl h0
      | false =>
        simp only [resume, Option.some.injEq] at hr
        subst hr
        refine ⟨fun _ _ h0 => ?_, by simp [Task.isMutation]⟩
        exact settle_busyInv_of (updateQuantityCatch_ctl s0).1
          (inProgress_congr (updateQuantityCatch_ctl s0).2) h0
    | jsonRejected e => simp [resume] at hr
    | jsonValue v => simp [resume] at hr
  | addFetch =>
    cases ev with
    | fetchRejected e =>
      simp only [resume, Option.some.injEq] at hr
      subst hr
      refine ⟨fun _ _ h0 => ?_, by simp [Task.isMutation]⟩
      exact settle_busyInv_of (addItemCatch_ctl e s0).1
        (inProgress_congr (addItemCatch_ctl e s0).2) h0
    | fetchResponse ok =>
      simp only [resume, Option.some.injEq] at hr
      subst hr
      refine ⟨fun _ hl h0 => ?_, by simp [Task.isMutation]⟩
      exact busyInv_park_await_mutation hl rfl rfl h0
    | jsonRejected e => simp [resume] at hr
    | jsonValue v => simp [resume] at hr
  | addJson ok =>
    have key : ∀ body, (addItemOnJson h ok body s0) = r →
        s0.isLoading = true → inProgress s0 = 0 → BusyInv (park r) := by
      intro body hb hl h0
      subst hb
      unfold addItemOnJson
      cases body with
      | error e =>
        exact settle_busyInv_of (addItemCatch_ctl e s0).1
          (inProgress_congr (addItemCatch_ctl e s0).2) h0
      | ok v =>
        cases ok with
        | true => exact busyInv_park_await_mutation hl rfl rfl h0
        | false =>
          exact settle_busyInv_of (addItemCatch_ctl _ s0).1
            (inProgress_congr (addItemCatch_ctl _ s0).2) h0
    cases ev with
    | fetchRejected e => simp [resume] at hr
    | fetchResponse ok => simp [resume] at hr
    | jsonRejected e =>
      simp only [resume, Option.some.injEq] at hr
      exact ⟨fun _ hl h0 => key _ hr hl h0, by simp [Task.isMutation]⟩
    | jsonValue v =>
      simp only [resume, Option.some.injEq] at hr
      exact ⟨fun _ hl h0 => key _ hr hl h0, by simp [Task.isMutation]⟩
  | cartFetch k =>
    have key : ∀ s1 : State, s1.isLoading = s0.isLoading → s1.tasks = s0.tasks →
        settle (afterRefresh h k s1) = r →
        (Task.isMutation (.cartFetch k) = true → s0.isLoading = true → inProgress s0 = 0 →
          BusyInv (park r)) ∧
        (Task.isMutation (.cartFetch k) = false → BusyInv s0 → BusyInv (park r)) := by
      intro s1 hl ht hb
      subst hb
      have ha := afterRefresh_ctl h k s1
      refine ⟨fun hm _ h0 => ?_, fun hm hs => ?_⟩
      · exact settle_busyInv_of (ha.2 hm).1 ((ha.2 hm).2.trans (inProgress_congr ht)) h0
      · have h1 := ha.1 hm
        unfold BusyInv at hs ⊢
        simp only [park, settle, h1]
        rw [inProgress_congr ht, hl, hs]
    cases ev with
    | fetchRejected e =>
      simp only [resume, Option.some.injEq] at hr
      exact key (catchDisplay s0) rfl rfl hr
    | fetchResponse ok =>
      simp only [resume, Option.some.injEq] at hr
      subst hr
      refine ⟨fun hm hl h0 => ?_, fun hm hs => ?_⟩
      · exact busyInv_park_await_mutation hl rfl (by cases k <;> simp_all [Task.isMutation]) h0
      · exact busyInv_park_await_detached rfl rfl (by cases k <;> simp_all [Task.isMutation]) hs
    | jsonRejected e => simp [resume] at hr
    | jsonValue v => simp [resume] at hr
  | cartJson k =>
    have key : ∀ s1 : State, s1.isLoading = s0.isLoading → s1.tasks = s0.tasks →
        settle (afterRefresh h k s1) = r →
        (Task.isMutation (.cartJson k) = true → s0.isLoading = true → inProgress s0 = 0 →
          BusyInv (park r)) ∧
        (Task.isMutation (.cartJson k) = false → BusyInv s0 → BusyInv (park r)) := by
      intro s1 hl ht hb
      subst hb
      have ha := afterRefresh_ctl h k s1
      have hk : Task.isMutation (.cartJson k) = Task.isMutation (.cartFetch k) := by
        cases k <;> rfl
      rw [hk]
      refine ⟨fun hm _ h0 => ?_, fun hm hs => ?_⟩
      · exact settle_busyInv_of (ha.2 hm).1 ((ha.2 hm).2.trans (inProgress_congr ht)) h0
      · have h1 := ha.1 hm
        unfold BusyInv at hs ⊢
        simp only [park, settle, h1]
        rw [inProgress_congr ht, hl, hs]
    cases ev with
    | fetchRejected e => simp [resume] at hr
    | fetchResponse ok => simp [resume] at hr
    | jsonRejected e =>
      simp only [resume, Option.some.injEq] at hr
      have hf := refreshOnJson_sameCtl h (.error e) s0
      exact key _ hf.1 hf.2.2.1 hr
    | jsonValue v =>
      simp only [resume, Option.some.injEq] at hr
      have hf := refreshOnJson_sameCtl h (.ok v) s0
      exact key _ hf.1 hf.2.2.1 hr

theorem step_busyInv (h : Host) (s s1 : State) (a : Action) (hs : BusyInv s)
    (hstep : step h s a = some s1) : BusyInv s1 := by
  cases a with
  | updateQuantity itemId quantity =>
    simp only [step, Option.some.injEq] at hstep
    subst hstep
    exact startUpdateQuantity_busyInv h _ _ s hs
  | removeItem itemId =>
    simp only [step, Option.some.injEq] at hstep
    subst hstep
    exact startUpdateQuantity_busyInv h _ _ s hs
  | addItem variantId quantity properties =>
    simp only [step, Option.some.injEq] at hstep
    subst hstep
    exact startAddItem_busyInv h _ _ _ s hs
  | openDrawer =>
    simp only [step, Option.some.injEq] at hstep
    subst hstep
    unfold BusyInv at hs ⊢
    rw [openDrawer_inProgress, openDrawer_isLoading, hs]
  | closeDrawer =>
    simp only [step, Option.some.injEq] at hstep
    subst hstep
    unfold BusyInv at hs ⊢
    rw [inProgress_congr (closeDrawer_ctl s).2, (closeDrawer_ctl s).1, hs]
  | hideTimer =>
    simp only [step] at hstep
    split at hstep
    · simp only [Option.some.injEq] at hstep
      subst hstep
      exact hs
    · cases hstep
  | deliver i ev =>
    simp only [step, List.get?_eq_getElem?] at hstep
    cases ht : s.tasks[i]? with
    | none => simp [ht] at hstep
    | some t =>
      simp only [ht, Option.map_eq_some'] at hstep
      rw [← List.get?_eq_getElem?] at ht
      obtain ⟨r, hr, hp⟩ := hstep
      subst hp
      have hres := resume_busyInv h t ev _ r hr
      have hlen := filter_length_eraseIdx Task.isMutation s.tasks i t ht
      have hs0 := hs
      unfold BusyInv inProgress at hs0
      cases hm : t.isMutation with
      | true =>
        rw [hm] at hlen
        simp only [↓reduceIte] at hlen
        cases hl : s.isLoading with
        | true =>
          rw [hl] at hs0
          simp only [↓reduceIte] at hs0
          exact hres.1 hm hl (by unfold inProgress; show (List.filter _ (s.tasks.eraseIdx i)).length = 0; omega)
        | false =>
          rw [hl] at hs0
          simp only [Bool.false_eq_true, ↓reduceIte] at hs0
          omega
      | false =>
        rw [hm] at hlen
        simp only [Bool.false_eq_true, ↓reduceIte, Nat.add_zero] at hlen
        apply hres.2 hm
        unfold BusyInv inProgress
        show (List.filter Task.isMutation (s.tasks.eraseIdx i)).length = _
        rw [← hlen]
        exact hs0

theorem reachable_busyInv (h : Host) (dom : Dom) (s : State) (hr : Reachable h dom s) :
    BusyInv s := by
  induction hr with
  | construct => exact construct_busyInv dom
  | step a _ hstep ih => exact step_busyInv h _ _ a ih hstep

/-! ## A call run alone is a run of the interleaved steps -/

/-- Run alone from an idle state with no suspended call, `updateQuantity` is the
interleaved run in which the change response, the cart response and the cart body
arrive one after the other. -/
theorem updateQuantity_eq_run (h : Host) (s : State) (itemId quantity cart : JsVal)
    (b : Except JsErr JsVal) (ok : Bool) (hl : s.isLoading = false) (ht : s.tasks = []) :
    run h s [.updateQuantity itemId quantity, .deliver 0 (.fetchResponse true),
      .deliver 0 (.fetchResponse ok), .deliver 0 (.jsonValue cart)] =
    some (updateQuantity h s itemId quantity (.response true b) (.response ok (.ok cart))).1 := by
  simp [run, step, startUpdateQuantity, park, hl, ht, resume, settle, afterRefresh,
    updateQuantity, updateCartDisplay, refreshLand, updateQuantityBegin, updateCartDisplayBegin,
    setLoading, List.eraseIdx]

/-- Run alone from an idle state with no suspended call, a successful `addItem` is the
interleaved run in which the add response, its body, the cart response and the cart
body arrive one after the other. -/
theorem addItem_eq_run (h : Host) (s : State) (variantId quantity properties item cart : JsVal)
    (form : List (String × String)) (ok : Bool) (hl : s.isLoading = false) (ht : s.tasks = [])
    (hf : addForm h variantId quantity properties = .ok form) :
    run h s [.addItem variantId quantity properties, .deliver 0 (.fetchResponse true),
      .deliver 0 (.jsonValue item), .deliver 0 (.fetchResponse ok),
      .deliver 0 (.jsonValue cart)] =
    some (addItem h s variantId quantity properties (.response true (.ok item))
      (.response ok (.ok cart))).1 := by
  simp [run, step, startAddItem, park, hl, ht, hf, resume, settle, afterRefresh,
    addItem, addItemOnJson, updateCartDisplay, refreshLand, updateCartDisplayBegin,
    setLoading, List.eraseIdx]

/-! ## The claims -/

/-- C1 (as amended): in every state that calls of `updateQuantity`, `removeItem`,
`addItem`, `open`, `close` and network completions can reach from the constructor, at
most one change or add request is outstanding, and while one is outstanding `isLoading`
is true; `isLoading` is true exactly while one `updateQuantity` or `addItem` call is
in progress, at its own request or at the refresh that follows it. -/
theorem busy_guard_exclusivity (h : Host) (dom : Dom) (s : State) (hr : Reachable h dom s) :
    outstanding s ≤ 1 ∧ (outstanding s = 1 → s.isLoading = true) ∧
    inProgress s ≤ 1 ∧ (s.isLoading = true ↔ inProgress s = 1) := by
  have hinv := reachable_busyInv h dom s hr
  have hle := outstanding_le_inProgress s
  unfold BusyInv at hinv
  cases hl : s.isLoading with
  | true =>
    rw [hl] at hinv
    simp only [↓reduceIte] at hinv
    exact ⟨by omega, fun _ => rfl, by omega, ⟨fun _ => hinv, fun _ => rfl⟩⟩
  | false =>
    rw [hl] at hinv
    simp only [Bool.false_eq_true, ↓reduceIte] at hinv
    exact ⟨by omega, fun h1 => by omega, by omega,
      ⟨fun h1 => Bool.noConfusion h1, fun h1 => by omega⟩⟩

/-- The state `demoBusy` is reachable. -/
theorem demoBusy_reachable : Reachable demoHost demoDom demoBusy :=
  Reachable.step (.updateQuantity (.str "line-1") (.num 3)) Reachable.construct rfl

/-- The state `demoRefreshing` is reachable. -/
theorem demoRefreshing_reachable : Reachable demoHost demoDom demoRefreshing :=
  Reachable.step (.deliver 1 (.fetchResponse true)) demoBusy_reachable rfl

/-- C1 (as amended) at `demoBusy`, where one change request is outstanding. -/
theorem busy_guard_exclusivity_witness :
    Reachable demoHost demoDom demoBusy ∧ outstanding demoBusy = 1 ∧
    (outstanding demoBusy ≤ 1 ∧ (outstanding demoBusy = 1 → demoBusy.isLoading = true) ∧
      inProgress demoBusy ≤ 1 ∧ (demoBusy.isLoading = true ↔ inProgress demoBusy = 1)) :=
  ⟨demoBusy_reachable, by decide,
    busy_guard_exclusivity demoHost demoDom demoBusy demoBusy_reachable⟩

/-- C1 fails as stated: in `demoRefreshing` the change request has been answered, no
change or add request is outstanding, and `isLoading` is still true. -/
theorem busy_without_outstanding_request :
    ¬ (∀ s : State, Reachable demoHost demoDom s →
        outstanding s ≤ 1 ∧ (outstanding s = 1 ↔ s.isLoading = true)) := by
  intro hall
  have h1 := (hall demoRefreshing demoRefreshing_reachable).2.2 rfl
  exact absurd h1 (by decide)

/-- C2: a call of `updateQuantity` made while `isLoading` is true returns at once:
the whole state is as before (no request, no refresh, no notification, `isOpen` and
`isLoading` unchanged, no suspended call added) and the promise resolves. -/
theorem updateQuantity_dropped_while_busy (h : Host) (s : State) (itemId quantity : JsVal)
    (change cart : NetResult) (hb : s.isLoading = true) :
    updateQuantity h s itemId quantity change cart = (s, .resolved .undefined) ∧
    step h s (.updateQuantity itemId quantity) = some s := by
  simp [updateQuantity, step, startUpdateQuantity, park, hb]

/-- C2 at `demoBusy`. -/
theorem updateQuantity_dropped_while_busy_witness :
    demoBusy.isLoading = true ∧
    (updateQuantity demoHost demoBusy (.str "line-1") (.num 4)
        (.response true (.ok demoCart)) (.response true (.ok demoCart)) =
      (demoBusy, .resolved .undefined) ∧
     step demoHost demoBusy (.updateQuantity (.str "line-1") (.num 4)) = some demoBusy) :=
  ⟨rfl, updateQuantity_dropped_while_busy demoHost demoBusy _ _ _ _ rfl⟩

/-- C3 fails as stated: called while busy, `addItem` resolves with `undefined`,
raises nothing and leaves the state as it was, which is exactly what the silently
dropped `updateQuantity` does. -/
theorem addItem_while_busy_gives_no_signal :
    addItem demoHost demoBusy (.str "variant-42") (.num 2) (.obj [])
        (.response true (.ok demoItem)) (.response true (.ok demoCart)) =
      (demoBusy, .resolved .undefined) ∧
    addItem demoHost demoBusy (.str "variant-42") (.num 2) (.obj [])
        (.response true (.ok demoItem)) (.response true (.ok demoCart)) =
      updateQuantity demoHost demoBusy (.str "line-1") (.num 2)
        (.response true (.ok demoCart)) (.response true (.ok demoCart)) ∧
    ¬ ∃ e, (addItem demoHost demoBusy (.str "variant-42") (.num 2) (.obj [])
        (.response true (.ok demoItem)) (.response true (.ok demoCart))).2 = .rejected e := by
  refine ⟨rfl, rfl, ?_⟩
  rintro ⟨e, he⟩
  cases he

/-- C3 (as amended): a call of `addItem` made while `isLoading` is true is dropped
without a signal: the promise resolves with `undefined`, nothing is raised and the
whole state is as before. -/
theorem addItem_dropped_while_busy (h : Host) (s : State) (variantId quantity properties : JsVal)
    (add cart : NetResult) (hb : s.isLoading = true) :
    addItem h s variantId quantity properties add cart = (s, .resolved .undefined) ∧
    step h s (.addItem variantId quantity properties) = some s := by
  simp [addItem, step, startAddItem, park, hb]

/-- C3 (as amended) at `demoBusy`. -/
theorem addItem_dropped_while_busy_witness :
    demoBusy.isLoading = true ∧
    (addItem demoHost demoBusy (.str "variant-42") (.num 2) (.obj [])
        (.failed ⟨"Failed to fetch"⟩) (.response true (.ok demoCart)) =
      (demoBusy, .resolved .undefined) ∧
     step demoHost demoBusy (.addItem (.str "variant-42") (.num 2) (.obj [])) = some demoBusy) :=
  ⟨rfl, addItem_dropped_while_busy demoHost demoBusy _ _ _ _ _ rfl⟩

/-- The busy flag is clear after a call of `updateQuantity` that was not dropped. -/
theorem updateQuantity_isLoading (h : Host) (s : State) (itemId quantity : JsVal)
    (change cart : NetResult) (hl : s.isLoading = false) :
    (updateQuantity h s itemId quantity change cart).1.isLoading = false := by
  unfold updateQuantity
  simp only [hl, Bool.false_eq_true, ↓reduceIte]
  split
  · exact (updateQuantityCatch_ctl _).1
  · exact (updateQuantityDone_ctl _).1
  · exact (updateQuantityCatch_ctl _).1

/-- The busy flag is clear after a call of `addItem` that was not dropped. -/
theorem addItem_isLoading (h : Host) (s : State) (variantId quantity properties : JsVal)
    (add cart : NetResult) (hl : s.isLoading = false) :
    (addItem h s variantId quantity properties add cart).1.isLoading = false := by
  unfold addItem
  simp only [hl, Bool.false_eq_true, ↓reduceIte]
  split
  · exact (addItemCatch_ctl _ _).1
  · split
    · exact (addItemCatch_ctl _ _).1
    · exact (addItemCatch_ctl _ _).1
    · exact (addItemDone_ctl _ _ _).1
    · exact (addItemCatch_ctl _ _).1

/-- The busy flag is clear whenever a suspended `updateQuantity` or `addItem` settles. -/
theorem resume_settled_isLoading (h : Host) (t : Task) (ev : NetEvent) (s0 s1 : State)
    (c : Completion) (hm : t.isMutation = true) (hr : resume h t ev s0 = some (s1, .settled c)) :
    s1.isLoading = false := by
  have hafter : ∀ (k : Owner) (s : State), Task.isMutation (.cartFetch k) = true →
      settle (afterRefresh h k s) = (s1, .settled c) → s1.isLoading = false := by
    intro k s hk he
    have := ((afterRefresh_ctl h k s).2 hk).1
    simp only [settle, Prod.mk.injEq] at he
    rw [← he.1]
    exact this
  cases t with
  | changeFetch =>
    cases ev with
    | fetchRejected e =>
      simp only [resume, settle, Option.some.injEq, Prod.mk.injEq] at hr
      rw [← hr.1]
      exact (updateQuantityCatch_ctl _).1
    | fetchResponse ok =>
      cases ok with
      | true => simp [resume] at hr
      | false =>
        simp only [resume, settle, Option.some.injEq, Prod.mk.injEq] at hr
        rw [← hr.1]
        exact (updateQuantityCatch_ctl _).1
    | jsonRejected e => simp [resume] at hr
    | jsonValue v => simp [resume] at hr
  | addFetch =>
    cases ev with
    | fetchRejected e =>
      simp only [resume, settle, Option.some.injEq, Prod.mk.injEq] at hr
      rw [← hr.1]
      exact (addItemCatch_ctl _ _).1
    | fetchResponse ok => simp [resume] at hr
    | jsonRejected e => simp [resume] at hr
    | jsonValue v => simp [resume] at hr
  | addJson ok =>
    have key : ∀ body, addItemOnJson h ok body s0 = (s1, .settled c) → s1.isLoading = false := by
      intro body hb
      unfold addItemOnJson at hb
      cases body with
      | error e =>
        simp only [settle, Prod.mk.injEq] at hb
        rw [← hb.1]
        exact (addItemCatch_ctl _ _).1
      | ok v =>
        cases ok with
        | true => simp at hb
        | false =>
          simp only [settle, Bool.false_eq_true, ↓reduceIte, Prod.mk.injEq] at hb
          rw [← hb.1]
          exact (addItemCatch_ctl _ _).1
    cases ev with
    | fetchRejected e => simp [resume] at hr
    | fetchResponse ok => simp [resume] at hr
    | jsonRejected e =>
      simp only [resume, Option.some.injEq] at hr
      exact key _ hr
    | jsonValue v =>
      simp only [resume, Option.some.injEq] at hr
      exact key _ hr
  | cartFetch k =>
    cases ev with
    | fetchRejected e =>
      simp only [resume, Option.some.injEq] at hr
      exact hafter k _ hm hr
    | fetchResponse ok => simp [resume] at hr
    | jsonRejected e => simp [resume] at hr
    | jsonValue v => simp [resume] at hr
  | cartJson k =>
    have hk : Task.isMutation (.cartFetch k) = true := by
      cases k <;> simp_all [Task.isMutation]
    cases ev with
    | fetchRejected e => simp [resume] at hr
    | fetchResponse ok => simp [resume] at hr
    | jsonRejected e =>
      simp only [resume, Option.some.injEq] at hr
      exact hafter k _ hk hr
    | jsonValue v =>
      simp only [resume, Option.some.injEq] at hr
      exact hafter k _ hk hr

/-- C4: a call of `updateQuantity`, `removeItem` or `addItem` started with `isLoading`
false ends with `isLoading` false, whatever the change or add request and the refresh
meet; and in the interleaved run every step at which such a call settles leaves
`isLoading` false. -/
theorem busy_flag_cleared_when_call_completes (h : Host) (s : State)
    (itemId quantity variantId addQuantity properties : JsVal) (change add cart : NetResult)
    (hl : s.isLoading = false) :
    (updateQuantity h s itemId quantity change cart).1.isLoading = false ∧
    (removeItem h s itemId change cart).1.isLoading = false ∧
    (addItem h s variantId addQuantity properties add cart).1.isLoading = false ∧
    (∀ (t : Task) (ev : NetEvent) (s0 s1 : State) (c : Completion), t.isMutation = true →
      resume h t ev s0 = some (s1, .settled c) → s1.isLoading = false) :=
  ⟨updateQuantity_isLoading h s _ _ _ _ hl, updateQuantity_isLoading h s _ _ _ _ hl,
    addItem_isLoading h s _ _ _ _ _ hl,
    fun t ev s0 s1 c hm hr => resume_settled_isLoading h t ev s0 s1 c hm hr⟩

/-- C4 at `demoState`, with failing requests. -/
theorem busy_flag_cleared_when_call_completes_witness :
    demoState.isLoading = false ∧
    ((updateQuantity demoHost demoState (.str "line-1") (.num 3)
        (.response false (.ok demoErrorPayload)) (.failed ⟨"Failed to fetch"⟩)).1.isLoading = false ∧
     (removeItem demoHost demoState (.str "line-1")
        (.response false (.ok demoErrorPayload)) (.failed ⟨"Failed to fetch"⟩)).1.isLoading = false ∧
     (addItem demoHost demoState (.str "variant-42") (.num 2) (.obj [])
        (.response true (.error ⟨"Unexpected token"⟩)) (.failed ⟨"Failed to fetch"⟩)).1.isLoading
        = false ∧
     (∀ (t : Task) (ev : NetEvent) (s0 s1 : State) (c : Completion), t.isMutation = true →
        resume demoHost t ev s0 = some (s1, .settled c) → s1.isLoading = false)) :=
  ⟨rfl, busy_flag_cleared_when_call_completes demoHost demoState (.str "line-1") (.num 3)
    (.str "variant-42") (.num 2) (.obj []) (.response false (.ok demoErrorPayload))
    (.response true (.error ⟨"Unexpected token"⟩)) (.failed ⟨"Failed to fetch"⟩) rfl⟩

/-- C5: started when not busy, `updateQuantity(id, q)` for an integer `q` hands
`fetch` one change request with payload `{id, quantity: max(0, q)}` (followed by the
refresh request when the response is `ok`), and for `q ≤ 0` the call is the same as
`removeItem(id)`. -/
theorem updateQuantity_sends_clamped_quantity (h : Host) (s : State) (itemId : JsVal) (q : Int)
    (change cart : NetResult) (hl : s.isLoading = false) :
    (updateQuantity h s itemId (.num q) change cart).1.requests =
      s.requests ++ [.change (.obj [("id", itemId), ("quantity", .num (max 0 q))])] ++
        (match change with
          | .response true _ => [Request.getCart]
          | _ => []) ∧
    (q ≤ 0 → updateQuantity h s itemId (.num q) change cart = removeItem h s itemId change cart) := by
  constructor
  · unfold updateQuantity
    simp only [hl, Bool.false_eq_true, ↓reduceIte]
    cases change with
    | failed e =>
      simp [updateQuantityCatch, updateQuantityBegin, setLoading, showFeedback, consoleError,
        JsVal.mathMax0, JsVal.toNumber]
    | response ok body =>
      cases ok with
      | false =>
        simp [updateQuantityCatch, updateQuantityBegin, setLoading, showFeedback, consoleError,
          JsVal.mathMax0, JsVal.toNumber]
      | true =>
        have hf := refreshLand_sameCtl h cart
          (updateCartDisplayBegin (updateQuantityBegin h itemId (.num q) s))
        have hreq := hf.2.2.2.2.1
        simp only [updateQuantityDone, updateCartDisplay]
        show (refreshLand h cart _).requests = _
        rw [hreq]
        simp [updateCartDisplayBegin, updateQuantityBegin, setLoading, JsVal.mathMax0,
          JsVal.toNumber]
  · intro hq
    unfold removeItem updateQuantity updateQuantityBegin
    have : JsVal.mathMax0 h (.num q) = JsVal.mathMax0 h (.num 0) := by
      simp [JsVal.mathMax0, JsVal.toNumber, hq]
    rw [this]

/-- C5 at `demoState` for the quantity -5. -/
theorem updateQuantity_sends_clamped_quantity_witness :
    demoState.isLoading = false ∧
    ((updateQuantity demoHost demoState (.str "line-1") (.num (-5))
        (.response true (.ok demoCart)) (.response true (.ok demoCart))).1.requests =
      demoState.requests ++
        [.change (.obj [("id", .str "line-1"), ("quantity", .num (max 0 (-5)))])] ++
        [Request.getCart] ∧
     ((-5 : Int) ≤ 0 →
      updateQuantity demoHost demoState (.str "line-1") (.num (-5))
        (.response true (.ok demoCart)) (.response true (.ok demoCart)) =
      removeItem demoHost demoState (.str "line-1")
        (.response true (.ok demoCart)) (.response true (.ok demoCart)))) :=
  ⟨rfl, updateQuantity_sends_clamped_quantity demoHost demoState (.str "line-1") (-5)
    (.response true (.ok demoCart)) (.response true (.ok demoCart)) rfl⟩

/-- C7: `updateCartDisplay` resolves for every result of the cart request and shows
no notification; the same holds for a refresh nobody awaits in the interleaved run. -/
theorem updateCartDisplay_never_raises (h : Host) (s : State) (r : NetResult) :
    (updateCartDisplay h s r).2 = .resolved .undefined ∧
    (updateCartDisplay h s r).1.feedback = s.feedback ∧
    (∀ (ev : NetEvent) (s0 s1 : State) (c : Completion),
      (resume h (.cartFetch .detached) ev s0 = some (s1, .settled c) ∨
       resume h (.cartJson .detached) ev s0 = some (s1, .settled c)) →
      c = .resolved .undefined ∧ s1.feedback = s0.feedback) := by
  refine ⟨rfl, ?_, ?_⟩
  · have hf := refreshLand_sameCtl h r (updateCartDisplayBegin s)
    exact hf.2.2.2.1
  · intro ev s0 s1 c hr
    cases ev with
    | fetchRejected e =>
      simp [resume, settle, afterRefresh, catchDisplay, consoleError] at hr
      obtain ⟨h1, h2⟩ := hr
      subst h1 h2
      exact ⟨rfl, rfl⟩
    | fetchResponse ok => simp [resume] at hr
    | jsonRejected e =>
      simp [resume, settle, afterRefresh] at hr
      obtain ⟨h1, h2⟩ := hr
      subst h1 h2
      exact ⟨rfl, (refreshOnJson_sameCtl h _ s0).2.2.2.1⟩
    | jsonValue v =>
      simp [resume, settle, afterRefresh] at hr
      obtain ⟨h1, h2⟩ := hr
      subst h1 h2
      exact ⟨rfl, (refreshOnJson_sameCtl h _ s0).2.2.2.1⟩

/-- When `fetch` rejects or the body does not parse, `updateCartDisplay` leaves the
page as it was. -/
theorem updateCartDisplay_keeps_page_without_body (h : Host) (s : State) (e : JsErr) (ok : Bool) :
    (updateCartDisplay h s (.failed e)).1.dom = s.dom ∧
    (updateCartDisplay h s (.response ok (.error e))).1.dom = s.dom :=
  ⟨rfl, rfl⟩

/-- C6 at the failing input: the cart request is answered with status 500.  With a
JSON error payload as body the drawer count and the badge lose the count and the
subtotal is overwritten; with the JSON of an empty cart as body the rendered rows are
replaced by the empty-state markup and the checkout button is disabled. -/
theorem refresh_http500_overwrites_page (h : Host) :
    demoState.dom.countElement = some "2" ∧
    demoState.dom.badges = [⟨"2", "block"⟩] ∧
    demoState.dom.subtotalElement = some "₹2000" ∧
    demoState.dom.checkoutBtn = some false ∧
    (updateCartDisplay h demoState
      (.response false (.ok demoErrorPayload))).1.dom.countElement = some "" ∧
    (updateCartDisplay h demoState
      (.response false (.ok demoErrorPayload))).1.dom.badges = [⟨"", "none"⟩] ∧
    (updateCartDisplay h demoState
      (.response false (.ok demoErrorPayload))).1.dom.subtotalElement =
        some (formatMoney h .undefined) ∧
    (updateCartDisplay h demoState
      (.response false (.ok emptyCart))).1.dom.countElement = some "0" ∧
    (updateCartDisplay h demoState
      (.response false (.ok emptyCart))).1.dom.badges = [⟨"0", "none"⟩] ∧
    (updateCartDisplay h demoState
      (.response false (.ok emptyCart))).1.dom.itemsContainer = some ⟨emptyStateHTML, false⟩ ∧
    (updateCartDisplay h demoState
      (.response false (.ok emptyCart))).1.dom.checkoutBtn = some true :=
  ⟨rfl, rfl, rfl, rfl, rfl, rfl, rfl, rfl, rfl, rfl, rfl⟩

/-- Rows are rendered for every list of objects. -/
theorem renderRows_of_objects (h : Host) :
    ∀ xs : List JsVal, (∀ x ∈ xs, ∃ ps, x = .obj ps) →
      ∃ rows, renderRows h xs = .ok rows ∧
        List.Forall₂ (fun x row => renderCartItem h x = .ok row) xs rows
  | [], _ => ⟨[], rfl, List.Forall₂.nil⟩
  | x :: xs, hx => by
    obtain ⟨ps, hps⟩ := hx x (List.mem_cons_self x xs)
    obtain ⟨rows, hrows, hall⟩ := renderRows_of_objects h xs
      (fun y hy => hx y (List.mem_cons_of_mem x hy))
    subst hps
    cases hrow : renderCartItem h (.obj ps) with
    | error e => simp [renderCartItem, JsVal.get] at hrow
    | ok row =>
      refine ⟨row :: rows, ?_, List.Forall₂.cons hrow hall⟩
      simp [renderRows, hrow, hrows]

/-- The comparison `n > 0` on a number. -/
theorem gt_zero_num (h : Host) (n : Int) : JsVal.gt h (.num n) (.num 0) = decide (0 < n) := by
  simp [JsVal.gt, JsVal.toPrimitive, JsVal.toNumber]

/-- The test `items.length === 0` on an array. -/
theorem isZero_length (xs : List JsVal) :
    (JsVal.num (xs.length : Int)).isZero = xs.isEmpty := by
  cases xs with
  | nil => rfl
  | cons x xs =>
    simp only [JsVal.isZero, List.length_cons, List.isEmpty_cons, beq_eq_false_iff_ne, ne_eq]
    omega

/-- What `renderCartItems` does on an array whose rows render. -/
theorem renderCartItems_of_rows (h : Host) (xs : List JsVal) (rows : List String) (s : State)
    (hrows : renderRows h xs = .ok rows) :
    renderCartItems h (.arr xs) s = .ok
      (match s.dom.itemsContainer with
        | none => s
        | some _ => setItemsHTML (if xs.isEmpty then emptyStateHTML else String.join rows) s) := by
  unfold renderCartItems
  cases hcont : s.dom.itemsContainer with
  | none => rfl
  | some c =>
    have hlen : (JsVal.arr xs).get h "length" = .ok (.num xs.length) := by
      simp [JsVal.get]
    simp only [hlen, isZero_length, hrows]
    cases hxs : xs.isEmpty with
    | true => simp [renderEmptyState]
    | false => simp

/-- The elements `renderCartItems` does not write. -/
theorem renderCartItems_dom (h : Host) (items : JsVal) (s s1 : State)
    (hr : renderCartItems h items s = .ok s1) :
    s1.dom.countElement = s.dom.countElement ∧ s1.dom.badges = s.dom.badges ∧
    s1.dom.subtotalElement = s.dom.subtotalElement ∧ s1.dom.checkoutBtn = s.dom.checkoutBtn := by
  unfold renderCartItems at hr
  split at hr
  · cases hr; simp
  · split at hr
    · cases hr
    · split at hr
      · cases hr; simp [renderEmptyState, setItemsHTML]
      · split at hr
        · split at hr
          · cases hr
          · cases hr; simp [setItemsHTML]
        · cases hr

/-- The count written by a refresh that could read `item_count`. -/
theorem refreshOnJson_counts (h : Host) (cart count : JsVal) (s : State)
    (hc : cart.get h "item_count" = .ok count) :
    (refreshOnJson h (.ok cart) s).dom.countElement =
      s.dom.countElement.map (fun _ => count.toText) ∧
    (refreshOnJson h (.ok cart) s).dom.badges =
      s.dom.badges.map (fun _ =>
        ⟨count.toText, if JsVal.gt h count (.num 0) then "block" else "none"⟩) := by
  simp only [refreshOnJson, applyCart, hc]
  cases hr : renderCartItems h (cart.field h "items")
      (updateSubtotal h (cart.field h "total_price") (updateCartCount h count s)) with
  | error e => exact ⟨rfl, rfl⟩
  | ok s3 =>
    have hd := renderCartItems_dom h _ _ _ hr
    exact ⟨hd.1, hd.2.1⟩

/-- The method `open` dispatches nothing and writes no count. -/
theorem openDrawer_counts (s : State) :
    (openDrawer s).events = s.events ∧ (openDrawer s).dom.countElement = s.dom.countElement ∧
    (openDrawer s).dom.badges = s.dom.badges := by
  unfold openDrawer spawnRefresh updateCartDisplayBegin
  split
  · exact ⟨rfl, rfl, rfl⟩
  · simp only []
    split <;> exact ⟨rfl, rfl, rfl⟩

/-- The end of `addItem` dispatches nothing and writes no count. -/
theorem addItemDone_counts (h : Host) (item : JsVal) (s : State) :
    (addItemDone h item s).1.events = s.events ∧
    (addItemDone h item s).1.dom.countElement = s.dom.countElement ∧
    (addItemDone h item s).1.dom.badges = s.dom.badges := by
  unfold addItemDone
  simp only []
  have ho := openDrawer_counts (showFeedback "Added to cart" "success" s)
  cases ht : trackAddToCart h item
      (noteTracked item (openDrawer (showFeedback "Added to cart" "success" s))) with
  | error e => exact ho
  | ok s2 =>
    unfold trackAddToCart at ht
    split at ht
    · split at ht
      · cases ht
      · cases ht; exact ho
    · cases ht; exact ho

/-- How the count reaches the page: an `addItem` whose request succeeds dispatches no
event; when the refresh it awaits reads a cart with `item_count` the number `n`, the
writes of `updateCartCount` make the drawer count and every `.cart-count` badge show
`n`. -/
theorem addItem_success_writes_count_directly (h : Host) (s : State)
    (variantId quantity properties item cart : JsVal) (form : List (String × String))
    (ok : Bool) (n : Int)
    (hl : s.isLoading = false)
    (hf : addForm h variantId quantity properties = .ok form)
    (hc : cart.get h "item_count" = .ok (.num n)) :
    (addItem h s variantId quantity properties (.response true (.ok item))
      (.response ok (.ok cart))).1.events = s.events ∧
    (addItem h s variantId quantity properties (.response true (.ok item))
      (.response ok (.ok cart))).1.dom.countElement =
        s.dom.countElement.map (fun _ => toString n) ∧
    (addItem h s variantId quantity properties (.response true (.ok item))
      (.response ok (.ok cart))).1.dom.badges =
        s.dom.badges.map (fun _ => ⟨toString n, if 0 < n then "block" else "none"⟩) := by
  simp only [addItem, hl, hf, Bool.false_eq_true, ↓reduceIte, updateCartDisplay, refreshLand]
  have hd := addItemDone_counts h item (refreshOnJson h (.ok cart)
    (updateCartDisplayBegin { setLoading true s with
      requests := (setLoading true s).requests ++ [Request.add form] }))
  have hr := refreshOnJson_counts h cart (.num n)
    (updateCartDisplayBegin { setLoading true s with
      requests := (setLoading true s).requests ++ [Request.add form] }) hc
  have hs := refreshOnJson_sameCtl h (.ok cart)
    (updateCartDisplayBegin { setLoading true s with
      requests := (setLoading true s).requests ++ [Request.add form] })
  refine ⟨hd.1.trans hs.2.2.2.2.2.1, hd.2.1.trans (hr.1.trans ?_), hd.2.2.trans (hr.2.trans ?_)⟩
  · simp [updateCartDisplayBegin, setLoading, JsVal.toText, JsVal.toStr]
  · simp [updateCartDisplayBegin, setLoading, JsVal.toText, JsVal.toStr, gt_zero_num]

/-- The writes of the count in the end-to-end scenario of the specification. -/
theorem addItem_success_writes_count_directly_witness :
    demoState.isLoading = false ∧
    addForm demoHost (.str "variant-42") (.num 2) (.obj []) =
      .ok [("id", "variant-42"), ("quantity", "2")] ∧
    demoCart.get demoHost "item_count" = .ok (.num 2) ∧
    ((addItem demoHost demoState (.str "variant-42") (.num 2) (.obj [])
      (.response true (.ok demoItem)) (.response true (.ok demoCart))).1.events =
        demoState.events ∧
    (addItem demoHost demoState (.str "variant-42") (.num 2) (.obj [])
      (.response true (.ok demoItem)) (.response true (.ok demoCart))).1.dom.countElement =
        demoState.dom.countElement.map (fun _ => toString (2 : Int)) ∧
    (addItem demoHost demoState (.str "variant-42") (.num 2) (.obj [])
      (.response true (.ok demoItem)) (.response true (.ok demoCart))).1.dom.badges =
        demoState.dom.badges.map
          (fun _ => ⟨toString (2 : Int), if 0 < (2 : Int) then "block" else "none"⟩)) :=
  ⟨rfl, rfl, rfl,
    addItem_success_writes_count_directly demoHost demoState (.str "variant-42") (.num 2)
      (.obj []) demoItem demoCart [("id", "variant-42"), ("quantity", "2")] true 2 rfl rfl rfl⟩

/-- C10 fails as stated: when the network is unreachable, or the body of an error
response does not parse, the notification and the propagated error carry the message
of that error, not the text `Failed to add to cart`. -/
theorem addItem_network_failure_shows_transport_message :
    (addItem demoHost demoState (.str "variant-42") (.num 2) (.obj [])
      (.failed ⟨"Failed to fetch"⟩) (.response true (.ok demoCart))).2 =
        .rejected ⟨"Failed to fetch"⟩ ∧
    (addItem demoHost demoState (.str "variant-42") (.num 2) (.obj [])
      (.failed ⟨"Failed to fetch"⟩) (.response true (.ok demoCart))).1.feedback =
        [⟨"Failed to fetch", "error"⟩] ∧
    (addItem demoHost demoState (.str "variant-42") (.num 2) (.obj [])
      (.response false (.error ⟨"Unexpected token <"⟩)) (.response true (.ok demoCart))).1.feedback =
        [⟨"Unexpected token <", "error"⟩] ∧
    "Failed to fetch" ≠ "Failed to add to cart" := by
  refine ⟨rfl, rfl, rfl, by decide⟩

/-- C10 (as amended): an `addItem` started when not busy whose request fails rejects
with an error `e` and shows the error notification `e.message`, or `Failed to add to
cart` when that message is empty.  For an error response whose payload has a non-empty
string `message` `m`, `e.message` is `m`; for a payload whose `message` is missing or
falsy it is `Failed to add to cart`; for a network error or an unparsable body `e` is
that error itself. -/
theorem addItem_failure_is_notified_and_propagated (h : Host) (s : State)
    (variantId quantity properties : JsVal) (form : List (String × String)) (cart : NetResult)
    (hl : s.isLoading = false)
    (hf : addForm h variantId quantity properties = .ok form) :
    (∀ add : NetResult, (∀ item, add ≠ .response true (.ok item)) →
      ∃ e, (addItem h s variantId quantity properties add cart).2 = .rejected e ∧
        (addItem h s variantId quantity properties add cart).1.feedback = s.feedback ++
          [⟨if e.message ≠ "" then e.message else "Failed to add to cart", "error"⟩]) ∧
    (∀ (payload : JsVal) (m : String), payload.get h "message" = .ok (.str m) → m ≠ "" →
      (addItem h s variantId quantity properties (.response false (.ok payload)) cart).2 =
        .rejected ⟨m⟩ ∧
      (addItem h s variantId quantity properties (.response false (.ok payload)) cart).1.feedback =
        s.feedback ++ [⟨m, "error"⟩]) ∧
    (∀ (payload mv : JsVal), payload.get h "message" = .ok mv → mv.truthy = false →
      (addItem h s variantId quantity properties (.response false (.ok payload)) cart).2 =
        .rejected ⟨"Failed to add to cart"⟩ ∧
      (addItem h s variantId quantity properties (.response false (.ok payload)) cart).1.feedback =
        s.feedback ++ [⟨"Failed to add to cart", "error"⟩]) ∧
    (∀ (e : JsErr) (ok : Bool),
      (addItem h s variantId quantity properties (.failed e) cart).2 = .rejected e ∧
      (addItem h s variantId quantity properties (.response ok (.error e)) cart).2 =
        .rejected e) := by
  have hcatch : ∀ (e : JsErr) (s2 : State), s2.feedback = s.feedback →
      (addItemCatch e s2).2 = .rejected e ∧ (addItemCatch e s2).1.feedback = s.feedback ++
        [⟨if e.message ≠ "" then e.message else "Failed to add to cart", "error"⟩] := by
    intro e s2 h2
    simp [addItemCatch, setLoading, showFeedback, consoleError, h2]
  refine ⟨?_, ?_, ?_, ?_⟩
  · intro add hadd
    cases add with
    | failed e =>
      simp only [addItem, hl, hf, Bool.false_eq_true, ↓reduceIte]
      exact ⟨e, hcatch e _ rfl⟩
    | response ok body =>
      cases body with
      | error e =>
        simp only [addItem, hl, hf, Bool.false_eq_true, ↓reduceIte]
        exact ⟨e, hcatch e _ rfl⟩
      | ok v =>
        cases ok with
        | true => exact absurd rfl (hadd v)
        | false =>
          simp only [addItem, hl, hf, Bool.false_eq_true, ↓reduceIte]
          exact ⟨_, hcatch _ _ rfl⟩
  · intro payload m hm hne
    simp only [addItem, hl, hf, Bool.false_eq_true, ↓reduceIte]
    have hrej : rejectionOfPayload h payload = ⟨m⟩ := by
      simp [rejectionOfPayload, hm, JsVal.truthy, hne, JsVal.toStr]
    rw [hrej]
    have := hcatch ⟨m⟩
      { setLoading true s with requests := (setLoading true s).requests ++ [Request.add form] } rfl
    simpa [hne] using this
  · intro payload mv hm hfalsy
    simp only [addItem, hl, hf, Bool.false_eq_true, ↓reduceIte]
    have hrej : rejectionOfPayload h payload = ⟨"Failed to add to cart"⟩ := by
      simp [rejectionOfPayload, hm, hfalsy, JsVal.toStr]
    rw [hrej]
    have := hcatch ⟨"Failed to add to cart"⟩
      { setLoading true s with requests := (setLoading true s).requests ++ [Request.add form] } rfl
    simpa using this
  · intro e ok
    simp only [addItem, hl, hf, Bool.false_eq_true, ↓reduceIte]
    exact ⟨(hcatch e _ rfl).1, (hcatch e _ rfl).1⟩

/-- C10 (as amended) at `demoState` for an error response with a message. -/
theorem addItem_failure_is_notified_and_propagated_witness :
    demoState.isLoading = false ∧
    addForm demoHost (.str "variant-42") (.num 2) (.obj []) =
      .ok [("id", "variant-42"), ("quantity", "2")] ∧
    (addItem demoHost demoState (.str "variant-42") (.num 2) (.obj [])
      (.response false (.ok demoErrorPayload)) (.failed ⟨"Failed to fetch"⟩)).2 =
        .rejected ⟨"Internal Server Error"⟩ ∧
    (addItem demoHost demoState (.str "variant-42") (.num 2) (.obj [])
      (.response false (.ok demoErrorPayload)) (.failed ⟨"Failed to fetch"⟩)).1.feedback =
        demoState.feedback ++ [⟨"Internal Server Error", "error"⟩] :=
  ⟨rfl, rfl,
    (addItem_failure_is_notified_and_propagated demoHost demoState (.str "variant-42") (.num 2)
      (.obj []) [("id", "variant-42"), ("quantity", "2")] (.failed ⟨"Failed to fetch"⟩)
      rfl rfl).2.1 demoErrorPayload "Internal Server Error" rfl (by decide)⟩

/-! ## The claims C11 to C20 -/

/-- The method `open` leaves the panel open. -/
theorem openDrawer_isOpen (s : State) : (openDrawer s).isOpen = true := by
  unfold openDrawer spawnRefresh updateCartDisplayBegin
  cases h : s.isOpen
  · simp only [Bool.false_eq_true, ↓reduceIte]
    split <;> rfl
  · simp [h]

/-- The method `open` shows no notification and tracks nothing. -/
theorem openDrawer_logs (s : State) :
    (openDrawer s).feedback = s.feedback ∧ (openDrawer s).analytics = s.analytics := by
  unfold openDrawer spawnRefresh updateCartDisplayBegin
  split
  · exact ⟨rfl, rfl⟩
  · simp only []
    split <;> exact ⟨rfl, rfl⟩

/-- The only requests `open` hands to `fetch` are refreshes. -/
theorem openDrawer_requests (s : State) :
    ∃ rest, (openDrawer s).requests = s.requests ++ rest ∧ ∀ r ∈ rest, r = Request.getCart := by
  unfold openDrawer spawnRefresh updateCartDisplayBegin
  split
  · exact ⟨[], by simp, by simp⟩
  · simp only []
    split <;> exact ⟨[.getCart], rfl, by simp⟩

/-- The method `open` calls no analytics hook. -/
theorem openDrawer_tracked (s : State) : (openDrawer s).tracked = s.tracked := by
  unfold openDrawer spawnRefresh updateCartDisplayBegin
  split
  · rfl
  · simp only []
    split <;> rfl

/-- The end of a successful `addItem` whose item is an object. -/
theorem addItemDone_of_object (h : Host) (r : List (String × JsVal)) (s : State) :
    (addItemDone h (.obj r) s).2 = .resolved (.obj r) ∧
    (addItemDone h (.obj r) s).1.isOpen = true ∧
    (addItemDone h (.obj r) s).1.feedback = s.feedback ++ [⟨"Added to cart", "success"⟩] ∧
    (addItemDone h (.obj r) s).1.analytics = s.analytics ++
      (if h.gtagDefined then
        [{ currency := "INR"
           value := (JsVal.lookup "price" r).overHundred h
           itemId := JsVal.lookup "product_id" r
           itemName := JsVal.lookup "product_title" r
           itemVariant := JsVal.lookup "variant_title" r
           quantity := JsVal.lookup "quantity" r
           price := (JsVal.lookup "price" r).overHundred h }]
      else []) ∧
    (addItemDone h (.obj r) s).1.tracked = s.tracked ++ [.obj r] ∧
    (∃ rest, (addItemDone h (.obj r) s).1.requests = s.requests ++ rest) := by
  have hopen := openDrawer_isOpen (showFeedback "Added to cart" "success" s)
  have hlogs := openDrawer_logs (showFeedback "Added to cart" "success" s)
  have htr := openDrawer_tracked (showFeedback "Added to cart" "success" s)
  obtain ⟨rest, hrest, -⟩ := openDrawer_requests (showFeedback "Added to cart" "success" s)
  unfold addItemDone
  simp only []
  generalize openDrawer (showFeedback "Added to cart" "success" s) = s4
    at hopen hlogs hrest htr
  have hfb4 : s4.feedback = s.feedback ++ [⟨"Added to cart", "success"⟩] := by
    rw [hlogs.1]; rfl
  have han4 : s4.analytics = s.analytics := by
    rw [hlogs.2]; rfl
  have hreq4 : s4.requests = s.requests ++ rest := by
    rw [hrest]; rfl
  have htr4 : s4.tracked = s.tracked := by
    rw [htr]; rfl
  cases hg : h.gtagDefined with
  | false =>
    simp only [trackAddToCart, hg, Bool.false_eq_true, ↓reduceIte]
    exact ⟨trivial, hopen, hfb4, by simpa [setLoading, noteTracked] using han4,
      by simp [setLoading, noteTracked, htr4], ⟨rest, hreq4⟩⟩
  | true =>
    simp only [trackAddToCart, hg, ↓reduceIte, JsVal.get, JsVal.field]
    exact ⟨trivial, hopen, hfb4, by simp [setLoading, noteTracked, han4],
      by simp [setLoading, noteTracked, htr4], ⟨rest, hreq4⟩⟩

/-- On a page where `gtag` is not defined the call succeeds and returns the item; the
analytics hook is called with the item and sends nothing. -/
theorem addItem_success_without_gtag_sends_nothing :
    (addItem plainHost demoState (.str "variant-42") (.num 2) (.obj [])
      (.response true (.ok demoItem)) (.response true (.ok demoCart))).2 = .resolved demoItem ∧
    (addItem plainHost demoState (.str "variant-42") (.num 2) (.obj [])
      (.response true (.ok demoItem)) (.response true (.ok demoCart))).1.tracked =
      [demoItem] ∧
    (addItem plainHost demoState (.str "variant-42") (.num 2) (.obj [])
      (.response true (.ok demoItem)) (.response true (.ok demoCart))).1.analytics = [] :=
  ⟨rfl, rfl, rfl⟩

/-- C11: an `addItem` started when not busy whose request returns an `ok` response
with the item record `r` hands the refresh request to `fetch` after the add request,
shows the success notification `Added to cart`, leaves `isOpen` true, calls the
analytics hook `trackAddToCart` once, with `r`, and resolves with `r`.  The hook reads
`r`'s `product_id`, `product_title`, `variant_title`, `quantity` and `price`: where
`gtag` is defined it passes them on, the price over 100 as the `value` of the event
and as the `price` of the item; where `gtag` is not defined it sends nothing. -/
theorem addItem_success_effects (h : Host) (s : State) (variantId quantity properties : JsVal)
    (form : List (String × String)) (r : List (String × JsVal)) (cart : NetResult)
    (hl : s.isLoading = false)
    (hf : addForm h variantId quantity properties = .ok form) :
    (addItem h s variantId quantity properties (.response true (.ok (.obj r))) cart).2 =
      .resolved (.obj r) ∧
    (∃ rest, (addItem h s variantId quantity properties
        (.response true (.ok (.obj r))) cart).1.requests =
      s.requests ++ [.add form, .getCart] ++ rest) ∧
    (addItem h s variantId quantity properties (.response true (.ok (.obj r))) cart).1.feedback =
      s.feedback ++ [⟨"Added to cart", "success"⟩] ∧
    (addItem h s variantId quantity properties (.response true (.ok (.obj r))) cart).1.isOpen =
      true ∧
    (addItem h s variantId quantity properties (.response true (.ok (.obj r))) cart).1.tracked =
      s.tracked ++ [.obj r] ∧
    (addItem h s variantId quantity properties (.response true (.ok (.obj r))) cart).1.analytics =
      s.analytics ++
        (if h.gtagDefined then
          [{ currency := "INR"
             value := ⟨(JsVal.lookup "price" r).toNumber h⟩
             itemId := JsVal.lookup "product_id" r
             itemName := JsVal.lookup "product_title" r
             itemVariant := JsVal.lookup "variant_title" r
             quantity := JsVal.lookup "quantity" r
             price := ⟨(JsVal.lookup "price" r).toNumber h⟩ }]
        else []) := by
  simp only [addItem, hl, hf, Bool.false_eq_true, ↓reduceIte, updateCartDisplay]
  have hs := refreshLand_sameCtl h cart (updateCartDisplayBegin
    { setLoading true s with requests := (setLoading true s).requests ++ [Request.add form] })
  obtain ⟨-, -, -, hfb, hreq, -, han, -, htr⟩ := hs
  have hd := addItemDone_of_object h r (refreshLand h cart (updateCartDisplayBegin
    { setLoading true s with requests := (setLoading true s).requests ++ [Request.add form] }))
  obtain ⟨h1, h2, h3, h4, h6, ⟨rest, h5⟩⟩ := hd
  refine ⟨h1, ⟨rest, ?_⟩, ?_, h2, ?_, ?_⟩
  · rw [h5, hreq]
    simp [updateCartDisplayBegin, setLoading]
  · rw [h3, hfb]
    rfl
  · rw [h6, htr]
    rfl
  · rw [h4, han]
    rfl

/-- C11 in the end-to-end scenario of the specification, with `gtag` loaded: the hook
receives the item, and the event carries its fields, the price 1000 over 100. -/
theorem addItem_success_effects_witness :
    demoState.isLoading = false ∧
    addForm demoHost (.str "variant-42") (.num 2) (.obj []) =
      .ok [("id", "variant-42"), ("quantity", "2")] ∧
    (addItem demoHost demoState (.str "variant-42") (.num 2) (.obj [])
      (.response true (.ok demoItem)) (.response true (.ok demoCart))).2 = .resolved demoItem ∧
    (addItem demoHost demoState (.str "variant-42") (.num 2) (.obj [])
      (.response true (.ok demoItem)) (.response true (.ok demoCart))).1.feedback =
      demoState.feedback ++ [⟨"Added to cart", "success"⟩] ∧
    (addItem demoHost demoState (.str "variant-42") (.num 2) (.obj [])
      (.response true (.ok demoItem)) (.response true (.ok demoCart))).1.isOpen = true ∧
    (addItem demoHost demoState (.str "variant-42") (.num 2) (.obj [])
      (.response true (.ok demoItem)) (.response true (.ok demoCart))).1.tracked =
      demoState.tracked ++ [demoItem] ∧
    (addItem demoHost demoState (.str "variant-42") (.num 2) (.obj [])
      (.response true (.ok demoItem)) (.response true (.ok demoCart))).1.analytics =
      demoState.analytics ++
        (if demoHost.gtagDefined then
          [{ currency := "INR"
             value := ⟨some 1000⟩
             itemId := .str "42"
             itemName := .str "Tee"
             itemVariant := .undefined
             quantity := .num 2
             price := ⟨some 1000⟩ }]
        else []) :=
  ⟨rfl, rfl,
    (addItem_success_effects demoHost demoState (.str "variant-42") (.num 2) (.obj [])
      [("id", "variant-42"), ("quantity", "2")]
      [("id", .str "line-1"), ("quantity", .num 2), ("price", .num 1000),
        ("product_id", .str "42"), ("product_title", .str "Tee")]
      (.response true (.ok demoCart)) rfl rfl).1,
    (addItem_success_effects demoHost demoState (.str "variant-42") (.num 2) (.obj [])
      [("id", "variant-42"), ("quantity", "2")]
      [("id", .str "line-1"), ("quantity", .num 2), ("price", .num 1000),
        ("product_id", .str "42"), ("product_title", .str "Tee")]
      (.response true (.ok demoCart)) rfl rfl).2.2.1,
    (addItem_success_effects demoHost demoState (.str "variant-42") (.num 2) (.obj [])
      [("id", "variant-42"), ("quantity", "2")]
      [("id", .str "line-1"), ("quantity", .num 2), ("price", .num 1000),
        ("product_id", .str "42"), ("product_title", .str "Tee")]
      (.response true (.ok demoCart)) rfl rfl).2.2.2.1,
    (addItem_success_effects demoHost demoState (.str "variant-42") (.num 2) (.obj [])
      [("id", "variant-42"), ("quantity", "2")]
      [("id", .str "line-1"), ("quantity", .num 2), ("price", .num 1000),
        ("product_id", .str "42"), ("product_title", .str "Tee")]
      (.response true (.ok demoCart)) rfl rfl).2.2.2.2.1,
    (addItem_success_effects demoHost demoState (.str "variant-42") (.num 2) (.obj [])
      [("id", "variant-42"), ("quantity", "2")]
      [("id", .str "line-1"), ("quantity", .num 2), ("price", .num 1000),
        ("product_id", .str "42"), ("product_title", .str "Tee")]
      (.response true (.ok demoCart)) rfl rfl).2.2.2.2.2⟩

/-- What a failed `updateQuantity` does: started when not busy, with a change request
that fails (the network is unreachable or the response is not `ok`), it shows the
error notification `Failed to update cart`, hands no refresh request to `fetch`,
leaves the drawer count, the badges, the subtotal and the rendered rows as they were,
and resolves.  The page afterwards is the page before with `setLoading(false)`
applied, which also writes the `disabled` flag of the checkout button. -/
theorem updateQuantity_failure_is_notified (h : Host) (s : State) (itemId quantity : JsVal)
    (change cart : NetResult) (hl : s.isLoading = false)
    (hfail : (∃ e, change = .failed e) ∨ (∃ body, change = .response false body)) :
    (updateQuantity h s itemId quantity change cart).2 = .resolved .undefined ∧
    (updateQuantity h s itemId quantity change cart).1.feedback =
      s.feedback ++ [⟨"Failed to update cart", "error"⟩] ∧
    (updateQuantity h s itemId quantity change cart).1.requests =
      s.requests ++ [.change (.obj [("id", itemId), ("quantity", quantity.mathMax0 h)])] ∧
    (updateQuantity h s itemId quantity change cart).1.tasks = s.tasks ∧
    (updateQuantity h s itemId quantity change cart).1.dom = (setLoading false s).dom ∧
    (updateQuantity h s itemId quantity change cart).1.dom.countElement = s.dom.countElement ∧
    (updateQuantity h s itemId quantity change cart).1.dom.badges = s.dom.badges ∧
    (updateQuantity h s itemId quantity change cart).1.dom.subtotalElement =
      s.dom.subtotalElement ∧
    (updateQuantity h s itemId quantity change cart).1.dom.itemsContainer.map
      (fun c => c.innerHTML) = s.dom.itemsContainer.map (fun c => c.innerHTML) := by
  have hres : updateQuantity h s itemId quantity change cart =
      updateQuantityCatch (updateQuantityBegin h itemId quantity s) := by
    unfold updateQuantity
    rcases hfail with ⟨e, rfl⟩ | ⟨body, rfl⟩ <;> simp [hl]
  rw [hres]
  refine ⟨rfl, rfl, rfl, rfl, ?_, rfl, rfl, rfl, ?_⟩
  · simp [updateQuantityCatch, updateQuantityBegin, setLoading, showFeedback, consoleError,
      Option.map_map, Function.comp_def]
  · cases hc : s.dom.itemsContainer <;>
      simp [updateQuantityCatch, updateQuantityBegin, setLoading, showFeedback, consoleError, hc]

/-- A failed `updateQuantity` at `demoState`, whose checkout button is enabled, with
the network unreachable: the page is as before. -/
theorem updateQuantity_failure_is_notified_witness :
    demoState.isLoading = false ∧
    (updateQuantity demoHost demoState (.str "line-1") (.num 3)
      (.failed ⟨"Failed to fetch"⟩) (.response true (.ok emptyCart))).1.feedback =
      demoState.feedback ++ [⟨"Failed to update cart", "error"⟩] ∧
    (updateQuantity demoHost demoState (.str "line-1") (.num 3)
      (.failed ⟨"Failed to fetch"⟩) (.response true (.ok emptyCart))).1.dom =
      (setLoading false demoState).dom ∧
    (setLoading false demoState).dom = demoState.dom :=
  ⟨rfl,
    (updateQuantity_failure_is_notified demoHost demoState (.str "line-1") (.num 3)
      (.failed ⟨"Failed to fetch"⟩) (.response true (.ok emptyCart)) rfl
      (Or.inl ⟨_, rfl⟩)).2.1,
    (updateQuantity_failure_is_notified demoHost demoState (.str "line-1") (.num 3)
      (.failed ⟨"Failed to fetch"⟩) (.response true (.ok emptyCart)) rfl
      (Or.inl ⟨_, rfl⟩)).2.2.2.2.1,
    rfl⟩

/-- C13: `open()` twice is `open()` once.  After `open()` the panel is open; called on
a closed panel it writes the scroll suppression once and starts one refresh; the
second call writes nothing, hands nothing to `fetch`, suspends nothing and moves no
focus. -/
theorem open_is_idempotent (s : State) :
    openDrawer (openDrawer s) = openDrawer s ∧
    (openDrawer s).isOpen = true ∧
    (s.isOpen = false →
      (openDrawer s).dom.bodyOverflow = "hidden" ∧
      (openDrawer s).dom.overflowWrites = s.dom.overflowWrites + 1 ∧
      (openDrawer s).requests = s.requests ++ [.getCart]) ∧
    (openDrawer (openDrawer s)).dom.overflowWrites = (openDrawer s).dom.overflowWrites ∧
    (openDrawer (openDrawer s)).requests = (openDrawer s).requests ∧
    (openDrawer (openDrawer s)).tasks = (openDrawer s).tasks ∧
    (openDrawer (openDrawer s)).dom.focusCalls = (openDrawer s).dom.focusCalls := by
  have hopen : (openDrawer s).isOpen = true := openDrawer_isOpen s
  have hidem : openDrawer (openDrawer s) = openDrawer s := by
    generalize openDrawer s = t at hopen
    simp [openDrawer, hopen]
  refine ⟨hidem, hopen, ?_, by rw [hidem], by rw [hidem], by rw [hidem], by rw [hidem]⟩
  intro hc
  unfold openDrawer spawnRefresh updateCartDisplayBegin
  simp only [hc, Bool.false_eq_true, ↓reduceIte]
  split <;> exact ⟨rfl, rfl, rfl⟩

/-- C13 at the closed controller `demoState`. -/
theorem open_is_idempotent_witness :
    demoState.isOpen = false ∧
    openDrawer (openDrawer demoState) = openDrawer demoState ∧
    ((openDrawer demoState).dom.bodyOverflow = "hidden" ∧
      (openDrawer demoState).dom.overflowWrites = demoState.dom.overflowWrites + 1 ∧
      (openDrawer demoState).requests = demoState.requests ++ [.getCart]) :=
  ⟨rfl, (open_is_idempotent demoState).1, (open_is_idempotent demoState).2.2.1 rfl⟩

/-- C14 at the failing input: the panel is opened, closed and opened again before the
timer of `close()` fires.  When the timer fires no timer is pending, `isOpen` is true
and the page scroll is suppressed, and the overlay is not displayed; so it is false
that in every reachable state without a pending timer an open panel is displayed. -/
theorem reopen_during_fade_hides_open_panel :
    run demoHost (construct demoDom) [.openDrawer, .closeDrawer, .openDrawer, .hideTimer] =
      some demoReopened ∧
    Reachable demoHost demoDom demoReopened ∧
    demoReopened.isOpen = true ∧ demoReopened.hideTimers = 0 ∧
    demoReopened.dom.overlay = some ⟨"none", true⟩ ∧
    demoReopened.dom.bodyOverflow = "hidden" ∧
    ¬ (∀ s : State, Reachable demoHost demoDom s → s.hideTimers = 0 → s.isOpen = true →
        ∃ o, s.dom.overlay = some o ∧ o.display ≠ "none") := by
  have hreach : Reachable demoHost demoDom demoReopened :=
    Reachable.step .hideTimer
      (Reachable.step .openDrawer
        (Reachable.step .closeDrawer
          (Reachable.step .openDrawer Reachable.construct rfl) rfl) rfl) rfl
  refine ⟨rfl, hreach, rfl, rfl, rfl, rfl, ?_⟩
  intro hall
  obtain ⟨o, ho, hdisp⟩ := hall demoReopened hreach rfl rfl
  have : o = ⟨"none", true⟩ := by
    have h2 : demoReopened.dom.overlay = some ⟨"none", true⟩ := rfl
    rw [h2] at ho
    exact (Option.some.inj ho).symm
  subst this
  exact hdisp rfl

/-- C15: whatever `isLoading` is, `open()` leaves `isOpen` true and `close()` leaves it
false, neither changes `isLoading`, and both are always enabled. -/
theorem open_close_ignore_busy (h : Host) (s : State) :
    (openDrawer s).isOpen = true ∧ (closeDrawer s).isOpen = false ∧
    (openDrawer s).isLoading = s.isLoading ∧ (closeDrawer s).isLoading = s.isLoading ∧
    step h s .openDrawer = some (openDrawer s) ∧ step h s .closeDrawer = some (closeDrawer s) := by
  refine ⟨openDrawer_isOpen s, ?_, openDrawer_isLoading s, (closeDrawer_ctl s).1, rfl, rfl⟩
  unfold closeDrawer
  cases h : s.isOpen
  · simp [h]
  · simp only [Bool.not_true, Bool.false_eq_true, ↓reduceIte]
    split <;> rfl

/-- Joining two lists of strings. -/
theorem join_split (xs ys : List String) :
    String.join (xs ++ ys) = String.join xs ++ String.join ys := by
  apply String.ext
  simp [String.join_eq]

/-- Joining a list of strings that has a first element. -/
theorem join_cons (a : String) (l : List String) :
    String.join (a :: l) = a ++ String.join l := by
  apply String.ext
  simp [String.join_eq]

/-- Five consecutive parts of a joined list, cut inside the first and the last. -/
theorem join_window (parts : List String) (i : Nat) (a b x l y c d : String)
    (hw : (parts.drop i).take 5 = [a ++ b, x, l, y, c ++ d]) :
    ∃ pre post, String.join parts = pre ++ (b ++ x ++ l ++ y ++ c) ++ post := by
  refine ⟨String.join (parts.take i) ++ a, d ++ String.join ((parts.drop i).drop 5), ?_⟩
  have h1 : parts = parts.take i ++ ((parts.drop i).take 5 ++ (parts.drop i).drop 5) := by
    rw [List.take_append_drop, List.take_append_drop]
  conv_lhs => rw [h1]
  rw [join_split, join_split, hw]
  apply String.ext
  simp [String.join_eq]

/-- A text stands at the start of itself followed by anything. -/
theorem startsWithChars_append (sub rest : List Char) :
    startsWithChars sub (sub ++ rest) = true := by
  induction sub with
  | nil => rfl
  | cons a sub ih => simp [startsWithChars, ih]

/-- A text that stands at the start occurs. -/
theorem occursIn_of_startsWith (sub text : List Char) (hs : startsWithChars sub text = true) :
    occursIn sub text = true := by
  cases text with
  | nil =>
    cases sub with
    | nil => rfl
    | cons a sub => simp [startsWithChars] at hs
  | cons c text => simp [occursIn, hs]

/-- A text occurs in whatever is put around it. -/
theorem occursIn_append (sub pre post : List Char) :
    occursIn sub (pre ++ (sub ++ post)) = true := by
  induction pre with
  | nil => exact occursIn_of_startsWith _ _ (startsWithChars_append sub post)
  | cons c pre ih => simp [occursIn, ih]

/-- A markup contains each piece it is put together from. -/
theorem containsText_of_eq (row pre sub post : String) (hrow : row = pre ++ sub ++ post) :
    containsText row sub = true := by
  subst hrow
  simp [containsText, occursIn_append]

/-- Every rendered row opens with the same twenty-five characters. -/
theorem row_opening (h : Host) (ps : List (String × JsVal)) (row : String)
    (hrow : renderCartItem h (.obj ps) = .ok row) :
    row.data.take 25 = "\n      <div class=\"cart-d".data := by
  simp only [renderCartItem, JsVal.get, JsVal.field, Except.ok.injEq] at hrow
  subst hrow
  rw [join_cons]
  rfl

/-- Rows never spell the empty-state markup. -/
theorem join_rows_ne_emptyState (h : Host) (ps : List (String × JsVal)) (row : String)
    (rows : List String) (hrow : renderCartItem h (.obj ps) = .ok row) :
    String.join (row :: rows) ≠ emptyStateHTML := by
  intro heq
  have hopen := row_opening h ps row hrow
  have hlen : 25 ≤ row.data.length := by
    have h25 : (row.data.take 25).length = 25 := by rw [hopen]; decide
    rw [List.length_take] at h25
    omega
  have h1 : (String.join (row :: rows)).data.take 25 = row.data.take 25 := by
    rw [join_cons, String.data_append, List.take_append_of_le_length hlen]
  rw [heq, hopen] at h1
  revert h1
  decide

/-- C16: with the items container present, `renderCartItems` on a list of line item
objects returns, and the container then holds the empty-state markup if and only if
the list is empty; so for a cart whose `itemCount` is 0 exactly when it has no items,
the empty-state markup is shown exactly when `itemCount` is 0. -/
theorem empty_state_iff_no_items (h : Host) (xs : List JsVal) (s : State) (c : ItemsContainer)
    (hc : s.dom.itemsContainer = some c) (hx : ∀ x ∈ xs, ∃ ps, x = .obj ps) :
    ∃ s1, renderCartItems h (.arr xs) s = .ok s1 ∧
      (s1.dom.itemsContainer.map (fun k : ItemsContainer => k.innerHTML) =
        some emptyStateHTML ↔ xs = []) ∧
      (∀ itemCount : Int, (itemCount = 0 ↔ xs = []) →
        (s1.dom.itemsContainer.map (fun k : ItemsContainer => k.innerHTML) =
          some emptyStateHTML ↔ itemCount = 0)) := by
  obtain ⟨rows, hrows, hall⟩ := renderRows_of_objects h xs hx
  have hr := renderCartItems_of_rows h xs rows s hrows
  simp only [hc] at hr
  have hiff : ((setItemsHTML (if xs.isEmpty then emptyStateHTML else String.join rows)
      s).dom.itemsContainer.map (fun k : ItemsContainer => k.innerHTML) =
        some emptyStateHTML ↔ xs = []) := by
    cases hall with
    | nil => simp [hc, setItemsHTML]
    | cons hrow hrest =>
      rename_i x row xs2 rows2
      obtain ⟨ps, hps⟩ := hx x (List.mem_cons_self x xs2)
      subst hps
      have hne := join_rows_ne_emptyState h ps row rows2 hrow
      simp [hc, setItemsHTML, hne]
  exact ⟨_, hr, hiff, fun itemCount hcount => hiff.trans hcount.symm⟩

/-- C16 at `demoState`, for a list of two line items and for the empty list. -/
theorem empty_state_iff_no_items_witness :
    demoState.dom.itemsContainer =
      some ⟨"<div class=\"cart-drawer-item\" data-item-id=\"line-1\"></div>", false⟩ ∧
    (∀ x ∈ [demoItem2, demoItem3], ∃ ps, x = .obj ps) ∧
    (∃ s1, renderCartItems demoHost (.arr [demoItem2, demoItem3]) demoState = .ok s1 ∧
      (s1.dom.itemsContainer.map (fun k : ItemsContainer => k.innerHTML) =
        some emptyStateHTML ↔ [demoItem2, demoItem3] = []) ∧
      (∀ itemCount : Int, (itemCount = 0 ↔ [demoItem2, demoItem3] = []) →
        (s1.dom.itemsContainer.map (fun k : ItemsContainer => k.innerHTML) =
          some emptyStateHTML ↔ itemCount = 0))) ∧
    (renderCartItems demoHost (.arr []) demoState).map
      (fun s1 => s1.dom.itemsContainer.map (fun k : ItemsContainer => k.innerHTML)) =
      .ok (some emptyStateHTML) :=
  ⟨rfl,
    fun _ hx => by
      rcases List.mem_cons.mp hx with rfl | hx2
      · exact ⟨_, rfl⟩
      · exact ⟨_, List.mem_singleton.mp hx2⟩,
    empty_state_iff_no_items demoHost [demoItem2, demoItem3] demoState _ rfl
      (fun _ hx => by
        rcases List.mem_cons.mp hx with rfl | hx2
        · exact ⟨_, rfl⟩
        · exact ⟨_, List.mem_singleton.mp hx2⟩),
    rfl⟩

/-- Rows that render one by one render as a list. -/
theorem renderRows_of_rows (h : Host) :
    ∀ (xs : List JsVal) (rows : List String),
      List.Forall₂ (fun x row => renderCartItem h x = .ok row) xs rows →
      renderRows h xs = .ok rows
  | [], _, hall => by cases hall; rfl
  | x :: xs, _, hall => by
    cases hall with
    | cons hrow hrest =>
      simp [renderRows, hrow, renderRows_of_rows h xs _ hrest]

/-- C17: with the items container present, `renderCartItems` on a non-empty list whose
items render to `rows`, one by one and in the given order, assigns the concatenation
of `rows` in that order, one row per item. -/
theorem renderCartItems_keeps_order (h : Host) (xs : List JsVal) (rows : List String)
    (s : State) (c : ItemsContainer) (hc : s.dom.itemsContainer = some c) (hne : xs ≠ [])
    (hrows : List.Forall₂ (fun x row => renderCartItem h x = .ok row) xs rows) :
    (∃ s1, renderCartItems h (.arr xs) s = .ok s1 ∧
      s1.dom.itemsContainer = some ⟨String.join rows, c.loading⟩) ∧
    rows.length = xs.length := by
  have hr := renderCartItems_of_rows h xs rows s (renderRows_of_rows h xs rows hrows)
  have he : xs.isEmpty = false := by
    cases xs with
    | nil => exact absurd rfl hne
    | cons x xs => rfl
  refine ⟨⟨_, hr, ?_⟩, hrows.length_eq.symm⟩
  simp [hc, he, setItemsHTML]

/-- C17 at `demoState`, for a list of two line items. -/
theorem renderCartItems_keeps_order_witness :
    demoState.dom.itemsContainer =
      some ⟨"<div class=\"cart-drawer-item\" data-item-id=\"line-1\"></div>", false⟩ ∧
    [demoItem, demoItem2] ≠ [] ∧
    List.Forall₂ (fun x row => renderCartItem demoHost x = .ok row) [demoItem, demoItem2]
      [rowOf demoHost demoItem, rowOf demoHost demoItem2] ∧
    ((∃ s1, renderCartItems demoHost (.arr [demoItem, demoItem2]) demoState = .ok s1 ∧
      s1.dom.itemsContainer =
        some ⟨String.join [rowOf demoHost demoItem, rowOf demoHost demoItem2], false⟩) ∧
    [rowOf demoHost demoItem, rowOf demoHost demoItem2].length = [demoItem, demoItem2].length) :=
  ⟨rfl, by simp, List.Forall₂.cons rfl (List.Forall₂.cons rfl List.Forall₂.nil),
    renderCartItems_keeps_order demoHost [demoItem, demoItem2]
      [rowOf demoHost demoItem, rowOf demoHost demoItem2] demoState _ rfl (by simp)
      (List.Forall₂.cons rfl (List.Forall₂.cons rfl List.Forall₂.nil))⟩

/-- C18: the price row of the row rendered for a line item object holds the primary
price `formatMoney(final_line_price)` and after it the struck-through original price
`formatMoney(original_line_price)` when `original_line_price > final_line_price`, and
nothing when not; so the row always contains the primary price span, and contains the
original price span when the comparison holds.  For two numbers the comparison is the
order of the integers. -/
theorem row_shows_discount_iff (h : Host) (ps : List (String × JsVal)) :
    (∃ pre post : String, renderCartItem h (.obj ps) = .ok (pre ++
      ("<div class=\"cart-item-price-row\">\n            <span class=\"cart-item-price\">" ++
        formatMoney h (JsVal.lookup "final_line_price" ps) ++ "</span>\n            " ++
        (if JsVal.gt h (JsVal.lookup "original_line_price" ps)
            (JsVal.lookup "final_line_price" ps) then
          "<span class=\"cart-item-original-price\">" ++
            formatMoney h (JsVal.lookup "original_line_price" ps) ++ "</span>"
        else "") ++ "\n          </div>") ++ post)) ∧
    containsText (rowOf h (.obj ps))
      ("<span class=\"cart-item-price\">" ++
        formatMoney h (JsVal.lookup "final_line_price" ps) ++ "</span>") = true ∧
    (JsVal.gt h (JsVal.lookup "original_line_price" ps) (JsVal.lookup "final_line_price" ps) =
        true →
      containsText (rowOf h (.obj ps))
        ("<span class=\"cart-item-original-price\">" ++
          formatMoney h (JsVal.lookup "original_line_price" ps) ++ "</span>") = true) ∧
    (∀ a b : Int, JsVal.lookup "original_line_price" ps = .num a →
      JsVal.lookup "final_line_price" ps = .num b →
      (JsVal.gt h (JsVal.lookup "original_line_price" ps) (JsVal.lookup "final_line_price" ps) =
        true ↔ b < a)) := by
  have hrow : renderCartItem h (.obj ps) = .ok (rowOf h (.obj ps)) := by
    simp [rowOf, renderCartItem, JsVal.get]
  have hwin : ∃ pre post : String, rowOf h (.obj ps) = pre ++
      ("<div class=\"cart-item-price-row\">\n            <span class=\"cart-item-price\">" ++
        formatMoney h (JsVal.lookup "final_line_price" ps) ++ "</span>\n            " ++
        originalPriceSpan h (JsVal.gt h (JsVal.lookup "original_line_price" ps)
            (JsVal.lookup "final_line_price" ps)) (JsVal.lookup "original_line_price" ps) ++
        "\n          </div>") ++ post := by
    simp only [rowOf, renderCartItem, JsVal.get, JsVal.field]
    exact join_window _ 8 "\n          \n          " _ _ _ _ _
      "\n          \n          <div class=\"cart-item-quantity\">\n            <button class=\"quantity-btn quantity-decrease\" \n                    data-item-id=\""
      rfl
  obtain ⟨pre, post, hpp⟩ := hwin
  refine ⟨⟨pre, post, ?_⟩, ?_, ?_, ?_⟩
  · rw [hrow, hpp]
    rfl
  · apply containsText_of_eq _
      (pre ++ "<div class=\"cart-item-price-row\">\n            ") _
      ("\n            " ++ originalPriceSpan h (JsVal.gt h (JsVal.lookup "original_line_price" ps)
            (JsVal.lookup "final_line_price" ps)) (JsVal.lookup "original_line_price" ps) ++
        "\n          </div>" ++ post)
    rw [hpp]
    apply String.ext
    simp
  · intro hgt
    apply containsText_of_eq _
      (pre ++ ("<div class=\"cart-item-price-row\">\n            <span class=\"cart-item-price\">" ++
        formatMoney h (JsVal.lookup "final_line_price" ps) ++ "</span>\n            ")) _
      ("\n          </div>" ++ post)
    rw [hpp, hgt]
    apply String.ext
    simp [originalPriceSpan]
  · intro a b ha hb
    rw [ha, hb]
    simp [JsVal.gt, JsVal.toPrimitive, JsVal.toNumber]

set_option maxRecDepth 100000 in
/-- C18 on the examples of the specification: the row for 2000 against 1500 contains
both prices, the row for 1500 against 1500 contains the primary price and no original
price element. -/
theorem row_shows_discount_iff_witness :
    JsVal.gt demoHost (.num 2000) (.num 1500) = true ∧
    containsText (rowOf demoHost demoItem2)
      ("<span class=\"cart-item-original-price\">" ++
        formatMoney demoHost (.num 2000) ++ "</span>") = true ∧
    containsText (rowOf demoHost demoItem2) "<span class=\"cart-item-price\">₹1500</span>" = true ∧
    JsVal.gt demoHost (.num 1500) (.num 1500) = false ∧
    containsText (rowOf demoHost demoItem3) "<span class=\"cart-item-price\">₹1500</span>" = true ∧
    containsText (rowOf demoHost demoItem3) "cart-item-original-price" = false :=
  ⟨by decide,
    (row_shows_discount_iff demoHost
      [("id", .str "line-2"), ("quantity", .num 1), ("product_title", .str "Cap"),
        ("variant_title", .str "Blue"), ("final_line_price", .num 1500),
        ("original_line_price", .num 2000)]).2.2.1 (by decide),
    by decide, by decide, by decide, by decide⟩

/-- C19: in the row rendered for a line item object, what stands between the product
title and the price row is the variant line.  For a `variant_title` that is a string it
is the paragraph holding exactly that string when the string is not empty and is not
`Default Title`, and nothing when it is; for a `variant_title` that is missing or
`null` it is nothing. -/
theorem row_shows_variant_iff (h : Host) (ps : List (String × JsVal)) :
    ∃ pre line post : String, renderCartItem h (.obj ps) = .ok (pre ++
      ("<h4 class=\"cart-item-title\">" ++ (JsVal.lookup "product_title" ps).toStr ++
        "</h4>\n          " ++ line ++
        "\n          \n          <div class=\"cart-item-price-row\">") ++ post) ∧
    (∀ t : String, JsVal.lookup "variant_title" ps = .str t →
      line = if t ≠ "" ∧ t ≠ "Default Title" then "<p class=\"cart-item-variant\">" ++ t ++ "</p>"
        else "") ∧
    (JsVal.lookup "variant_title" ps = .undefined ∨ JsVal.lookup "variant_title" ps = .null →
      line = "") := by
  have hrow : renderCartItem h (.obj ps) = .ok (rowOf h (.obj ps)) := by
    simp [rowOf, renderCartItem, JsVal.get]
  have hwin : ∃ pre post : String, rowOf h (.obj ps) = pre ++
      ("<h4 class=\"cart-item-title\">" ++ (JsVal.lookup "product_title" ps).toStr ++
        "</h4>\n          " ++
        variantLine (if (JsVal.lookup "variant_title" ps).isStr "Default Title" then .str ""
          else JsVal.lookup "variant_title" ps) ++
        "\n          \n          <div class=\"cart-item-price-row\">") ++ post := by
    simp only [rowOf, renderCartItem, JsVal.get, JsVal.field]
    exact join_window _ 4
      "\n        </div>\n        \n        <div class=\"cart-item-details\">\n          "
      _ _ _ _ _ "\n            <span class=\"cart-item-price\">" rfl
  obtain ⟨pre, post, hpp⟩ := hwin
  refine ⟨pre, _, post, by rw [hrow, hpp], ?_, ?_⟩
  · intro t ht
    rw [ht]
    by_cases h1 : t = "Default Title"
    · subst h1
      simp [JsVal.isStr, variantLine, JsVal.truthy]
    · by_cases h2 : t = ""
      · subst h2
        simp [JsVal.isStr, variantLine, JsVal.truthy]
      · simp [JsVal.isStr, variantLine, JsVal.truthy, h1, h2, JsVal.toStr]
  · rintro (hu | hn)
    · rw [hu]; simp [JsVal.isStr, variantLine, JsVal.truthy]
    · rw [hn]; simp [JsVal.isStr, variantLine, JsVal.truthy]

set_option maxRecDepth 100000 in
/-- C19 on three line items: the variant `Blue` is shown as it is, the placeholder
`Default Title` and a missing `variant_title` give a row without a variant line. -/
theorem row_shows_variant_iff_witness :
    (∃ pre line post : String, renderCartItem demoHost demoItem2 = .ok (pre ++
      ("<h4 class=\"cart-item-title\">" ++ (JsVal.str "Cap").toStr ++
        "</h4>\n          " ++ line ++
        "\n          \n          <div class=\"cart-item-price-row\">") ++ post) ∧
      line = "<p class=\"cart-item-variant\">Blue</p>") ∧
    containsText (rowOf demoHost demoItem2) "<p class=\"cart-item-variant\">Blue</p>" = true ∧
    containsText (rowOf demoHost demoItem3) "cart-item-variant" = false ∧
    containsText (rowOf demoHost demoItem) "cart-item-variant" = false := by
  refine ⟨?_, by decide, by decide, by decide⟩
  obtain ⟨pre, line, post, hrow, hstr, -⟩ := row_shows_variant_iff demoHost
    [("id", .str "line-2"), ("quantity", .num 1), ("product_title", .str "Cap"),
      ("variant_title", .str "Blue"), ("final_line_price", .num 1500),
      ("original_line_price", .num 2000)]
  exact ⟨pre, line, post, hrow, (hstr "Blue" rfl).trans (by decide)⟩

/-- The form `addItem` builds when `properties` is an object. -/
theorem addForm_of_object (h : Host) (variantId quantity : JsVal) (ps : List (String × JsVal)) :
    addForm h variantId quantity (.obj ps) = .ok
      ([("id", variantId.toStr), ("quantity", (quantityOrDefault quantity).toStr)] ++
        ps.map fun kv => ("properties[" ++ kv.1 ++ "]", kv.2.toStr)) := by
  cases quantity <;> simp [addForm, JsVal.entries, quantityOrDefault]

/-- The requests of an `addItem` that was not dropped: the add request, then only
refreshes. -/
theorem addItem_requests (h : Host) (s : State) (variantId quantity properties : JsVal)
    (form : List (String × String)) (add cart : NetResult) (hl : s.isLoading = false)
    (hf : addForm h variantId quantity properties = .ok form) :
    ∃ rest, (addItem h s variantId quantity properties add cart).1.requests =
      s.requests ++ .add form :: rest ∧ ∀ r ∈ rest, r = Request.getCart := by
  have hcatch : ∀ (e : JsErr) (s2 : State), (addItemCatch e s2).1.requests = s2.requests := by
    intro e s2; rfl
  simp only [addItem, hl, hf, Bool.false_eq_true, ↓reduceIte]
  cases add with
  | failed e => exact ⟨[], by simp [hcatch, setLoading], by simp⟩
  | response ok body =>
    cases body with
    | error e => exact ⟨[], by simp [hcatch, setLoading], by simp⟩
    | ok v =>
      cases ok with
      | false => exact ⟨[], by simp [hcatch, setLoading], by simp⟩
      | true =>
        simp only [updateCartDisplay]
        have hs := refreshLand_sameCtl h cart (updateCartDisplayBegin
          { setLoading true s with requests := (setLoading true s).requests ++ [Request.add form] })
        have hreq := hs.2.2.2.2.1
        generalize refreshLand h cart (updateCartDisplayBegin
          { setLoading true s with requests := (setLoading true s).requests ++ [Request.add form] })
          = s3 at hreq
        have hdone : ∃ rest, (addItemDone h v s3).1.requests = s3.requests ++ rest ∧
            ∀ r ∈ rest, r = Request.getCart := by
          unfold addItemDone
          simp only []
          obtain ⟨rest, hrest, hall⟩ :=
            openDrawer_requests (showFeedback "Added to cart" "success" s3)
          refine ⟨rest, ?_, hall⟩
          cases ht : trackAddToCart h v
              (noteTracked v (openDrawer (showFeedback "Added to cart" "success" s3))) with
          | error e => simpa [hcatch, showFeedback, noteTracked] using hrest
          | ok s4 =>
            unfold trackAddToCart at ht
            split at ht
            · split at ht
              · cases ht
              · cases ht; simpa [setLoading, showFeedback, noteTracked] using hrest
            · cases ht; simpa [setLoading, showFeedback, noteTracked] using hrest
        obtain ⟨rest, hrest, hall⟩ := hdone
        refine ⟨.getCart :: rest, ?_, ?_⟩
        · rw [hrest, hreq]
          simp [updateCartDisplayBegin, setLoading]
        · intro r hr
          cases hr with
          | head => rfl
          | tail _ hr2 => exact hall r hr2

/-- C20: an `addItem` started when not busy hands `fetch` one add request whose form
holds, in this order, `id` with the variant id, `quantity` with the quantity (1 when
the argument is `undefined`) and one entry `properties[k]` with `properties[k]` for
every own key `k` of `properties` in key order (none when `properties` is `undefined`),
each value as a string, and nothing else; every later request of the call is a
refresh. -/
theorem addItem_request_body (h : Host) (s : State) (variantId quantity : JsVal)
    (ps : List (String × JsVal)) (add cart : NetResult) (hl : s.isLoading = false) :
    (startAddItem h variantId quantity (.obj ps) s).1.requests = s.requests ++
      [.add ([("id", variantId.toStr), ("quantity", (quantityOrDefault quantity).toStr)] ++
        ps.map fun kv => ("properties[" ++ kv.1 ++ "]", kv.2.toStr))] ∧
    (startAddItem h variantId quantity .undefined s).1.requests = s.requests ++
      [.add [("id", variantId.toStr), ("quantity", (quantityOrDefault quantity).toStr)]] ∧
    (∃ rest, (addItem h s variantId quantity (.obj ps) add cart).1.requests = s.requests ++
      .add ([("id", variantId.toStr), ("quantity", (quantityOrDefault quantity).toStr)] ++
        ps.map fun kv => ("properties[" ++ kv.1 ++ "]", kv.2.toStr)) :: rest ∧
      ∀ r ∈ rest, r = Request.getCart) := by
  refine ⟨?_, ?_, addItem_requests h s variantId quantity (.obj ps) _ add cart hl
    (addForm_of_object h variantId quantity ps)⟩
  · simp [startAddItem, hl, addForm_of_object, setLoading]
  · cases quantity <;>
      simp [startAddItem, hl, addForm, JsVal.entries, setLoading, quantityOrDefault]

/-- C20 at `demoState`, with the quantity omitted and two properties. -/
theorem addItem_request_body_witness :
    demoState.isLoading = false ∧
    (startAddItem demoHost (.num 42) .undefined
      (.obj [("engraving", .str "AB"), ("gift", .bool true)]) demoState).1.requests =
      demoState.requests ++
        [.add [("id", "42"), ("quantity", "1"), ("properties[engraving]", "AB"),
          ("properties[gift]", "true")]] :=
  ⟨rfl,
    (addItem_request_body demoHost demoState (.num 42) .undefined
      [("engraving", .str "AB"), ("gift", .bool true)] (.failed ⟨"Failed to fetch"⟩)
      (.failed ⟨"Failed to fetch"⟩) rfl).1⟩

/-! ## The claims C21 to C30 -/

/-- C21 (the code does otherwise): `removeItem` takes the last item out of the cart
of `demoState`, both requests succeed and the refreshed cart has `item_count` 0.
The refresh disables the checkout button, and the `finally` block of line 124 then
enables it again through `setLoading(false)`: the call ends with the button enabled
on an empty cart. -/
theorem removing_last_item_leaves_checkout_enabled :
    demoState.isLoading = false ∧
    (emptyCart.field demoHost "item_count").isZero = true ∧
    (updateCartDisplay demoHost
        (updateQuantityBegin demoHost (.str "line-1") (.num 0) demoState)
        (.response true (.ok emptyCart))).1.dom.checkoutBtn = some true ∧
    (removeItem demoHost demoState (.str "line-1")
        (.response true (.ok emptyCart)) (.response true (.ok emptyCart))).1.dom.checkoutBtn
      = some false ∧
    (removeItem demoHost demoState (.str "line-1")
        (.response true (.ok emptyCart)) (.response true (.ok emptyCart))).1.isLoading
      = false ∧
    (removeItem demoHost demoState (.str "line-1")
        (.response true (.ok emptyCart)) (.response true (.ok emptyCart))).1.feedback
      = [⟨"Cart updated", "success"⟩] :=
  ⟨rfl, rfl, rfl, rfl, rfl, rfl⟩

/-- After `pauseAnimation` the flag `isPaused` is set, and no method clears it. -/
theorem InstagramMarquee.resumeAnimation_of_paused (m : InstagramMarquee)
    (hp : m.isPaused = true) : m.resumeAnimation = m := by
  simp [InstagramMarquee.resumeAnimation, hp]

/-- C26 (the code does otherwise): on every marquee, and so on one with autoplay
enabled, `resumeAnimation` after `pauseAnimation` leaves the play state `paused`,
because `pauseAnimation` sets `isPaused` and `resumeAnimation` only acts while it is
unset; the same holds for the document becoming hidden and visible again and for
`toggleAutoplay(false)` followed by `toggleAutoplay(true)`. -/
theorem resume_after_pause_stays_paused (m : InstagramMarquee) :
    (InstagramMarquee.construct none).isAutoplayEnabled = true ∧
    m.pauseAnimation.resumeAnimation.animationPlayState = "paused" ∧
    ((m.visibilityChange true).visibilityChange false).animationPlayState = "paused" ∧
    ((m.toggleAutoplay false).toggleAutoplay true).animationPlayState = "paused" ∧
    ((m.toggleAutoplay false).toggleAutoplay true).isAutoplayEnabled = true := by
  refine ⟨rfl, ?_, ?_, ?_, ?_⟩
  · simp [InstagramMarquee.pauseAnimation, InstagramMarquee.resumeAnimation]
  · cases h : m.isAutoplayEnabled <;>
      simp [InstagramMarquee.visibilityChange, InstagramMarquee.pauseAnimation,
        InstagramMarquee.resumeAnimation, h]
  · simp [InstagramMarquee.toggleAutoplay, InstagramMarquee.pauseAnimation,
      InstagramMarquee.resumeAnimation]
  · simp [InstagramMarquee.toggleAutoplay, InstagramMarquee.pauseAnimation,
      InstagramMarquee.resumeAnimation]

namespace ProductCarousel

@[simp] theorem updateCarousel_currentIndex (c : ProductCarousel) :
    c.updateCarousel.currentIndex = c.currentIndex := by
  unfold updateCarousel; split <;> rfl

@[simp] theorem updateCarousel_maxIndex (c : ProductCarousel) :
    c.updateCarousel.maxIndex = c.maxIndex := by
  unfold updateCarousel; split <;> rfl

@[simp] theorem updateCarousel_totalSlides (c : ProductCarousel) :
    c.updateCarousel.totalSlides = c.totalSlides := by
  unfold updateCarousel; split <;> rfl

@[simp] theorem updateCarousel_slidesPerView (c : ProductCarousel) :
    c.updateCarousel.slidesPerView = c.slidesPerView := by
  unfold updateCarousel; split <;> rfl

/-- The index invariant only reads the four numbers. -/
theorem indexInRange_congr {c d : ProductCarousel} (h1 : d.currentIndex = c.currentIndex)
    (h2 : d.maxIndex = c.maxIndex) (h3 : d.totalSlides = c.totalSlides)
    (h4 : d.slidesPerView = c.slidesPerView) : d.IndexInRange ↔ c.IndexInRange := by
  simp [IndexInRange, h1, h2, h3, h4]

theorem prevSlide_indexInRange (c : ProductCarousel) (hc : c.IndexInRange) :
    c.prevSlide.IndexInRange := by
  obtain ⟨h0, h1, h2⟩ := hc
  unfold prevSlide
  split
  · exact ⟨h0, h1, h2⟩
  · refine ⟨?_, ?_, ?_⟩ <;> simp <;> omega

theorem nextSlide_indexInRange (c : ProductCarousel) (hc : c.IndexInRange) :
    c.nextSlide.IndexInRange := by
  obtain ⟨h0, h1, h2⟩ := hc
  unfold nextSlide
  split
  · exact ⟨h0, h1, h2⟩
  · refine ⟨?_, ?_, ?_⟩ <;> simp <;> omega

theorem goToSlide_indexInRange (index : Int) (c : ProductCarousel) (hc : c.IndexInRange) :
    (c.goToSlide index).IndexInRange := by
  obtain ⟨h0, h1, h2⟩ := hc
  unfold goToSlide
  split
  · exact ⟨h0, h1, h2⟩
  · refine ⟨?_, ?_, ?_⟩ <;> simp <;> omega

theorem autoplayTick_indexInRange (c : ProductCarousel) (hc : c.IndexInRange) :
    c.autoplayTick.IndexInRange := by
  obtain ⟨h0, h1, h2⟩ := hc
  unfold autoplayTick
  refine ⟨?_, ?_, by simpa using h2⟩ <;> simp <;> split <;> omega

theorem resizeTimerFires_indexInRange (width : Int) (c : ProductCarousel)
    (hc : c.IndexInRange) : (c.resizeTimerFires width).IndexInRange := by
  obtain ⟨h0, h1, h2⟩ := hc
  unfold resizeTimerFires
  simp only []
  split
  · refine ⟨?_, ?_, ?_⟩ <;> simp <;> omega
  · exact ⟨h0, h1, h2⟩

end ProductCarousel

namespace ProductCarousel

theorem updateCarousel_indexInRange (c : ProductCarousel) :
    c.updateCarousel.IndexInRange ↔ c.IndexInRange :=
  indexInRange_congr (by simp) (by simp) (by simp) (by simp)

theorem startAutoplay_indexInRange (c : ProductCarousel) :
    c.startAutoplay.IndexInRange ↔ c.IndexInRange := by
  unfold startAutoplay
  split <;> exact Iff.rfl

theorem pauseAutoplay_indexInRange (c : ProductCarousel) :
    c.pauseAutoplay.IndexInRange ↔ c.IndexInRange := by
  unfold pauseAutoplay
  split <;> exact Iff.rfl

theorem resumeAutoplay_indexInRange (c : ProductCarousel) :
    c.resumeAutoplay.IndexInRange ↔ c.IndexInRange := by
  unfold resumeAutoplay
  split
  · exact startAutoplay_indexInRange c
  · exact Iff.rfl

theorem construct_indexInRange (h : Host) (page : CarouselPage) (c : ProductCarousel)
    (hc : construct h page = .ok c) : c.IndexInRange := by
  unfold construct at hc
  split at hc
  · cases hc
  · simp only [Except.ok.injEq] at hc
    subst hc
    have base : ∀ c0 : ProductCarousel, c0.IndexInRange →
        (if (handleResize (updateCarousel c0)).autoplayEnabled then
          startAutoplay (handleResize (updateCarousel c0))
         else handleResize (updateCarousel c0)).IndexInRange := by
      intro c0 h0
      have h1 : (handleResize (updateCarousel c0)).IndexInRange :=
        (updateCarousel_indexInRange c0).2 h0
      split
      · exact (startAutoplay_indexInRange _).2 h1
      · exact h1
    refine base _ ?_
    exact ⟨le_refl _, le_max_left _ _, rfl⟩

/-- Every listener and every timer keeps the index within the slides. -/
theorem handle_indexInRange (c : ProductCarousel) (ev : CarouselEvent)
    (hc : c.IndexInRange) : (c.handle ev).IndexInRange := by
  cases ev <;> simp only [handle]
  · split
    · exact prevSlide_indexInRange c hc
    · exact hc
  · split
    · exact nextSlide_indexInRange c hc
    · exact hc
  · unfold indicatorClick
    split
    · exact goToSlide_indexInRange _ c hc
    · exact hc
  · exact (pauseAutoplay_indexInRange c).2 hc
  · exact (resumeAutoplay_indexInRange c).2 hc
  · unfold keydown
    split
    · exact prevSlide_indexInRange c hc
    · split
      · exact nextSlide_indexInRange c hc
      · exact hc
  · exact (pauseAutoplay_indexInRange _).2 hc
  · unfold touchmove
    split
    · exact hc
    · exact hc
  · unfold touchend
    split
    · exact hc
    · refine (resumeAutoplay_indexInRange _).2 ?_
      have : (if (c.startX - c.currentX).natAbs > 50 then
          if c.startX - c.currentX > 0 then c.nextSlide else c.prevSlide
          else c).IndexInRange := by
        split
        · split
          · exact nextSlide_indexInRange c hc
          · exact prevSlide_indexInRange c hc
        · exact hc
      exact this
  · exact hc
  · split
    · exact resizeTimerFires_indexInRange _ c hc
    · exact hc
  · split
    · exact hc
    · exact hc
  · split
    · exact hc
    · exact autoplayTick_indexInRange c hc

theorem handleAll_indexInRange (evs : List CarouselEvent) (c : ProductCarousel)
    (hc : c.IndexInRange) : (c.handleAll evs).IndexInRange := by
  induction evs generalizing c with
  | nil => exact hc
  | cons ev evs ih => exact ih (c.handle ev) (handle_indexInRange c ev hc)

end ProductCarousel

/-- C27: a carousel that its constructor has built keeps `0 ≤ currentIndex ≤ maxIndex`
with `maxIndex = max(0, totalSlides - slidesPerView)`: this holds after construction
and is kept by `prevSlide`, `nextSlide`, `goToSlide(i)` for every integer `i`, the
autoplay tick, which goes from `maxIndex` to 0, the resize recomputation at every
window width, and so in every state that listeners and timers lead to. -/
theorem carousel_index_in_range (h : Host) (page : CarouselPage) (c : ProductCarousel)
    (hc : ProductCarousel.construct h page = .ok c) (evs : List CarouselEvent) :
    c.IndexInRange ∧
    (∀ d : ProductCarousel, d.IndexInRange →
      d.prevSlide.IndexInRange ∧ d.nextSlide.IndexInRange ∧
      (∀ i : Int, (d.goToSlide i).IndexInRange) ∧
      d.autoplayTick.IndexInRange ∧
      (d.currentIndex = d.maxIndex → d.autoplayTick.currentIndex = 0) ∧
      (∀ width : Int, (d.resizeTimerFires width).IndexInRange)) ∧
    (c.handleAll evs).IndexInRange := by
  have h0 := ProductCarousel.construct_indexInRange h page c hc
  refine ⟨h0, fun d hd => ⟨ProductCarousel.prevSlide_indexInRange d hd,
    ProductCarousel.nextSlide_indexInRange d hd,
    fun i => ProductCarousel.goToSlide_indexInRange i d hd,
    ProductCarousel.autoplayTick_indexInRange d hd, ?_,
    fun w => ProductCarousel.resizeTimerFires_indexInRange w d hd⟩,
    ProductCarousel.handleAll_indexInRange evs c h0⟩
  intro he
  simp [ProductCarousel.autoplayTick, he]

/-- C27 on the carousel of six slides, after a walk to the last position, one
autoplay tick and a resize to a narrow window. -/
theorem carousel_index_in_range_witness :
    ProductCarousel.construct demoHost demoCarouselPage = .ok demoCarousel ∧
    demoCarousel.IndexInRange ∧
    (demoCarousel.handleAll [.transitionTimer, .indicatorClick 1, .autoplayTimer,
      .resize, .resizeTimer 700]).IndexInRange ∧
    (demoCarousel.handleAll [.transitionTimer, .indicatorClick 1, .autoplayTimer,
      .resize, .resizeTimer 700]).maxIndex = 5 :=
  ⟨rfl,
   (carousel_index_in_range demoHost demoCarouselPage demoCarousel rfl
      [.transitionTimer, .indicatorClick 1, .autoplayTimer, .resize, .resizeTimer 700]).1,
   (carousel_index_in_range demoHost demoCarouselPage demoCarousel rfl
      [.transitionTimer, .indicatorClick 1, .autoplayTimer, .resize, .resizeTimer 700]).2.2,
   by decide⟩

/-- C28 (the code does otherwise): on the carousel of six slides, which starts its
autoplay at construction, `mouseleave` alone starts a second interval timer, because
`startAutoplay` does not clear the timer it already holds; so does `touchend` followed
by `mouseleave` after a pause.  `pauseAutoplay` then clears only the timer started
last, and one stays active. -/
theorem pointer_events_stack_interval_timers :
    demoCarousel.autoplayEnabled = true ∧
    demoCarousel.intervals = [1] ∧
    (demoCarousel.handleAll [.mouseleave]).intervals = [1, 2] ∧
    (demoCarousel.handleAll [.mouseenter, .touchstart 0, .touchend, .mouseleave]).intervals
      = [2, 3] ∧
    (demoCarousel.handleAll [.mouseleave]).pauseAutoplay.intervals = [1] ∧
    (demoCarousel.handleAll [.mouseleave]).pauseAutoplay.autoplayTimer = none := by
  decide

namespace ProductCarousel

theorem markIndicators_get? (c : ProductCarousel) (indicators : List Indicator)
    (start index : Nat) :
    (markIndicators c start indicators).get? index =
      (indicators.get? index).map fun indicator =>
        { indicator with
          active := slideIndexOf c (start + index) indicator == c.currentIndex } := by
  induction indicators generalizing start index with
  | nil => simp [markIndicators]
  | cons a rest ih =>
    cases index with
    | zero => simp [markIndicators]
    | succ k =>
      simp only [markIndicators, List.get?_cons_succ, ih]
      congr 1
      funext indicator
      have : start + 1 + k = start + (k + 1) := by omega
      rw [this]

/-- An indicator whose `data-slide` parses to a number other than 0 leads to that
slide and is the one marked when the carousel stands there. -/
theorem indicator_of_nonzero (c : ProductCarousel) (index : Nat) (indicator : Indicator)
    (n : Int) (hi : c.indicators.get? index = some indicator)
    (hn : parseIntAttr indicator.dataSlide = some n) (h0 : 0 < n)
    (ht : c.isTransitioning = false) (hc : c.IndexInRange) :
    (c.indicatorClick index).currentIndex = min c.maxIndex n ∧
    (c.updateIndicators.indicators.get? index).map (fun k : Indicator => k.active) =
      some (n == c.currentIndex) := by
  obtain ⟨hc0, hc1, _⟩ := hc
  have hs : slideIndexOf c index indicator = n := by
    simp [slideIndexOf, hn, orElseNumber]
    omega
  constructor
  · simp only [indicatorClick, hi, hs, goToSlide, ht]
    simp
    omega
  · show ((markIndicators c 0 c.indicators).get? index).map _ = _
    rw [markIndicators_get?, hi]
    simp [hs]

end ProductCarousel

/-- C29 (the code does otherwise): the third indicator of the carousel of six slides
carries `data-slide="0"`.  While the carousel stands at index 0 it is not marked
active; a click on it, with no transition in progress, leads to index 3 and not to
`min(maxIndex, 0) = 0`: `parseInt(...) || index * slidesPerView` takes the position
times the slides per view, here 6, where the number is 0. -/
theorem indicator_with_slide_zero_uses_position :
    demoCarousel.indicators.get? 2 = some ⟨some "0", false⟩ ∧
    parseIntAttr (some "0") = some 0 ∧
    demoCarousel.currentIndex = 0 ∧ demoCarousel.maxIndex = 3 ∧
    demoCarousel.updateIndicators.indicators.map (fun k : Indicator => k.active) =
      [true, false, false] ∧
    (demoCarousel.handle .transitionTimer).isTransitioning = false ∧
    (demoCarousel.handleAll [.transitionTimer, .indicatorClick 2]).currentIndex = 3 ∧
    (demoCarousel.handleAll [.transitionTimer, .indicatorClick 2]).indicators.map
      (fun k : Indicator => k.active) = [false, true, false] := by
  decide

theorem digitOf_digitChar (m : Nat) (hm : m < 10) : digitOf 10 (Nat.digitChar m) = some m := by
  interval_cases m <;> decide

theorem isDigit_digitChar (m : Nat) (hm : m < 10) : (Nat.digitChar m).isDigit = true := by
  interval_cases m <;> decide

theorem toDigitsCore_isDigit (fuel n : Nat) (ds : List Char)
    (hds : ∀ c ∈ ds, c.isDigit = true) :
    ∀ c ∈ Nat.toDigitsCore 10 fuel n ds, c.isDigit = true := by
  induction fuel generalizing n ds with
  | zero => simpa [Nat.toDigitsCore] using hds
  | succ fuel ih =>
    have hd : ∀ c ∈ Nat.digitChar (n % 10) :: ds, c.isDigit = true := by
      intro c hc
      rcases List.mem_cons.1 hc with rfl | hc
      · exact isDigit_digitChar _ (Nat.mod_lt _ (by decide))
      · exact hds c hc
    simp only [Nat.toDigitsCore]
    split
    · exact hd
    · exact ih _ _ hd

theorem leadingDigits_toDigitsCore (fuel n : Nat) (ds : List Char) (hn : n < fuel) :
    ∃ k : Nat, ∀ acc : Option Nat,
      leadingDigits 10 (Nat.toDigitsCore 10 fuel n ds) acc =
        leadingDigits 10 ds (some (acc.getD 0 * 10 ^ k + n)) := by
  induction fuel generalizing n ds with
  | zero => omega
  | succ fuel ih =>
    have hd := digitOf_digitChar (n % 10) (Nat.mod_lt _ (by decide))
    simp only [Nat.toDigitsCore]
    split
    · rename_i h0
      refine ⟨1, fun acc => ?_⟩
      simp only [leadingDigits, hd, pow_one]
      congr 2
      omega
    · rename_i h0
      obtain ⟨k, hk⟩ := ih (n / 10) (Nat.digitChar (n % 10) :: ds) (by omega)
      refine ⟨k + 1, fun acc => ?_⟩
      rw [hk acc]
      simp only [leadingDigits, hd, Option.getD_some]
      congr 2
      rw [pow_succ]
      have := Nat.div_add_mod n 10
      nlinarith [this]

theorem leadingDigits_toDigits (n : Nat) : leadingDigits 10 (Nat.toDigits 10 n) none = some n := by
  obtain ⟨k, hk⟩ := leadingDigits_toDigitsCore (n + 1) n [] (by omega)
  have := hk none
  simpa [Nat.toDigits, leadingDigits] using this

theorem not_whitespace_of_isDigit (c : Char) (hc : c.isDigit = true) :
    isJsWhitespace c = false := by
  have h1 : 48 ≤ c.toNat ∧ c.toNat ≤ 57 := by
    simp only [Char.isDigit, Bool.and_eq_true, decide_eq_true_eq] at hc
    exact ⟨hc.1, hc.2⟩
  simp [isJsWhitespace]
  omega

theorem readSign_of_isDigit (c : Char) (rest : List Char) (hc : c.isDigit = true) :
    readSign (c :: rest) = (false, c :: rest) := by
  unfold readSign
  split
  · rename_i heq
    have : c = '-' := by injection heq
    subst this
    exact absurd hc (by decide)
  · rename_i heq
    have : c = '+' := by injection heq
    subst this
    exact absurd hc (by decide)
  · rfl

theorem readMagnitude_of_isDigit (l : List Char) (hl : ∀ c ∈ l, c.isDigit = true) :
    readMagnitude l = leadingDigits 10 l none := by
  unfold readMagnitude
  split
  · exact absurd (hl 'x' (by simp)) (by decide)
  · exact absurd (hl 'X' (by simp)) (by decide)
  · rfl

theorem jsParseInt_digits (l : List Char) (hne : l ≠ [])
    (hl : ∀ c ∈ l, c.isDigit = true) :
    jsParseInt ⟨l⟩ = (leadingDigits 10 l none).map fun n => (n : Int) := by
  cases l with
  | nil => exact absurd rfl hne
  | cons c rest =>
    have hc := hl c (List.mem_cons_self _ _)
    have hw := not_whitespace_of_isDigit c hc
    have hd : List.dropWhile isJsWhitespace (c :: rest) = c :: rest := by
      simp [List.dropWhile_cons, hw]
    unfold jsParseInt
    simp only [hd]
    rw [readSign_of_isDigit c rest hc, readMagnitude_of_isDigit _ hl]
    simp

theorem jsParseInt_minus_digits (l : List Char)
    (hl : ∀ c ∈ l, c.isDigit = true) :
    jsParseInt ⟨'-' :: l⟩ = (leadingDigits 10 l none).map fun n => -(n : Int) := by
  have hd : List.dropWhile isJsWhitespace ('-' :: l) = '-' :: l := by
    have hw : isJsWhitespace '-' = false := by decide
    simp [List.dropWhile_cons, hw]
  have hs : readSign ('-' :: l) = (true, l) := rfl
  unfold jsParseInt
  simp only [hd]
  rw [hs, readMagnitude_of_isDigit _ hl]
  simp

theorem toDigits_ne_nil (n : Nat) : Nat.toDigits 10 n ≠ [] := by
  unfold Nat.toDigits
  simp only [Nat.toDigitsCore]
  split
  · simp
  · intro h
    have := congrArg List.length h
    rw [Nat.toDigitsCore_lens_eq] at this
    simp at this

theorem toDigits_isDigit (n : Nat) : ∀ c ∈ Nat.toDigits 10 n, c.isDigit = true :=
  toDigitsCore_isDigit _ _ _ (by simp)

/-- Reading back the decimal text of an integer gives the integer. -/
theorem jsParseInt_toString (n : Int) : jsParseInt (toString n) = some n := by
  cases n with
  | ofNat m =>
    show jsParseInt ⟨Nat.toDigits 10 m⟩ = _
    rw [jsParseInt_digits _ (toDigits_ne_nil m) (toDigits_isDigit m), leadingDigits_toDigits]
    rfl
  | negSucc m =>
    show jsParseInt ⟨'-' :: Nat.toDigits 10 (m + 1)⟩ = _
    rw [jsParseInt_minus_digits _ (toDigits_isDigit _), leadingDigits_toDigits]
    rfl

/-- Where no option matches the checked values the select is left as it is. -/
theorem ProductPage.updateSelectedVariant_of_no_match (inputs : List OptionInput)
    (select : VariantSelect)
    (hno : ∀ o ∈ select.options,
      ProductPage.variantMatches (ProductPage.selectedOptions inputs) o = false) :
    ProductPage.updateSelectedVariant inputs select = select := by
  have : select.options.find? (ProductPage.variantMatches (ProductPage.selectedOptions inputs))
      = none := by
    rw [List.find?_eq_none]
    intro o ho
    simp [hno o ho]
  simp [ProductPage.updateSelectedVariant, this]

/-- C25 (the code does otherwise): with the variants `XS / Red` then `S / Red` and the
values `S` and `Red` checked, `updateSelectedVariant` selects `XS / Red`: the title
`XS / Red` contains the text `S` and the text `Red`, and `find` returns the first
option whose title contains every checked value.  The select, which stood on
`S / Red`, is moved to `XS / Red`. -/
theorem substring_match_selects_first_variant :
    ProductPage.selectedOptions [⟨false, "XS"⟩, ⟨true, "S"⟩, ⟨true, "Red"⟩] = ["S", "Red"] ∧
    ProductPage.variantMatches ["S", "Red"] ⟨"XS / Red", "variant-1"⟩ = true ∧
    ProductPage.updateSelectedVariant [⟨false, "XS"⟩, ⟨true, "S"⟩, ⟨true, "Red"⟩]
        ⟨[⟨"XS / Red", "variant-1"⟩, ⟨"S / Red", "variant-2"⟩], "variant-2", none⟩ =
      ⟨[⟨"XS / Red", "variant-1"⟩, ⟨"S / Red", "variant-2"⟩], "variant-1",
        some ⟨"XS / Red", "variant-1"⟩⟩ := by
  decide

theorem nonSpaceAt_rmatch (x : List EmailSym) :
    nonSpaceAt.rmatch x = true ↔ x = [.dot] ∨ x = [.other] := by
  unfold nonSpaceAt
  rw [RegularExpression.add_rmatch_iff, RegularExpression.char_rmatch_iff, RegularExpression.char_rmatch_iff]

theorem nonSpaceAtRun_rmatch (x : List EmailSym) :
    nonSpaceAtRun.rmatch x = true ↔ x ≠ [] ∧ ∀ a ∈ x, a = .dot ∨ a = .other := by
  unfold nonSpaceAtRun
  rw [RegularExpression.mul_rmatch_iff]
  constructor
  · rintro ⟨t, u, rfl, ht, hu⟩
    rw [nonSpaceAt_rmatch] at ht
    rw [RegularExpression.star_rmatch_iff] at hu
    obtain ⟨S, rfl, hS⟩ := hu
    have hall : ∀ a ∈ S.flatten, a = EmailSym.dot ∨ a = EmailSym.other := by
      intro a ha
      obtain ⟨l, hl, hal⟩ := List.mem_flatten.1 ha
      have := (nonSpaceAt_rmatch l).1 (hS l hl).2
      rcases this with rfl | rfl <;> simp at hal <;> simp [hal]
    rcases ht with rfl | rfl
    · refine ⟨by simp, ?_⟩
      intro a ha
      rcases List.mem_append.1 ha with h | h
      · simp at h; simp [h]
      · exact hall a h
    · refine ⟨by simp, ?_⟩
      intro a ha
      rcases List.mem_append.1 ha with h | h
      · simp at h; simp [h]
      · exact hall a h
  · rintro ⟨hne, hall⟩
    cases x with
    | nil => exact absurd rfl hne
    | cons a rest =>
      refine ⟨[a], rest, rfl, ?_, ?_⟩
      · rw [nonSpaceAt_rmatch]
        rcases hall a (List.mem_cons_self _ _) with h | h <;> simp [h]
      · rw [RegularExpression.star_rmatch_iff]
        refine ⟨rest.map fun b => [b], ?_, ?_⟩
        · clear hne hall
          induction rest with
          | nil => rfl
          | cons b rest ih => simpa using ih
        · intro t ht
          obtain ⟨b, hb, rfl⟩ := List.mem_map.1 ht
          refine ⟨by simp, ?_⟩
          rw [nonSpaceAt_rmatch]
          rcases hall b (List.mem_cons_of_mem _ hb) with h | h <;> simp [h]

theorem emailRegex_rmatch (x : List EmailSym) :
    emailRegex.rmatch x = true ↔
      ∃ u v w, x = u ++ EmailSym.at :: (v ++ EmailSym.dot :: w) ∧
        nonSpaceAtRun.rmatch u = true ∧ nonSpaceAtRun.rmatch v = true ∧
        nonSpaceAtRun.rmatch w = true := by
  unfold emailRegex
  constructor
  · intro h
    obtain ⟨u, r1, rfl, hu, h1⟩ := (RegularExpression.mul_rmatch_iff _ _ _).1 h
    obtain ⟨a, r2, rfl, ha, h2⟩ := (RegularExpression.mul_rmatch_iff _ _ _).1 h1
    obtain ⟨v, r3, rfl, hv, h3⟩ := (RegularExpression.mul_rmatch_iff _ _ _).1 h2
    obtain ⟨d, w, rfl, hd, hw⟩ := (RegularExpression.mul_rmatch_iff _ _ _).1 h3
    rw [RegularExpression.char_rmatch_iff] at ha hd
    subst ha hd
    exact ⟨u, v, w, by simp, hu, hv, hw⟩
  · rintro ⟨u, v, w, rfl, hu, hv, hw⟩
    refine (RegularExpression.mul_rmatch_iff _ _ _).2 ⟨u, _, rfl, hu, ?_⟩
    refine (RegularExpression.mul_rmatch_iff _ _ _).2 ⟨[EmailSym.at], _, rfl, (RegularExpression.char_rmatch_iff _ _).2 rfl, ?_⟩
    refine (RegularExpression.mul_rmatch_iff _ _ _).2 ⟨v, _, rfl, hv, ?_⟩
    exact (RegularExpression.mul_rmatch_iff _ _ _).2 ⟨[EmailSym.dot], _, rfl, (RegularExpression.char_rmatch_iff _ _).2 rfl, hw⟩

theorem classify_eq_at (c : Char) : classify c = .at ↔ c = '@' := by
  unfold classify
  split
  · simp [*]
  · split
    · simp [*]
    · split <;> simp [*]

theorem classify_eq_dot (c : Char) : classify c = .dot ↔ c = '.' := by
  unfold classify
  split
  · rename_i h
    subst h
    simp
  · split
    · simp [*]
    · split <;> simp [*]

theorem classify_plain (c : Char) :
    (classify c = .dot ∨ classify c = .other) ↔ c ≠ '@' ∧ isJsWhitespace c = false := by
  unfold classify
  split
  · simp [*]
  · split
    · rename_i h1 h2
      subst h2
      simp
      decide
    · split <;> simp [*]

/-- A run of `[^\s@]` over the characters of a text. -/
theorem nonSpaceAtRun_map_classify (l : List Char) :
    nonSpaceAtRun.rmatch (l.map classify) = true ↔
      l ≠ [] ∧ ∀ c ∈ l, c ≠ '@' ∧ isJsWhitespace c = false := by
  rw [nonSpaceAtRun_rmatch]
  constructor
  · rintro ⟨hne, hall⟩
    refine ⟨by simpa using hne, fun c hc => (classify_plain c).1 (hall _ (List.mem_map_of_mem _ hc))⟩
  · rintro ⟨hne, hall⟩
    refine ⟨by simpa using hne, ?_⟩
    intro a ha
    obtain ⟨c, hc, rfl⟩ := List.mem_map.1 ha
    exact (classify_plain c).2 (hall c hc)

/-- The pattern of `isValidEmail` read on the characters of the text. -/
theorem isValidEmail_iff_parts (s : String) :
    FooterSection.isValidEmail s = true ↔
      ∃ u v w : List Char, s.data = u ++ '@' :: (v ++ '.' :: w) ∧
        (u ≠ [] ∧ ∀ c ∈ u, c ≠ '@' ∧ isJsWhitespace c = false) ∧
        (v ≠ [] ∧ ∀ c ∈ v, c ≠ '@' ∧ isJsWhitespace c = false) ∧
        (w ≠ [] ∧ ∀ c ∈ w, c ≠ '@' ∧ isJsWhitespace c = false) := by
  unfold FooterSection.isValidEmail
  rw [emailRegex_rmatch]
  constructor
  · rintro ⟨u, v, w, h, hu, hv, hw⟩
    obtain ⟨u1, r1, h1, rfl, hr1⟩ := List.map_eq_append_iff.1 h
    obtain ⟨a, r2, rfl, ha, hr2⟩ := List.map_eq_cons_iff.1 hr1
    obtain ⟨v1, r3, rfl, rfl, hr3⟩ := List.map_eq_append_iff.1 hr2
    obtain ⟨d, w1, rfl, hd, rfl⟩ := List.map_eq_cons_iff.1 hr3
    rw [classify_eq_at] at ha
    rw [classify_eq_dot] at hd
    subst ha hd
    exact ⟨u1, v1, w1, h1, (nonSpaceAtRun_map_classify _).1 hu,
      (nonSpaceAtRun_map_classify _).1 hv, (nonSpaceAtRun_map_classify _).1 hw⟩
  · rintro ⟨u, v, w, h, hu, hv, hw⟩
    refine ⟨u.map classify, v.map classify, w.map classify, ?_,
      (nonSpaceAtRun_map_classify _).2 hu, (nonSpaceAtRun_map_classify _).2 hv,
      (nonSpaceAtRun_map_classify _).2 hw⟩
    rw [h]
    simp [(classify_eq_at '@').2 rfl, (classify_eq_dot '.').2 rfl]

/-- C22: `isValidEmail(s)` is true exactly when `s` holds no white space, holds one
`@` and no more, has at least one character before the `@`, and the part behind the
`@` holds a full stop that is neither its first nor its last character. -/
theorem isValidEmail_iff (s : String) :
    FooterSection.isValidEmail s = true ↔
      (∀ c ∈ s.data, isJsWhitespace c = false) ∧ s.data.count '@' = 1 ∧
      ∃ name domain : List Char, s.data = name ++ '@' :: domain ∧ name ≠ [] ∧
        ∃ x y : List Char, domain = x ++ '.' :: y ∧ x ≠ [] ∧ y ≠ [] := by
  rw [isValidEmail_iff_parts]
  have hat : isJsWhitespace '@' = false := by decide
  have hdot : isJsWhitespace '.' = false := by decide
  have hne : ('.' : Char) ≠ '@' := by decide
  constructor
  · rintro ⟨u, v, w, h, ⟨hu0, hu⟩, ⟨hv0, hv⟩, ⟨hw0, hw⟩⟩
    have cu : u.count '@' = 0 := List.count_eq_zero.2 fun hm => (hu _ hm).1 rfl
    have cv : v.count '@' = 0 := List.count_eq_zero.2 fun hm => (hv _ hm).1 rfl
    have cw : w.count '@' = 0 := List.count_eq_zero.2 fun hm => (hw _ hm).1 rfl
    refine ⟨?_, ?_, u, v ++ '.' :: w, h, hu0, v, w, rfl, hv0, hw0⟩
    · intro c hc
      rw [h] at hc
      simp only [List.mem_append, List.mem_cons] at hc
      rcases hc with hc | rfl | hc | rfl | hc
      · exact (hu c hc).2
      · exact hat
      · exact (hv c hc).2
      · exact hdot
      · exact (hw c hc).2
    · rw [h]
      simp [List.count_append, List.count_cons, cu, cv, cw, hne]
  · rintro ⟨hws, hcount, name, domain, h, hn0, x, y, rfl, hx0, hy0⟩
    rw [h] at hcount hws
    simp only [List.count_append, List.count_cons, beq_self_eq_true, if_true] at hcount
    have cu : name.count '@' = 0 := by omega
    have cx : x.count '@' = 0 := by omega
    have cy : y.count '@' = 0 := by omega
    refine ⟨name, x, y, h, ⟨hn0, fun c hc => ⟨?_, hws c (by simp [hc])⟩⟩,
      ⟨hx0, fun c hc => ⟨?_, hws c (by simp [hc])⟩⟩,
      ⟨hy0, fun c hc => ⟨?_, hws c (by simp [hc])⟩⟩⟩
    · rintro rfl
      exact List.count_eq_zero.1 cu hc
    · rintro rfl
      exact List.count_eq_zero.1 cx hc
    · rintro rfl
      exact List.count_eq_zero.1 cy hc

/-- C22 on two texts: an address with one `@`, and one with two. -/
theorem isValidEmail_iff_witness :
    "ann@shop.example".data.count '@' = 1 ∧
    ¬ FooterSection.isValidEmail "ann@@shop.example" = true :=
  ⟨((isValidEmail_iff "ann@shop.example").1 (by decide)).2.1,
   fun hv => absurd ((isValidEmail_iff "ann@@shop.example").1 hv).2.1 (by decide)⟩

/-- C23: on a submit of the subscribe form whose e-mail field holds `email`,
`submitNewsletter` is called, with `email`, exactly when `email` is not empty, passes
`isValidEmail`, and the privacy checkbox is absent or checked.  An empty or invalid
`email` shows 'Please enter a valid email address.', a valid one with the checkbox
unchecked shows 'Please agree to the privacy policy.', and in both cases no call is
made and no request is sent. -/
theorem newsletter_submit_validation (h : Host) (f : FooterSection) (email : String)
    (hin : f.newsletterInput = some email) :
    ∃ f1 : FooterSection, FooterSection.onSubmit h f = .ok f1 ∧
      (f1.submitted = f.submitted ++ [email] ↔
        (email ≠ "" ∧ FooterSection.isValidEmail email = true ∧
          (f.privacyCheckbox = none ∨ f.privacyCheckbox = some true))) ∧
      ((email ≠ "" ∧ FooterSection.isValidEmail email = true ∧
          (f.privacyCheckbox = none ∨ f.privacyCheckbox = some true)) →
        f1 = FooterSection.submitNewsletter email f) ∧
      ((email = "" ∨ FooterSection.isValidEmail email = false) →
        f1 = FooterSection.showMessage "Please enter a valid email address." "error" f) ∧
      (email ≠ "" → FooterSection.isValidEmail email = true →
        f.privacyCheckbox = some false →
        f1 = FooterSection.showMessage "Please agree to the privacy policy." "error" f) ∧
      (¬ (email ≠ "" ∧ FooterSection.isValidEmail email = true ∧
          (f.privacyCheckbox = none ∨ f.privacyCheckbox = some true)) →
        f1.submitted = f.submitted ∧ f1.requests = f.requests) := by
  have hneq : f.submitted ≠ f.submitted ++ [email] := by
    intro he
    have := congrArg List.length he
    simp at this
  have hsub : (FooterSection.submitNewsletter email f).submitted = f.submitted ++ [email] := by
    unfold FooterSection.submitNewsletter
    simp only []
    split <;> rfl
  by_cases he : email = ""
  · refine ⟨FooterSection.showMessage "Please enter a valid email address." "error" f, ?_,
      ?_, ?_, ?_, ?_, ?_⟩
    · simp [FooterSection.onSubmit, hin, he]
    · simp [FooterSection.showMessage, he, hneq]
    · intro hc; exact absurd he hc.1
    · intro _; rfl
    · intro hc; exact absurd he hc
    · intro _; exact ⟨rfl, rfl⟩
  · by_cases hv : FooterSection.isValidEmail email = true
    · cases hp : f.privacyCheckbox with
      | none =>
        refine ⟨FooterSection.submitNewsletter email f, ?_, ?_, ?_, ?_, ?_, ?_⟩
        · simp [FooterSection.onSubmit, hin, he, hv, hp]
        · simp [hsub, he, hv]
        · intro _; rfl
        · rintro (h1 | h1)
          · exact absurd h1 he
          · rw [hv] at h1; cases h1
        · intro _ _ h3; cases h3
        · intro hc; exact absurd ⟨he, hv, Or.inl rfl⟩ hc
      | some b =>
        cases b with
        | true =>
          refine ⟨FooterSection.submitNewsletter email f, ?_, ?_, ?_, ?_, ?_, ?_⟩
          · simp [FooterSection.onSubmit, hin, he, hv, hp]
          · simp [hsub, he, hv]
          · intro _; rfl
          · rintro (h1 | h1)
            · exact absurd h1 he
            · rw [hv] at h1; cases h1
          · intro _ _ h3; cases h3
          · intro hc; exact absurd ⟨he, hv, Or.inr rfl⟩ hc
        | false =>
          refine ⟨FooterSection.showMessage "Please agree to the privacy policy." "error" f,
            ?_, ?_, ?_, ?_, ?_, ?_⟩
          · simp [FooterSection.onSubmit, hin, he, hv, hp]
          · simp [FooterSection.showMessage, he, hv, hneq]
          · rintro ⟨_, _, h3 | h3⟩ <;> cases h3
          · rintro (h1 | h1)
            · exact absurd h1 he
            · rw [hv] at h1; cases h1
          · intro _ _ _; rfl
          · intro _; exact ⟨rfl, rfl⟩
    · refine ⟨FooterSection.showMessage "Please enter a valid email address." "error" f, ?_,
        ?_, ?_, ?_, ?_, ?_⟩
      · simp [FooterSection.onSubmit, hin, he, hv]
      · simp [FooterSection.showMessage, hv, hneq]
      · intro hc; exact absurd hc.2.1 hv
      · intro _; rfl
      · intro _ hc; exact absurd hc hv
      · intro _; exact ⟨rfl, rfl⟩

/-- C23 on a footer whose field holds a valid address: with the checkbox checked the
request goes out, with the checkbox unchecked the policy message shows. -/
theorem newsletter_submit_validation_witness :
    (∃ f1 : FooterSection,
      FooterSection.onSubmit demoHost (demoFooter "ann@shop.example" (some true)) = .ok f1 ∧
      f1.submitted = ["ann@shop.example"] ∧
      f1.requests = [FooterSection.newsletterBody "ann@shop.example"]) ∧
    (∃ f1 : FooterSection,
      FooterSection.onSubmit demoHost (demoFooter "ann@shop.example" (some false)) = .ok f1 ∧
      f1.messages = [⟨"Please agree to the privacy policy.", "error"⟩] ∧
      f1.requests = []) := by
  constructor
  · obtain ⟨f1, h1, _, h3, _⟩ := newsletter_submit_validation demoHost
      (demoFooter "ann@shop.example" (some true)) "ann@shop.example" rfl
    have := h3 ⟨by decide, by decide, Or.inr rfl⟩
    exact ⟨f1, h1, by rw [this]; rfl, by rw [this]; rfl⟩
  · obtain ⟨f1, h1, _, _, _, h5, _⟩ := newsletter_submit_validation demoHost
      (demoFooter "ann@shop.example" (some false)) "ann@shop.example" rfl
    have := h5 (by decide) (by decide) rfl
    exact ⟨f1, h1, by rw [this]; rfl, by rw [this]; rfl⟩

/-- A list of at most one element is its own insertion sort. -/
theorem insertionSort_of_short {α : Type} (r : α → α → Prop) [DecidableRel r] (l : List α)
    (hl : l.length < 2) : l.insertionSort r = l := by
  cases l with
  | nil => rfl
  | cons a t =>
    cases t with
    | nil => rfl
    | cons b u =>
      simp only [List.length_cons] at hl
      omega

/-- A stable sort keeps the order of the elements that the order holds level. -/
theorem insertionSort_filter {α : Type} (r : α → α → Prop) [DecidableRel r] (p : α → Bool)
    (l : List α) (hp : ∀ a b, p a = true → p b = true → r a b) :
    (l.insertionSort r).filter p = l.filter p := by
  have hpair : (l.filter p).Pairwise r :=
    List.pairwise_of_forall_mem_list fun a ha b hb =>
      hp a b (List.mem_filter.1 ha).2 (List.mem_filter.1 hb).2
  have hsub : List.Sublist (l.filter p) (l.insertionSort r) :=
    List.sublist_insertionSort hpair (List.filter_sublist l)
  have hsub2 : List.Sublist (l.filter p) ((l.insertionSort r).filter p) := by
    have := hsub.filter p
    rwa [List.filter_filter, show (fun a => p a && p a) = p from by funext a; simp] at this
  have hlen : (l.filter p).length = ((l.insertionSort r).filter p).length :=
    ((List.perm_insertionSort r l).filter p).length_eq.symm
  exact (hsub2.eq_of_length hlen).symm

namespace ShopPage

/-- Moving the nodes of `order` to the end of the grid, one after the other, leaves
the other children in place and puts the nodes of `order` behind them. -/
theorem foldl_appendChild (order : List ProductCard) (grid : List Nat) (hg : grid.Nodup)
    (ho : (order.map fun c => c.node).Nodup) :
    order.foldl appendChild grid =
      grid.filter (fun n => !(order.map fun c => c.node).contains n) ++
        order.map fun c => c.node := by
  induction order generalizing grid with
  | nil => simp
  | cons c rest ih =>
    obtain ⟨hc, hrest⟩ := List.nodup_cons.1 ho
    have hg1 : (appendChild grid c).Nodup := by
      unfold appendChild
      rw [List.nodup_append]
      refine ⟨hg.erase _, by simp, ?_⟩
      intro a ha hb
      simp at hb
      subst hb
      exact (List.Nodup.mem_erase_iff hg).1 ha |>.1 rfl
    rw [List.foldl_cons, ih _ hg1 hrest]
    unfold appendChild
    rw [hg.erase_eq_filter, List.filter_append, List.filter_filter]
    have h1 : List.filter (fun n => !(rest.map fun c => c.node).contains n) [c.node] =
        [c.node] := by
      simp only [List.filter_cons, List.filter_nil]
      have hc1 : c.node ∉ rest.map fun c => c.node := hc
      have : (rest.map fun c => c.node).contains c.node = false := by
        rw [Bool.eq_false_iff]
        intro hh
        exact hc1 (List.elem_iff.1 hh)
      rw [this]
      rfl
    rw [h1]
    simp only [List.map_cons, List.append_assoc, List.singleton_append]
    congr 1
    apply List.filter_congr
    intro n _
    by_cases h1 : n = c.node <;> by_cases h2 : ∃ a ∈ rest, a.node = n <;>
      simp [List.contains_cons, h1, h2]

end ShopPage

namespace ShopPage

/-- Where every card has a record with a number for a price, the records are found
for all of them. -/
theorem cardData_of_prices (h : Host) (shop : ShopPage) (price : ProductCard → Int)
    (cards : List ProductCard)
    (hp : ∀ c ∈ cards, ∃ p, getProductDataFromCard h shop c = .ok p ∧
      (p.field h "price").toNumber h = some (price c)) :
    ∃ pairs, cardData h shop cards = .ok pairs ∧ pairs.map (fun q => q.1) = cards ∧
      ∀ q ∈ pairs, (q.2.field h "price").toNumber h = some (price q.1) := by
  induction cards with
  | nil => exact ⟨[], rfl, rfl, by simp⟩
  | cons c rest ih =>
    obtain ⟨p, hp1, hp2⟩ := hp c (List.mem_cons_self _ _)
    obtain ⟨pairs, h1, h2, h3⟩ := ih fun d hd => hp d (List.mem_cons_of_mem _ hd)
    refine ⟨(c, p) :: pairs, ?_, by simp [h2], ?_⟩
    · simp only [cardData, hp1, h1]
    · intro q hq
      rcases List.mem_cons.1 hq with rfl | hq
      · exact hp2
      · exact h3 q hq

/-- The array after the sort, for a key whose comparison agrees with the order `s`
on the cards and that is not `name`. -/
theorem sortedCards_of_order (h : Host) (collate : String → String → Int) (sortBy : String)
    (shop : ShopPage) (price : ProductCard → Int)
    (s : ProductCard → ProductCard → Prop) [DecidableRel s]
    (hp : ∀ c ∈ shop.productCards, ∃ p, getProductDataFromCard h shop c = .ok p ∧
      (p.field h "price").toNumber h = some (price c))
    (hname : sortBy ≠ "name")
    (hs : ∀ a b : ProductCard × JsVal,
      (a.2.field h "price").toNumber h = some (price a.1) →
      (b.2.field h "price").toNumber h = some (price b.1) →
      ((compareData h collate sortBy a.2 b.2).all (fun v => decide (v ≤ 0)) = true ↔
        s a.1 b.1)) :
    sortedCards h collate sortBy shop = .ok (shop.productCards.insertionSort s) := by
  unfold sortedCards
  split
  · rename_i hlt
    rw [insertionSort_of_short s _ hlt]
  · obtain ⟨pairs, h1, h2, h3⟩ := cardData_of_prices h shop price shop.productCards hp
    simp only [h1, hname, decide_False, Bool.false_and, Bool.false_eq_true, if_false]
    congr 1
    unfold stableSort
    rw [List.map_insertionSort _ s (fun q : ProductCard × JsVal => q.1) pairs
      (fun a ha b hb => hs a b (h3 a ha) (h3 b hb)), h2]

end ShopPage

namespace ShopPage

/-- The grid after `sortProducts`, once the sorted array is known: the children that
are no cards stay in front, the cards follow in the order of the array. -/
theorem sortProducts_of_sortedCards (h : Host) (collate : String → String → Int)
    (sortBy : String) (shop : ShopPage) (order : List ProductCard)
    (hsorted : sortedCards h collate sortBy shop = .ok order)
    (hperm : order.Perm shop.productCards) (hg : shop.grid.Nodup)
    (hn : (shop.productCards.map fun c => c.node).Nodup) :
    sortProducts h collate sortBy shop =
      .ok { shop with
        grid := shop.grid.filter
            (fun n => !(shop.productCards.map fun c => c.node).contains n) ++
          order.map fun c => c.node } := by
  have hn1 : (order.map fun c => c.node).Nodup := (hperm.map _).nodup_iff.2 hn
  unfold sortProducts
  rw [hsorted]
  simp only [foldl_appendChild order shop.grid hg hn1]
  congr 3
  apply List.filter_congr
  intro n _
  have : n ∈ (order.map fun c => c.node) ↔ n ∈ (shop.productCards.map fun c => c.node) :=
    (hperm.map _).mem_iff
  show (!List.elem n (order.map fun c => c.node)) =
    !List.elem n (shop.productCards.map fun c => c.node)
  by_cases hm : n ∈ (shop.productCards.map fun c => c.node)
  · rw [List.elem_eq_true_of_mem hm, List.elem_eq_true_of_mem (this.2 hm)]
  · have h1 : List.elem n (shop.productCards.map fun c => c.node) = false := by
      rw [Bool.eq_false_iff]
      exact fun hh => hm (List.elem_iff.1 hh)
    have h2 : List.elem n (order.map fun c => c.node) = false := by
      rw [Bool.eq_false_iff]
      exact fun hh => hm (this.1 (List.elem_iff.1 hh))
    rw [h1, h2]

end ShopPage

/-- C30: where every card has a product record with an integer price, the array that
`sortProducts('price-low')` re-appends to the grid is a permutation of the cards in
non-decreasing price order in which the cards of one price keep their order;
`sortProducts('price-high')` gives the same in non-increasing price order; and a key
that is not recognised re-appends the cards in the order they had, which is the
order of the list the constructor collected.  In each case the children of the grid
that are no cards stay in front and the cards follow in the order of the array. -/
theorem sortProducts_orders_by_price (h : Host) (collate : String → String → Int)
    (shop : ShopPage) (price : ProductCard → Int)
    (hp : ∀ c ∈ shop.productCards, ∃ p, ShopPage.getProductDataFromCard h shop c = .ok p ∧
      (p.field h "price").toNumber h = some (price c))
    (hg : shop.grid.Nodup) (hn : (shop.productCards.map fun c => c.node).Nodup) :
    (∃ low : List ProductCard,
      ShopPage.sortedCards h collate "price-low" shop = .ok low ∧
      low.Perm shop.productCards ∧
      low.Pairwise (fun a b => price a ≤ price b) ∧
      (∀ p : Int, low.filter (fun c => decide (price c = p)) =
        shop.productCards.filter (fun c => decide (price c = p))) ∧
      ShopPage.sortProducts h collate "price-low" shop =
        .ok { shop with
          grid := shop.grid.filter
              (fun n => !(shop.productCards.map fun c => c.node).contains n) ++
            low.map fun c => c.node }) ∧
    (∃ high : List ProductCard,
      ShopPage.sortedCards h collate "price-high" shop = .ok high ∧
      high.Perm shop.productCards ∧
      high.Pairwise (fun a b => price b ≤ price a) ∧
      (∀ p : Int, high.filter (fun c => decide (price c = p)) =
        shop.productCards.filter (fun c => decide (price c = p))) ∧
      ShopPage.sortProducts h collate "price-high" shop =
        .ok { shop with
          grid := shop.grid.filter
              (fun n => !(shop.productCards.map fun c => c.node).contains n) ++
            high.map fun c => c.node }) ∧
    (∀ key : String, key ≠ "price-low" → key ≠ "price-high" → key ≠ "name" →
      ShopPage.sortedCards h collate key shop = .ok shop.productCards ∧
      ShopPage.sortProducts h collate key shop =
        .ok { shop with
          grid := shop.grid.filter
              (fun n => !(shop.productCards.map fun c => c.node).contains n) ++
            shop.productCards.map fun c => c.node }) := by
  refine ⟨?_, ?_, ?_⟩
  · have hsort := ShopPage.sortedCards_of_order h collate "price-low" shop price
      (fun a b => price a ≤ price b) hp (by decide) (by
        intro a b ha hb
        simp [ShopPage.compareData, ShopPage.minus, ha, hb])
    haveI : IsTotal ProductCard (fun a b => price a ≤ price b) := ⟨fun a b => le_total _ _⟩
    haveI : IsTrans ProductCard (fun a b => price a ≤ price b) :=
      ⟨fun a b c hab hbc => le_trans hab hbc⟩
    refine ⟨_, hsort, List.perm_insertionSort _ _, List.sorted_insertionSort _ _, ?_,
      ShopPage.sortProducts_of_sortedCards h collate _ shop _ hsort
        (List.perm_insertionSort _ _) hg hn⟩
    intro p
    apply insertionSort_filter
    intro a b ha hb
    simp only [decide_eq_true_eq] at ha hb
    rw [ha, hb]
  · have hsort := ShopPage.sortedCards_of_order h collate "price-high" shop price
      (fun a b => price b ≤ price a) hp (by decide) (by
        intro a b ha hb
        simp [ShopPage.compareData, ShopPage.minus, ha, hb])
    haveI : IsTotal ProductCard (fun a b => price b ≤ price a) := ⟨fun a b => le_total _ _⟩
    haveI : IsTrans ProductCard (fun a b => price b ≤ price a) :=
      ⟨fun a b c hab hbc => le_trans hbc hab⟩
    refine ⟨_, hsort, List.perm_insertionSort _ _, List.sorted_insertionSort _ _, ?_,
      ShopPage.sortProducts_of_sortedCards h collate _ shop _ hsort
        (List.perm_insertionSort _ _) hg hn⟩
    intro p
    apply insertionSort_filter
    intro a b ha hb
    simp only [decide_eq_true_eq] at ha hb
    rw [ha, hb]
  · intro key h1 h2 h3
    have hsort := ShopPage.sortedCards_of_order h collate key shop price
      (fun _ _ => True) hp h3 (by
        intro a b _ _
        simp [ShopPage.compareData, h1, h2, h3])
    have hid : shop.productCards.insertionSort (fun _ _ => True) = shop.productCards :=
      List.Sorted.insertionSort_eq (List.pairwise_of_forall fun _ _ => trivial)
    rw [hid] at hsort
    exact ⟨hsort, ShopPage.sortProducts_of_sortedCards h collate _ shop _ hsort
      (List.Perm.refl _) hg hn⟩

/-- C30 on the shop of three cards priced 300, 100 and 300: by rising price the card
of 100 comes first and the two cards of 300 keep their order; an unknown key keeps
the cards as they were. -/
theorem sortProducts_orders_by_price_witness :
    (∃ low : List ProductCard,
      ShopPage.sortedCards demoHost demoCollate "price-low" demoShop = .ok low ∧
      low.filter (fun c => decide (demoPrice c = 300)) = [⟨1, some "11"⟩, ⟨3, some "13"⟩]) ∧
    ShopPage.sortedCards demoHost demoCollate "featured" demoShop =
      .ok [⟨1, some "11"⟩, ⟨2, some "12"⟩, ⟨3, some "13"⟩] := by
  have hp : ∀ c ∈ demoShop.productCards, ∃ p,
      ShopPage.getProductDataFromCard demoHost demoShop c = .ok p ∧
      (p.field demoHost "price").toNumber demoHost = some (demoPrice c) := by
    intro c hc
    simp only [demoShop, List.mem_cons, List.mem_singleton, List.not_mem_nil, or_false] at hc
    rcases hc with rfl | rfl | rfl <;> exact ⟨_, rfl, rfl⟩
  obtain ⟨⟨low, h1, _, _, h4, _⟩, _, h7⟩ :=
    sortProducts_orders_by_price demoHost demoCollate demoShop demoPrice hp
      (by decide) (by decide)
  exact ⟨⟨low, h1, (h4 300).trans (by decide)⟩,
    (h7 "featured" (by decide) (by decide) (by decide)).1⟩

/-! ## The rendered rows, the missing broadcast and the failure path -/

/-- Three consecutive parts of a joined list, cut inside the first and the last. -/
theorem join_window3 (parts : List String) (i : Nat) (a b x c d : String)
    (hw : (parts.drop i).take 3 = [a ++ b, x, c ++ d]) :
    ∃ pre post, String.join parts = pre ++ (b ++ x ++ c) ++ post := by
  refine ⟨String.join (parts.take i) ++ a, d ++ String.join ((parts.drop i).drop 3), ?_⟩
  have h1 : parts = parts.take i ++ ((parts.drop i).take 3 ++ (parts.drop i).drop 3) := by
    rw [List.take_append_drop, List.take_append_drop]
  conv_lhs => rw [h1]
  rw [join_split, join_split, hw]
  apply String.ext
  simp [String.join_eq]

/-- What the row of a line item object shows: the identifier of the item, its title,
its line price and its quantity. -/
theorem row_contents (h : Host) (ps : List (String × JsVal)) (row : String)
    (hrow : renderCartItem h (.obj ps) = .ok row) :
    containsText row
      ("<div class=\"cart-drawer-item\" data-item-id=\"" ++
        (JsVal.lookup "id" ps).toStr ++ "\">") = true ∧
    containsText row
      ("<h4 class=\"cart-item-title\">" ++
        (JsVal.lookup "product_title" ps).toStr ++ "</h4>") = true ∧
    containsText row
      ("<span class=\"cart-item-price\">" ++
        formatMoney h (JsVal.lookup "final_line_price" ps) ++ "</span>") = true ∧
    containsText row
      ("<span class=\"quantity-display\">" ++
        (JsVal.lookup "quantity" ps).toStr ++ "</span>") = true := by
  have hr : row = rowOf h (.obj ps) := by
    simp only [renderCartItem, JsVal.get, JsVal.field, Except.ok.injEq] at hrow
    simp [rowOf, renderCartItem, JsVal.get, JsVal.field, hrow]
  subst hr
  refine ⟨?_, ?_, ?_, ?_⟩
  · have hwin : ∃ pre post : String, rowOf h (.obj ps) = pre ++
        ("<div class=\"cart-drawer-item\" data-item-id=\"" ++
          (JsVal.lookup "id" ps).toStr ++ "\">") ++ post := by
      simp only [rowOf, renderCartItem, JsVal.get, JsVal.field]
      exact join_window3 _ 0 "\n      " _ _ _
        "\n        <div class=\"cart-item-image\">\n          " rfl
    obtain ⟨pre, post, hpp⟩ := hwin
    exact containsText_of_eq _ pre _ post hpp
  · have hwin : ∃ pre post : String, rowOf h (.obj ps) = pre ++
        ("<h4 class=\"cart-item-title\">" ++
          (JsVal.lookup "product_title" ps).toStr ++ "</h4>") ++ post := by
      simp only [rowOf, renderCartItem, JsVal.get, JsVal.field]
      exact join_window3 _ 4
        "\n        </div>\n        \n        <div class=\"cart-item-details\">\n          " _ _ _
        "\n          " rfl
    obtain ⟨pre, post, hpp⟩ := hwin
    exact containsText_of_eq _ pre _ post hpp
  · have hwin : ∃ pre post : String, rowOf h (.obj ps) = pre ++
        ("<span class=\"cart-item-price\">" ++
          formatMoney h (JsVal.lookup "final_line_price" ps) ++ "</span>") ++ post := by
      simp only [rowOf, renderCartItem, JsVal.get, JsVal.field]
      exact join_window3 _ 8
        "\n          \n          <div class=\"cart-item-price-row\">\n            " _ _ _
        "\n            " rfl
    obtain ⟨pre, post, hpp⟩ := hwin
    exact containsText_of_eq _ pre _ post hpp
  · have hwin : ∃ pre post : String, rowOf h (.obj ps) = pre ++
        ("<span class=\"quantity-display\">" ++
          (JsVal.lookup "quantity" ps).toStr ++ "</span>") ++ post := by
      simp only [rowOf, renderCartItem, JsVal.get, JsVal.field]
      exact join_window3 _ 16
        "\"\n                    aria-label=\"Decrease quantity\">\n              -\n            </button>\n            " _ _ _
        "\n            <button class=\"quantity-btn quantity-increase\" \n                    data-item-id=\"" rfl
    obtain ⟨pre, post, hpp⟩ := hwin
    exact containsText_of_eq _ pre _ post hpp

/-- The rows rendered for line item objects show the items, one row for one item. -/
theorem rows_show_items (h : Host) (xs : List JsVal) (rows : List String)
    (hx : ∀ x ∈ xs, ∃ ps, x = .obj ps)
    (hall : List.Forall₂ (fun x row => renderCartItem h x = .ok row) xs rows) :
    List.Forall₂ (fun x row => renderCartItem h x = .ok row ∧
      containsText row
        ("<div class=\"cart-drawer-item\" data-item-id=\"" ++
          (x.field h "id").toStr ++ "\">") = true ∧
      containsText row
        ("<h4 class=\"cart-item-title\">" ++
          (x.field h "product_title").toStr ++ "</h4>") = true ∧
      containsText row
        ("<span class=\"cart-item-price\">" ++
          formatMoney h (x.field h "final_line_price") ++ "</span>") = true ∧
      containsText row
        ("<span class=\"quantity-display\">" ++
          (x.field h "quantity").toStr ++ "</span>") = true) xs rows := by
  induction hall with
  | nil => exact List.Forall₂.nil
  | @cons x row xs2 rows2 hrow _ ih =>
    obtain ⟨ps, hps⟩ := hx x (List.mem_cons_self _ _)
    subst hps
    exact List.Forall₂.cons ⟨hrow, row_contents h ps row hrow⟩
      (ih fun y hy => hx y (List.mem_cons_of_mem _ hy))

/-- C8: for a cart whose `item_count` is the number `n` and whose `items` are line
item objects, after `updateCartDisplay` the drawer count and every badge show `n` (a
badge is displayed exactly when `0 < n`), the subtotal shows `formatMoney(total_price)`,
the items container holds one row for each item, in order, and the row of an item
shows its `id`, its `product_title`, its `final_line_price` as money and its
`quantity` (the empty-state markup when there are no items), and the checkout button
is disabled exactly when `n = 0`. -/
theorem updateCartDisplay_renders_cart (h : Host) (s : State) (ok : Bool) (cart : JsVal)
    (n : Int) (xs : List JsVal)
    (hc : cart.get h "item_count" = .ok (.num n))
    (hi : cart.field h "items" = .arr xs)
    (hx : ∀ x ∈ xs, ∃ ps, x = .obj ps) :
    (updateCartDisplay h s (.response ok (.ok cart))).1.dom.countElement =
      s.dom.countElement.map (fun _ => toString n) ∧
    (updateCartDisplay h s (.response ok (.ok cart))).1.dom.badges =
      s.dom.badges.map (fun _ => ⟨toString n, if 0 < n then "block" else "none"⟩) ∧
    (updateCartDisplay h s (.response ok (.ok cart))).1.dom.subtotalElement =
      s.dom.subtotalElement.map (fun _ => formatMoney h (cart.field h "total_price")) ∧
    (∃ rows,
      List.Forall₂ (fun x row => renderCartItem h x = .ok row ∧
        containsText row
          ("<div class=\"cart-drawer-item\" data-item-id=\"" ++
            (x.field h "id").toStr ++ "\">") = true ∧
        containsText row
          ("<h4 class=\"cart-item-title\">" ++
            (x.field h "product_title").toStr ++ "</h4>") = true ∧
        containsText row
          ("<span class=\"cart-item-price\">" ++
            formatMoney h (x.field h "final_line_price") ++ "</span>") = true ∧
        containsText row
          ("<span class=\"quantity-display\">" ++
            (x.field h "quantity").toStr ++ "</span>") = true) xs rows ∧
      (updateCartDisplay h s (.response ok (.ok cart))).1.dom.itemsContainer =
        s.dom.itemsContainer.map
          (fun c => ⟨if xs.isEmpty then emptyStateHTML else String.join rows, c.loading⟩)) ∧
    (updateCartDisplay h s (.response ok (.ok cart))).1.dom.checkoutBtn =
      s.dom.checkoutBtn.map (fun _ => decide (n = 0)) := by
  obtain ⟨rows, hrows, hall⟩ := renderRows_of_objects h xs hx
  have hshow := rows_show_items h xs rows hx hall
  have hz : (JsVal.num n).isZero = decide (n = 0) := by
    by_cases hn : n = 0 <;> simp [JsVal.isZero, hn]
  have hres : (updateCartDisplay h s (.response ok (.ok cart))).1 =
      (let s3 : State := match s.dom.itemsContainer with
        | none => updateSubtotal h (cart.field h "total_price")
            (updateCartCount h (.num n) (updateCartDisplayBegin s))
        | some _ => setItemsHTML (if xs.isEmpty then emptyStateHTML else String.join rows)
            (updateSubtotal h (cart.field h "total_price")
              (updateCartCount h (.num n) (updateCartDisplayBegin s)))
       { s3 with dom := { s3.dom with
          checkoutBtn := s3.dom.checkoutBtn.map fun _ => decide (n = 0) } }) := by
    simp only [updateCartDisplay, refreshLand, refreshOnJson, applyCart, hc, hi]
    rw [renderCartItems_of_rows h xs rows _ hrows, hz]
    rfl
  rw [hres]
  cases hcont : s.dom.itemsContainer with
  | none =>
    refine ⟨?_, ?_, ?_, ⟨rows, hshow, ?_⟩, ?_⟩ <;>
      simp [updateSubtotal, updateCartCount, updateCartDisplayBegin, JsVal.toText, JsVal.toStr,
        gt_zero_num, hcont]
  | some c =>
    refine ⟨?_, ?_, ?_, ⟨rows, hshow, ?_⟩, ?_⟩ <;>
      simp [updateSubtotal, updateCartCount, updateCartDisplayBegin, JsVal.toText, JsVal.toStr,
        gt_zero_num, hcont, setItemsHTML]

set_option maxRecDepth 100000 in
/-- C8 at `demoState` for a cart of two units in one row: the count reads 2, the
checkout button is enabled, and the one row shows the item `line-1`, the title `Tee`
and the quantity 2. -/
theorem updateCartDisplay_renders_cart_witness :
    demoFullCart.get demoHost "item_count" = .ok (.num 2) ∧
    demoFullCart.field demoHost "items" = .arr [demoItem] ∧
    (updateCartDisplay demoHost demoState
      (.response true (.ok demoFullCart))).1.dom.countElement = some "2" ∧
    (updateCartDisplay demoHost demoState
      (.response true (.ok demoFullCart))).1.dom.checkoutBtn = some false ∧
    (updateCartDisplay demoHost demoState
      (.response true (.ok demoFullCart))).1.dom.itemsContainer =
        some ⟨rowOf demoHost demoItem, false⟩ ∧
    containsText (rowOf demoHost demoItem)
      "<div class=\"cart-drawer-item\" data-item-id=\"line-1\">" = true ∧
    containsText (rowOf demoHost demoItem) "<h4 class=\"cart-item-title\">Tee</h4>" = true ∧
    containsText (rowOf demoHost demoItem) "<span class=\"quantity-display\">2</span>" = true :=
  ⟨rfl, rfl,
    (updateCartDisplay_renders_cart demoHost demoState true demoFullCart 2 [demoItem] rfl rfl
      (fun _ hx => ⟨_, List.mem_singleton.mp hx⟩)).1.trans rfl,
    (updateCartDisplay_renders_cart demoHost demoState true demoFullCart 2 [demoItem] rfl rfl
      (fun _ hx => ⟨_, List.mem_singleton.mp hx⟩)).2.2.2.2.trans rfl,
    rfl, by decide, by decide, by decide⟩

/-- C9 (the code does otherwise): in the end-to-end scenario of the specification
`addItem` succeeds and the refresh reads a cart of five units.  No event is
dispatched, so no `cart:updated` event exists: the drawer count shows 5 while the
count of the header, which only the `cart:updated` listener of `header.js` updates,
still shows 2.  Had the event been dispatched with `item_count` 5, that listener
would have written 5. -/
theorem addItem_success_broadcasts_nothing :
    (addItem demoHost demoState (.str "variant-42") (.num 2) (.obj [])
      (.response true (.ok demoItem)) (.response true (.ok demoGrownCart))).2 =
        .resolved demoItem ∧
    (addItem demoHost demoState (.str "variant-42") (.num 2) (.obj [])
      (.response true (.ok demoItem)) (.response true (.ok demoGrownCart))).1.events = [] ∧
    (¬ ∃ ev ∈ (addItem demoHost demoState (.str "variant-42") (.num 2) (.obj [])
      (.response true (.ok demoItem)) (.response true (.ok demoGrownCart))).1.events,
        ev.name = "cart:updated") ∧
    (addItem demoHost demoState (.str "variant-42") (.num 2) (.obj [])
      (.response true (.ok demoItem)) (.response true (.ok demoGrownCart))).1.dom.countElement =
        some "5" ∧
    (addItem demoHost demoState (.str "variant-42") (.num 2) (.obj [])
      (.response true (.ok demoItem)) (.response true (.ok demoGrownCart))).1.dom.headerCount =
        some ⟨"2", "2", "flex"⟩ ∧
    (headerOnCartUpdated demoHost (.obj [("item_count", .num 5)])
      (addItem demoHost demoState (.str "variant-42") (.num 2) (.obj [])
        (.response true (.ok demoItem))
        (.response true (.ok demoGrownCart))).1.dom).headerCount =
        some ⟨"5", "5", "flex"⟩ := by
  refine ⟨rfl, rfl, ?_, rfl, rfl, rfl⟩
  have he : (addItem demoHost demoState (.str "variant-42") (.num 2) (.obj [])
      (.response true (.ok demoItem)) (.response true (.ok demoGrownCart))).1.events = [] := rfl
  rw [he]
  simp

/-- C12 (the code does otherwise): the page shows an empty cart with the checkout
button disabled, and an `updateQuantity` started when not busy meets a network that is
unreachable.  The error notification is shown, no refresh is requested and the call
resolves, but the rendered cart state does not stay as it was: the `finally` block
runs `setLoading(false)`, which enables the checkout button on the empty cart. -/
theorem failed_update_enables_checkout_on_empty_cart :
    demoEmptied.isLoading = false ∧
    demoEmptied.dom.countElement = some "0" ∧
    demoEmptied.dom.checkoutBtn = some true ∧
    (updateQuantity demoHost demoEmptied (.str "line-1") (.num 1)
      (.failed ⟨"Failed to fetch"⟩) (.response true (.ok emptyCart))).2 =
        .resolved .undefined ∧
    (updateQuantity demoHost demoEmptied (.str "line-1") (.num 1)
      (.failed ⟨"Failed to fetch"⟩) (.response true (.ok emptyCart))).1.feedback =
        demoEmptied.feedback ++ [⟨"Failed to update cart", "error"⟩] ∧
    (updateQuantity demoHost demoEmptied (.str "line-1") (.num 1)
      (.failed ⟨"Failed to fetch"⟩) (.response true (.ok emptyCart))).1.requests =
        demoEmptied.requests ++ [.change (.obj [("id", .str "line-1"), ("quantity", .num 1)])] ∧
    (updateQuantity demoHost demoEmptied (.str "line-1") (.num 1)
      (.failed ⟨"Failed to fetch"⟩) (.response true (.ok emptyCart))).1.dom.countElement =
        some "0" ∧
    (updateQuantity demoHost demoEmptied (.str "line-1") (.num 1)
      (.failed ⟨"Failed to fetch"⟩) (.response true (.ok emptyCart))).1.dom.checkoutBtn =
        some false :=
  ⟨rfl, rfl, rfl, rfl, rfl, rfl, rfl, rfl⟩

/-- C24: with `c` the parsed content of the quantity field, or 1 where the content is
not a number or is 0, and `c` a safe integer, among which the doubles of the source
count exactly, a click on the plus button writes `c + 1` and a click on another
quantity button writes `max(1, c - 1)`, each with one `change` event; then from a
content that is not a number or not negative every click leaves a number that is at
least 1.  For every content the `input` listener replaces a content that is not a
number or is below 1 by 1 and keeps every other content, so that a number that is at
least 1 is left. -/
theorem quantity_stays_at_least_one (q : QuantityInput) (c : Int)
    (hc : c = match jsParseInt q.value with
      | some n => if n = 0 then 1 else n
      | none => 1) :
    (c.natAbs < 9007199254740992 →
      ProductPage.quantityClick true q =
        some ⟨toString (c + 1), q.changeEvents + 1⟩ ∧
      ProductPage.quantityClick false q =
        some ⟨toString (max 1 (c - 1)), q.changeEvents + 1⟩ ∧
      (0 ≤ c → ∀ isPlus, ∃ (q1 : QuantityInput) (m : Int),
        ProductPage.quantityClick isPlus q = some q1 ∧
        jsParseInt q1.value = some m ∧ 1 ≤ m)) ∧
    ((jsParseInt q.value = none ∨ ∃ n, jsParseInt q.value = some n ∧ n < 1) →
      (ProductPage.quantityInputEvent q).value = "1") ∧
    ((∃ n, jsParseInt q.value = some n ∧ 1 ≤ n) → ProductPage.quantityInputEvent q = q) ∧
    (∃ m : Int, jsParseInt (ProductPage.quantityInputEvent q).value = some m ∧ 1 ≤ m) := by
  have hcur : orElseNumber (jsParseInt q.value) 1 = c := by
    rw [hc]
    cases jsParseInt q.value <;> rfl
  refine ⟨?_, ?_, ?_, ?_⟩
  · intro hsafe
    have hs : isSafeInteger c = true := by simp [isSafeInteger, hsafe]
    have hplus : ProductPage.quantityClick true q =
        some ⟨toString (c + 1), q.changeEvents + 1⟩ := by
      simp [ProductPage.quantityClick, hcur, hs]
    have hminus : ProductPage.quantityClick false q =
        some ⟨toString (max 1 (c - 1)), q.changeEvents + 1⟩ := by
      simp [ProductPage.quantityClick, hcur, hs]
    refine ⟨hplus, hminus, ?_⟩
    intro h0 isPlus
    cases isPlus
    · exact ⟨_, max 1 (c - 1), hminus, jsParseInt_toString _, le_max_left _ _⟩
    · exact ⟨_, c + 1, hplus, jsParseInt_toString _, by omega⟩
  · rintro (h | ⟨n, h, hn⟩)
    · simp [ProductPage.quantityInputEvent, h]
    · simp [ProductPage.quantityInputEvent, h, hn]
  · rintro ⟨n, h, hn⟩
    have : ¬ n < 1 := by omega
    simp [ProductPage.quantityInputEvent, h, this]
  · unfold ProductPage.quantityInputEvent
    split
    · exact ⟨1, (by decide : jsParseInt "1" = some 1), le_refl _⟩
    · rename_i n hn
      split
      · exact ⟨1, (by decide : jsParseInt "1" = some 1), le_refl _⟩
      · exact ⟨n, hn, by omega⟩

/-- C24 on a field holding `7` and on an empty field. -/
theorem quantity_stays_at_least_one_witness :
    (ProductPage.quantityClick true ⟨"7", 0⟩ = some ⟨"8", 1⟩ ∧
      ProductPage.quantityClick false ⟨"7", 0⟩ = some ⟨"6", 1⟩) ∧
    (ProductPage.quantityClick true ⟨"", 0⟩ = some ⟨"2", 1⟩ ∧
      ProductPage.quantityClick false ⟨"", 0⟩ = some ⟨"1", 1⟩) :=
  ⟨⟨((quantity_stays_at_least_one ⟨"7", 0⟩ 7 (by decide)).1 (by decide)).1,
    ((quantity_stays_at_least_one ⟨"7", 0⟩ 7 (by decide)).1 (by decide)).2.1⟩,
   ⟨((quantity_stays_at_least_one ⟨"", 0⟩ 1 (by decide)).1 (by decide)).1,
    ((quantity_stays_at_least_one ⟨"", 0⟩ 1 (by decide)).1 (by decide)).2.1⟩⟩

end Glade
